import Mathlib

/-!
# I2NP message layer of the i2pd router (I2NPProtocol.cpp)

A shallow embedding of the message builders, the tunnel-build engine and the
gateway wrap/unwrap path of `I2NPProtocol.cpp`.

* Memory is a `List Nat` of bytes; a pointer into a buffer is a position.
  `memcpy` and scalar stores are `writeAt`, loads are `readAt` / `byteAt`.
* The process-wide state (message-ID counter, clock and RNG read positions,
  tunnel registry, the queues and sinks of the collaborators) is the explicit
  `World` that every stateful function threads through.
* Everything that lives outside `I2NPProtocol.cpp` and is not described by the
  data model (SHA-256, ElGamal, AES-CBC, gzip, the clock, the RNG, the pending
  tunnel's validation) is a field of `Env`, so every theorem holds for all of
  them.
* A freshly allocated message has indeterminate contents: `NewI2NPMessage`
  takes that memory as its argument `mem`, whose length is the capacity of the
  message buffer.
-/

namespace I2NP

/-! ## Bytes and buffers -/

/-- Byte stored at position `i` of a buffer; positions past the end read as 0. -/
def byteAt (buf : List Nat) (i : Nat) : Nat := buf.getD i 0

/-- The `n` bytes of `buf` that start at position `pos`. -/
def readAt (buf : List Nat) (pos n : Nat) : List Nat :=
  (List.range n).map fun i => byteAt buf (pos + i)

/-- Store the bytes `bs` into `buf` from position `pos` on (a `memcpy` into the
buffer); the buffer keeps its size. -/
def writeAt (buf : List Nat) (pos : Nat) (bs : List Nat) : List Nat :=
  (List.range buf.length).map fun i =>
    if pos ≤ i ∧ i < pos + bs.length then byteAt bs (i - pos) else byteAt buf i

/-- Bytes stored by `*(uint16_t *)p = htobe16 (x)`. -/
def htobe16 (x : Nat) : List Nat := [x / 256 % 256, x % 256]

/-- Bytes stored by `*(uint32_t *)p = htobe32 (x)`. -/
def htobe32 (x : Nat) : List Nat :=
  [x / 16777216 % 256, x / 65536 % 256, x / 256 % 256, x % 256]

/-- Bytes stored by `*(uint64_t *)p = htobe64 (x)`. -/
def htobe64 (x : Nat) : List Nat :=
  [x / 72057594037927936 % 256, x / 281474976710656 % 256, x / 1099511627776 % 256,
   x / 4294967296 % 256, x / 16777216 % 256, x / 65536 % 256, x / 256 % 256, x % 256]

/-- The value of a `uint8_t` load: a stored byte, which is below 256. -/
def u8 (bs : List Nat) (i : Nat) : Nat := byteAt bs i % 256

/-- Value of `be16toh (*(uint16_t *)p)` for the two bytes at `p`. -/
def be16toh (bs : List Nat) : Nat := u8 bs 0 * 256 + u8 bs 1

/-- Value of `be32toh (*(uint32_t *)p)` for the four bytes at `p`. -/
def be32toh (bs : List Nat) : Nat :=
  u8 bs 0 * 16777216 + u8 bs 1 * 65536 + u8 bs 2 * 256 + u8 bs 3

/-- Value of `be64toh (*(uint64_t *)p)` for the eight bytes at `p`. -/
def be64toh (bs : List Nat) : Nat :=
  u8 bs 0 * 72057594037927936 + u8 bs 1 * 281474976710656 +
  u8 bs 2 * 1099511627776 + u8 bs 3 * 4294967296 +
  u8 bs 4 * 16777216 + u8 bs 5 * 65536 + u8 bs 6 * 256 + u8 bs 7

/-! ## Data model -/

/-- Modelled from the spec: the wire types of section 6 (the enum is declared in
I2NPProtocol.h, which is not among the sources). -/
inductive I2NPMessageType
  | eI2NPDatabaseStore
  | eI2NPDatabaseLookup
  | eI2NPDatabaseSearchReply
  | eI2NPDeliveryStatus
  | eI2NPGarlic
  | eI2NPTunnelData
  | eI2NPTunnelGateway
  | eI2NPTunnelBuild
  | eI2NPTunnelBuildReply
  | eI2NPVariableTunnelBuild
  | eI2NPVariableTunnelBuildReply
deriving DecidableEq, Repr

/-- Modelled from the spec: the numeric value of each wire type, which the spec
requires to be the one of the I2P specification. -/
def I2NPMessageType.toByte : I2NPMessageType → Nat
  | .eI2NPDatabaseStore => 1
  | .eI2NPDatabaseLookup => 2
  | .eI2NPDatabaseSearchReply => 3
  | .eI2NPDeliveryStatus => 10
  | .eI2NPGarlic => 11
  | .eI2NPTunnelData => 18
  | .eI2NPTunnelGateway => 19
  | .eI2NPTunnelBuild => 21
  | .eI2NPTunnelBuildReply => 22
  | .eI2NPVariableTunnelBuild => 23
  | .eI2NPVariableTunnelBuildReply => 24

/-- Modelled from the spec: `sizeof (I2NPHeader)`, the 16-byte header
`type_id:u8 | msg_id:u32 | expiration:u64 | size:u16 | checksum:u8`. -/
def sizeofI2NPHeader : Nat := 16

/-- Modelled from the spec: `sizeof (TunnelGatewayHeader)`, the 6-byte header
`tunnel_id:u32 | length:u16`. -/
def sizeofTunnelGatewayHeader : Nat := 6

/-- Modelled from the spec: size of one build record (request or response). -/
def sizeofBuildRecord : Nat := 528

/-- Modelled from the spec: size of the clear text of a build request record. -/
def sizeofClearText : Nat := 222

/-- Modelled from the spec: the fixed `TunnelBuild` variant has 8 records. -/
def NUM_TUNNEL_BUILD_RECORDS : Nat := 8

/-- Modelled from the spec: `sizeof (I2NPDeliveryStatusMsg)`, the payload
`msg_id:u32 | timestamp:u64`. -/
def sizeofI2NPDeliveryStatusMsg : Nat := 12

/-- The inbound tunnel a received message arrived on, with its tunnel pool when it
has one (`from->GetTunnelPool ()`). -/
structure InboundTunnel where
  tunnelID : Nat
  pool : Option Nat
deriving DecidableEq, Repr

/-- Modelled from the spec: the message of section 3, an owned byte buffer with
the fields `len`, `offset` and `from` that I2NPProtocol.cpp reads and writes
(the struct is declared in I2NPProtocol.h, which is not among the sources). -/
structure I2NPMessage where
  buf : List Nat
  len : Nat
  offset : Nat
  fromTunnel : Option InboundTunnel
deriving DecidableEq, Repr

/-- Position of `msg->GetBuffer ()` in the buffer. -/
def I2NPMessage.GetBuffer (msg : I2NPMessage) : Nat := msg.offset

/-- Position of `msg->GetHeader ()` in the buffer. -/
def I2NPMessage.GetHeader (msg : I2NPMessage) : Nat := msg.GetBuffer

/-- Position of `msg->GetPayload ()` in the buffer. -/
def I2NPMessage.GetPayload (msg : I2NPMessage) : Nat := msg.GetBuffer + sizeofI2NPHeader

/-- Value of `msg->GetLength ()`. -/
def I2NPMessage.GetLength (msg : I2NPMessage) : Nat := msg.len - msg.offset

/-- The bytes `GetBuffer ()[0 .. GetLength ())` of a message. -/
def I2NPMessage.bytes (msg : I2NPMessage) : List Nat :=
  readAt msg.buf msg.GetBuffer msg.GetLength

/-- The payload of a message: the `GetLength () - 16` bytes after the header. -/
def I2NPMessage.payload (msg : I2NPMessage) : List Nat :=
  readAt msg.buf msg.GetPayload (msg.GetLength - sizeofI2NPHeader)

/-- Header field `typeID`. -/
def I2NPMessage.typeID (msg : I2NPMessage) : Nat := byteAt msg.buf msg.GetHeader

/-- Header field `msgID`, decoded. -/
def I2NPMessage.msgID (msg : I2NPMessage) : Nat := be32toh (readAt msg.buf (msg.GetHeader + 1) 4)

/-- Header field `expiration`, decoded. -/
def I2NPMessage.expiration (msg : I2NPMessage) : Nat :=
  be64toh (readAt msg.buf (msg.GetHeader + 5) 8)

/-- Header field `size`, decoded. -/
def I2NPMessage.size (msg : I2NPMessage) : Nat := be16toh (readAt msg.buf (msg.GetHeader + 13) 2)

/-- Header field `chks`. -/
def I2NPMessage.chks (msg : I2NPMessage) : Nat := byteAt msg.buf (msg.GetHeader + 15)

/-- Modelled from the spec: the copy assignment `*ds = *msg` of section 4.5, a
clone of the whole message (the struct and its assignment are declared in
I2NPProtocol.h, which is not among the sources). -/
def I2NPMessage.assign (_dst src : I2NPMessage) : I2NPMessage := src

/-- Modelled from the spec: the transit tunnel of section 4.3 step 3, the state
`CreateTransitTunnel` builds from its seven arguments (Tunnel.h and
TransitTunnel.h are not among the sources). -/
structure TransitTunnel where
  receiveTunnelID : Nat
  nextIdent : List Nat
  nextTunnelID : Nat
  layerKey : List Nat
  ivKey : List Nat
  isGateway : Bool
  isEndpoint : Bool
deriving DecidableEq, Repr

/-- A tunnel under construction, as held by the registry of pending tunnels. -/
structure Tunnel where
  tunnelID : Nat
deriving DecidableEq, Repr

/-- The router context: identity hash, ElGamal private key and the serialised
RouterInfo (read-only for this subsystem). -/
structure RouterContext where
  identHash : List Nat
  privateKey : List Nat
  routerInfoBuffer : List Nat

/-- What I2NPProtocol.cpp calls but does not define. `clock k` and `hours k` are the
results of the k-th reading of the clock, `genWord32 k` and `genBlock k n` the
results of the k-th RNG call. `elGamalDecrypt key encrypted data` is the content of
the output buffer after the call, `data` its content before; `elGamalEncrypt key data`
is the cipher text made for the router with encryption key `key`; `hostU32 x` is a
`uint32_t` as the host stores it. `handleTunnelBuildResponse tunnel buf len` is the
value `tunnel->HandleTunnelBuildResponse (buf, len)` returns and
`handleTunnelBuildResponseBuffer tunnel buf len` the content of `buf` after that call,
which receives the buffer as a non-const pointer. -/
structure Env where
  sha256 : List Nat → List Nat
  elGamalDecrypt : List Nat → List Nat → List Nat → List Nat
  elGamalEncrypt : List Nat → List Nat → List Nat
  cbcEncrypt : List Nat → List Nat → List Nat → List Nat
  gzip : List Nat → List Nat
  clock : Nat → Nat
  hours : Nat → Nat
  hostU32 : Nat → List Nat
  genWord32 : Nat → Nat
  genBlock : Nat → Nat → List Nat
  handleTunnelBuildResponse : Tunnel → List Nat → Nat → Bool
  handleTunnelBuildResponseBuffer : Tunnel → List Nat → Nat → List Nat
  TUNNEL_DATA_MSG_SIZE : Nat
  context : RouterContext

/-- The mutable state of the process: the message-ID counter, how often the clock
and the RNG were read, the tunnel registry and the calls received by the
collaborators, oldest first. -/
structure World where
  I2NPmsgID : Nat
  clockReads : Nat
  rngCalls : Nat
  transitTunnels : List TransitTunnel
  pendingTunnels : List (Nat × Tunnel)
  inboundTunnels : List Tunnel
  outboundTunnels : List Tunnel
  deletedTunnels : List Tunnel
  sent : List (List Nat × I2NPMessage)
  netdbQueue : List I2NPMessage
  transitSent : List (TransitTunnel × I2NPMessage)
  outboundSent : List (List Nat × Nat × I2NPMessage)
  tunnelDataQueue : List I2NPMessage
  garlicMsgs : List I2NPMessage
  garlicDeliveryStatus : List (List Nat × Nat)
  poolDeliveryStatus : List (Nat × I2NPMessage)
  sessionKeys : List (List Nat × List Nat)
  deletedMsgs : List I2NPMessage
deriving DecidableEq, Repr

/-- The 32-byte digest `CryptoPP::SHA256().CalculateDigest` stores. -/
def SHA256 (env : Env) (data : List Nat) : List Nat := readAt (env.sha256 data) 0 32

/-- `i2p::util::GetMillisecondsSinceEpoch ()`. -/
def GetMillisecondsSinceEpoch (env : Env) (w : World) : Nat × World :=
  (env.clock w.clockReads, { w with clockReads := w.clockReads + 1 })

/-- `i2p::util::GetHoursSinceEpoch ()`. -/
def GetHoursSinceEpoch (env : Env) (w : World) : Nat × World :=
  (env.hours w.clockReads, { w with clockReads := w.clockReads + 1 })

/-- `GetRandomNumberGenerator ().GenerateWord32 ()`. -/
def GenerateWord32 (env : Env) (w : World) : Nat × World :=
  (env.genWord32 w.rngCalls % 4294967296, { w with rngCalls := w.rngCalls + 1 })

/-- `GetRandomNumberGenerator ().GenerateBlock (buf, n)`: the `n` bytes stored. -/
def GenerateBlock (env : Env) (w : World) (n : Nat) : List Nat × World :=
  (readAt (env.genBlock w.rngCalls n) 0 n, { w with rngCalls := w.rngCalls + 1 })

/-- `i2p::transports.SendMessage (ident, msg)`. -/
def SendMessage (w : World) (ident : List Nat) (msg : I2NPMessage) : World :=
  { w with sent := w.sent ++ [(ident, msg)] }

/-- `i2p::data::netdb.PostI2NPMsg (msg)`. -/
def PostI2NPMsg (w : World) (msg : I2NPMessage) : World :=
  { w with netdbQueue := w.netdbQueue ++ [msg] }

/-- `i2p::DeleteI2NPMessage (msg)`. -/
def DeleteI2NPMessage (w : World) (msg : I2NPMessage) : World :=
  { w with deletedMsgs := w.deletedMsgs ++ [msg] }

/-- `i2p::garlic::routing.AddSessionKey (key, tag)`. -/
def AddSessionKey (w : World) (key tag : List Nat) : World :=
  { w with sessionKeys := w.sessionKeys ++ [(key, tag)] }

/-- Modelled from the spec: `add_transit(tunnel)` of the tunnel registry; the newest
registration is found first. -/
def AddTransitTunnel (w : World) (t : TransitTunnel) : World :=
  { w with transitTunnels := t :: w.transitTunnels }

/-- Modelled from the spec: `get_transit(tunnel_id) → Option<TransitTunnel>`. -/
def GetTransitTunnel (w : World) (tunnelID : Nat) : Option TransitTunnel :=
  w.transitTunnels.find? fun t => t.receiveTunnelID == tunnelID

/-- Modelled from the spec: `get_pending(msg_id) → Option<PendingTunnel>`. -/
def GetPendingTunnel (w : World) (replyMsgID : Nat) : Option Tunnel :=
  w.pendingTunnels.lookup replyMsgID

/-- Modelled from the spec: `add_inbound(tunnel)`. -/
def AddInboundTunnel (w : World) (t : Tunnel) : World :=
  { w with inboundTunnels := w.inboundTunnels ++ [t] }

/-- Modelled from the spec: `add_outbound(tunnel)`. -/
def AddOutboundTunnel (w : World) (t : Tunnel) : World :=
  { w with outboundTunnels := w.outboundTunnels ++ [t] }

/-- The statement `delete tunnel`. -/
def deleteTunnel (w : World) (t : Tunnel) : World :=
  { w with deletedTunnels := w.deletedTunnels ++ [t] }

/-- The call `tunnel->SendTunnelDataMsg (msg)` on a transit tunnel. -/
def TransitTunnel.SendTunnelDataMsg (w : World) (t : TransitTunnel) (msg : I2NPMessage) : World :=
  { w with transitSent := w.transitSent ++ [(t, msg)] }

/-! ## Message header -/

/-- `NewI2NPMessage ()`; `mem` is the memory the allocation returns. -/
def NewI2NPMessage (mem : List Nat) : I2NPMessage :=
  { buf := mem, offset := 2, len := sizeofI2NPHeader + 2, fromTunnel := none }

/-- `FillI2NPMessageHeader (msg, msgType, replyMsgID)`. -/
def FillI2NPMessageHeader (env : Env) (w : World) (msg : I2NPMessage)
    (msgType : I2NPMessageType) (replyMsgID : Nat) : World × I2NPMessage :=
  let header := msg.GetHeader
  let buf1 := writeAt msg.buf header [msgType.toByte]
  let (buf2, w1) :=
    if replyMsgID ≠ 0 then
      (writeAt buf1 (header + 1) (htobe32 replyMsgID), w)
    else
      (writeAt buf1 (header + 1) (htobe32 w.I2NPmsgID),
       { w with I2NPmsgID := (w.I2NPmsgID + 1) % 4294967296 })
  let (now, w2) := GetMillisecondsSinceEpoch env w1
  let buf3 := writeAt buf2 (header + 5) (htobe64 (now + 5000))
  let len := msg.GetLength - sizeofI2NPHeader
  let buf4 := writeAt buf3 (header + 13) (htobe16 len)
  let hash := SHA256 env (readAt buf4 msg.GetPayload len)
  let buf5 := writeAt buf4 (header + 15) [byteAt hash 0]
  (w2, { msg with buf := buf5 })

/-- `RenewI2NPMessageHeader (msg)`; `none` is the null pointer. -/
def RenewI2NPMessageHeader (env : Env) (w : World) (msg : Option I2NPMessage) :
    World × Option I2NPMessage :=
  match msg with
  | none => (w, none)
  | some msg =>
    let header := msg.GetHeader
    let buf1 := writeAt msg.buf (header + 1) (htobe32 w.I2NPmsgID)
    let w1 := { w with I2NPmsgID := (w.I2NPmsgID + 1) % 4294967296 }
    let (now, w2) := GetMillisecondsSinceEpoch env w1
    let buf2 := writeAt buf1 (header + 5) (htobe64 (now + 5000))
    (w2, some { msg with buf := buf2 })

/-- `CreateI2NPMessage (msgType, buf, len, replyMsgID)`. -/
def CreateI2NPMessage (env : Env) (w : World) (mem : List Nat) (msgType : I2NPMessageType)
    (buf : List Nat) (len : Nat) (replyMsgID : Nat) : World × I2NPMessage :=
  let msg := NewI2NPMessage mem
  let msg := { msg with buf := writeAt msg.buf msg.GetPayload (readAt buf 0 len) }
  let msg := { msg with len := msg.len + len }
  FillI2NPMessageHeader env w msg msgType replyMsgID

/-- `CreateI2NPMessage (buf, len)`: a message made of received bytes. -/
def CreateI2NPMessageRaw (mem : List Nat) (buf : List Nat) (len : Nat) : I2NPMessage :=
  let msg := NewI2NPMessage mem
  let msg := { msg with buf := writeAt msg.buf msg.GetBuffer (readAt buf 0 len) }
  { msg with len := msg.offset + len }

/-- `CreateDeliveryStatusMsg (msgID)`. -/
def CreateDeliveryStatusMsg (env : Env) (w : World) (mem : List Nat) (msgID : Nat) :
    World × I2NPMessage :=
  let (msg, w1) :=
    if msgID ≠ 0 then
      let (now, w1) := GetMillisecondsSinceEpoch env w
      (htobe32 msgID ++ htobe64 now, w1)
    else
      let (r, w1) := GenerateWord32 env w
      (htobe32 r ++ htobe64 2, w1)
  CreateI2NPMessage env w1 mem .eI2NPDeliveryStatus msg sizeofI2NPDeliveryStatusMsg 0

/-- The loop `for (auto& it: *excludedPeers) { memcpy (buf, it, 32); buf += 32; }`:
the buffer and the position after it. -/
def copyExcludedPeers (buf : List Nat) (pos : Nat) : List (List Nat) → List Nat × Nat
  | [] => (buf, pos)
  | it :: rest => copyExcludedPeers (writeAt buf pos (readAt it 0 32)) (pos + 32) rest

/-- `CreateDatabaseLookupMsg (key, from, replyTunnelID, exploratory, excludedPeers,
encryption)`; `excludedPeers` is `none` for the null pointer and otherwise the
elements of the set in iteration order. -/
def CreateDatabaseLookupMsg (env : Env) (w : World) (mem : List Nat) (key fromIdent : List Nat)
    (replyTunnelID : Nat) (exploratory : Bool) (excludedPeers : Option (List (List Nat)))
    (encryption : Bool) : World × I2NPMessage :=
  let m := NewI2NPMessage mem
  let buf := m.GetPayload
  let b := writeAt m.buf buf (readAt key 0 32)
  let buf := buf + 32
  let b := writeAt b buf (readAt fromIdent 0 32)
  let buf := buf + 32
  let (b, buf, encryption) :=
    if replyTunnelID ≠ 0 then
      let b := writeAt b buf [if encryption then 3 else 1]
      let b := writeAt b (buf + 1) (htobe32 replyTunnelID)
      (b, buf + 5, encryption)
    else
      (writeAt b buf [0], buf + 1, false)
  let (b, buf) :=
    if exploratory then
      let b := writeAt b buf (htobe16 1)
      let b := writeAt b (buf + 2) (List.replicate 32 0)
      (b, buf + 2 + 32)
    else
      match excludedPeers with
      | some peers =>
        let cnt := peers.length
        let b := writeAt b buf (htobe16 cnt)
        copyExcludedPeers b (buf + 2) peers
      | none => (writeAt b buf (htobe16 0), buf + 2)
  let (b, buf, w1) :=
    if encryption then
      let (k, w1) := GenerateBlock env w 32
      let b := writeAt b buf k
      let b := writeAt b (buf + 32) [1]
      let (t, w2) := GenerateBlock env w1 32
      let b := writeAt b (buf + 33) t
      let w3 := AddSessionKey w2 (readAt b buf 32) (readAt b (buf + 33) 32)
      (b, buf + 65, w3)
    else (b, buf, w)
  let m := { m with buf := b }
  let m := { m with len := m.len + (buf - m.GetPayload) }
  FillI2NPMessageHeader env w1 m .eI2NPDatabaseLookup 0

/-- `CreateDatabaseSearchReply (ident)`. -/
def CreateDatabaseSearchReply (env : Env) (w : World) (mem : List Nat) (ident : List Nat) :
    World × I2NPMessage :=
  let m := NewI2NPMessage mem
  let buf := m.GetPayload
  let b := writeAt m.buf buf (readAt ident 0 32)
  let b := writeAt b (buf + 32) [0]
  let b := writeAt b (buf + 33) (readAt env.context.identHash 0 32)
  let m := { m with buf := b }
  let m := { m with len := m.len + 65 }
  FillI2NPMessageHeader env w m .eI2NPDatabaseSearchReply 0

/-- `CreateTunnelGatewayMsg (tunnelID, buf, len)`. -/
def CreateTunnelGatewayMsg (env : Env) (w : World) (mem : List Nat) (tunnelID : Nat)
    (buf : List Nat) (len : Nat) : World × I2NPMessage :=
  let msg := NewI2NPMessage mem
  let header := msg.GetPayload
  let b := writeAt msg.buf header (htobe32 tunnelID)
  let b := writeAt b (header + 4) (htobe16 len)
  let b := writeAt b (msg.GetPayload + sizeofTunnelGatewayHeader) (readAt buf 0 len)
  let msg := { msg with buf := b }
  let msg := { msg with len := msg.len + (sizeofTunnelGatewayHeader + len) }
  FillI2NPMessageHeader env w msg .eI2NPTunnelGateway 0

/-- `CreateTunnelGatewayMsg (tunnelID, msg)`; `mem` is the memory of the message that
the copying path allocates. -/
def CreateTunnelGatewayMsgFromMsg (env : Env) (w : World) (mem : List Nat) (tunnelID : Nat)
    (msg : I2NPMessage) : World × I2NPMessage :=
  if msg.offset ≥ sizeofI2NPHeader + sizeofTunnelGatewayHeader then
    let header := msg.GetBuffer - sizeofTunnelGatewayHeader
    let b := writeAt msg.buf header (htobe32 tunnelID)
    let len := msg.GetLength
    let b := writeAt b (header + 4) (htobe16 len)
    let msg := { msg with buf := b }
    let msg := { msg with offset := msg.offset - (sizeofI2NPHeader + sizeofTunnelGatewayHeader) }
    let msg := { msg with len := msg.offset + sizeofI2NPHeader + sizeofTunnelGatewayHeader + len }
    FillI2NPMessageHeader env w msg .eI2NPTunnelGateway 0
  else
    let (w1, msg1) := CreateTunnelGatewayMsg env w mem tunnelID
      (msg.buf.drop msg.GetBuffer) msg.GetLength
    (DeleteI2NPMessage w1 msg, msg1)

/-- `CreateTunnelGatewayMsg (tunnelID, msgType, buf, len, replyMsgID)`. -/
def CreateTunnelGatewayMsgTyped (env : Env) (w : World) (mem : List Nat) (tunnelID : Nat)
    (msgType : I2NPMessageType) (buf : List Nat) (len : Nat) (replyMsgID : Nat) :
    World × I2NPMessage :=
  let msg := NewI2NPMessage mem
  let gatewayMsgOffset := sizeofI2NPHeader + sizeofTunnelGatewayHeader
  let msg := { msg with offset := msg.offset + gatewayMsgOffset }
  let msg := { msg with len := msg.len + gatewayMsgOffset }
  let msg := { msg with buf := writeAt msg.buf msg.GetPayload (readAt buf 0 len) }
  let msg := { msg with len := msg.len + len }
  let (w1, msg) := FillI2NPMessageHeader env w msg msgType replyMsgID
  let len := msg.GetLength
  let msg := { msg with offset := msg.offset - gatewayMsgOffset }
  let header := msg.GetPayload
  let b := writeAt msg.buf header (htobe32 tunnelID)
  let b := writeAt b (header + 4) (htobe16 len)
  let msg := { msg with buf := b }
  FillI2NPMessageHeader env w1 msg .eI2NPTunnelGateway 0

/-! ## Tunnel-build engine -/

/-- Field `receiveTunnel` of a clear text record (spec section 3). -/
def clearTextReceiveTunnel (clearText : List Nat) : List Nat := readAt clearText 0 4

/-- Field `ourIdent` of a clear text record. -/
def clearTextOurIdent (clearText : List Nat) : List Nat := readAt clearText 4 32

/-- Field `nextTunnel` of a clear text record. -/
def clearTextNextTunnel (clearText : List Nat) : List Nat := readAt clearText 36 4

/-- Field `nextIdent` of a clear text record. -/
def clearTextNextIdent (clearText : List Nat) : List Nat := readAt clearText 40 32

/-- Field `layerKey` of a clear text record. -/
def clearTextLayerKey (clearText : List Nat) : List Nat := readAt clearText 72 32

/-- Field `ivKey` of a clear text record. -/
def clearTextIvKey (clearText : List Nat) : List Nat := readAt clearText 104 32

/-- Field `replyKey` of a clear text record. -/
def clearTextReplyKey (clearText : List Nat) : List Nat := readAt clearText 136 32

/-- Field `replyIV` of a clear text record. -/
def clearTextReplyIV (clearText : List Nat) : List Nat := readAt clearText 168 16

/-- Field `flag` of a clear text record. -/
def clearTextFlag (clearText : List Nat) : Nat := byteAt clearText 184

/-- Field `nextMessageID` of a clear text record. -/
def clearTextNextMessageID (clearText : List Nat) : List Nat := readAt clearText 189 4

/-- Modelled from the spec: position of `padding` in a response record
`padding | ret:u8 | hash:[u8;32]` of 528 bytes. -/
def responsePaddingPos : Nat := 0

/-- Modelled from the spec: `sizeof (reply->padding)`, what is left of the 528 bytes
beside `ret` and `hash`. -/
def sizeofResponsePadding : Nat := 495

/-- Modelled from the spec: position of `ret` in a response record. -/
def responseRetPos : Nat := 495

/-- Modelled from the spec: position of `hash` in a response record. -/
def responseHashPos : Nat := 496

/-- A peer router: its identity hash and its ElGamal encryption key. -/
structure RouterInfo where
  identHash : List Nat
  encryptionKey : List Nat

/-- `CreateBuildRequestRecord (...)`: the bytes of the returned struct; `garbage` is
the content of the uninitialised local, which the filler keeps. -/
def CreateBuildRequestRecord (env : Env) (w : World) (garbage : List Nat)
    (ourIdent : List Nat) (receiveTunnelID : Nat) (nextIdent : List Nat) (nextTunnelID : Nat)
    (layerKey ivKey replyKey replyIV : List Nat) (nextMessageID : Nat)
    (isGateway isEndpoint : Bool) : List Nat × World :=
  let clearText := readAt garbage 0 sizeofClearText
  let clearText := writeAt clearText 0 (htobe32 receiveTunnelID)
  let clearText := writeAt clearText 36 (htobe32 nextTunnelID)
  let clearText := writeAt clearText 72 (readAt layerKey 0 32)
  let clearText := writeAt clearText 104 (readAt ivKey 0 32)
  let clearText := writeAt clearText 136 (readAt replyKey 0 32)
  let clearText := writeAt clearText 168 (readAt replyIV 0 16)
  let flag := 0
  let flag := if isGateway then flag ||| 0x80 else flag
  let flag := if isEndpoint then flag ||| 0x40 else flag
  let clearText := writeAt clearText 184 [flag]
  let clearText := writeAt clearText 4 (readAt ourIdent 0 32)
  let clearText := writeAt clearText 40 (readAt nextIdent 0 32)
  let (h, w1) := GetHoursSinceEpoch env w
  let clearText := writeAt clearText 185 (readAt (env.hostU32 h) 0 4)
  let clearText := writeAt clearText 189 (htobe32 nextMessageID)
  (clearText, w1)

/-- `EncryptBuildRequestRecord (router, clearText, record)`: the record after the
call. -/
def EncryptBuildRequestRecord (env : Env) (router : RouterInfo) (clearText : List Nat)
    (record : List Nat) : List Nat :=
  let record := readAt record 0 sizeofBuildRecord
  let record := writeAt record 16
    (readAt (env.elGamalEncrypt router.encryptionKey (readAt clearText 0 sizeofClearText)) 0 512)
  writeAt record 0 (readAt router.identHash 0 16)

/-- `i2p::crypto::ElGamalDecrypt (key, encrypted, data)`: the 222 bytes of `data`
after the call. -/
def ElGamalDecrypt (env : Env) (key encrypted data : List Nat) : List Nat :=
  readAt (env.elGamalDecrypt key encrypted data) 0 sizeofClearText

/-- `encryption.SetKey (key); encryption.SetIV (iv); encryption.Encrypt (in, len, out)`:
the `len` bytes stored to `out`. -/
def CBCEncrypt (env : Env) (key iv data : List Nat) : List Nat :=
  readAt (env.cbcEncrypt key iv data) 0 data.length

/-- Modelled from the spec: `CreateTransitTunnel` of section 4.3 step 3. -/
def CreateTransitTunnel (receiveTunnelID : Nat) (nextIdent : List Nat) (nextTunnelID : Nat)
    (layerKey ivKey : List Nat) (isGateway isEndpoint : Bool) : TransitTunnel :=
  { receiveTunnelID := receiveTunnelID, nextIdent := nextIdent, nextTunnelID := nextTunnelID,
    layerKey := layerKey, ivKey := ivKey, isGateway := isGateway, isEndpoint := isEndpoint }

/-- The test `!memcmp (records[i].toPeer, GetIdentHash (), 16)`. -/
def isOurRecord (env : Env) (records : List Nat) (i : Nat) : Bool :=
  decide (readAt records (sizeofBuildRecord * i) 16 = readAt env.context.identHash 0 16)

/-- The loop `for (int j = 0; j < num; j++)` of `HandleBuildRequestRecords` that
encrypts every record in place. -/
def encryptRecords (env : Env) (key iv : List Nat) (num : Nat) (records : List Nat) : List Nat :=
  (List.range num).foldl
    (fun recs j => writeAt recs (sizeofBuildRecord * j)
      (CBCEncrypt env key iv (readAt recs (sizeofBuildRecord * j) sizeofBuildRecord)))
    records

/-- The record array with slot `i` replaced by the reply: `reply->ret = 0` and the
digest of `padding` and `ret` stored to `reply->hash`. -/
def replaceRecordToReply (env : Env) (records : List Nat) (i : Nat) : List Nat :=
  let reply := sizeofBuildRecord * i
  let records := writeAt records (reply + responseRetPos) [0]
  let hash := SHA256 env (readAt records (reply + responsePaddingPos) (sizeofResponsePadding + 1))
  writeAt records (reply + responseHashPos) hash

/-- What `HandleBuildRequestRecords` returns and leaves behind: the return value,
the record array, the clear text and the process state. -/
structure BuildRecordsResult where
  ret : Bool
  records : List Nat
  clearText : List Nat
  world : World

/-- `HandleBuildRequestRecords (num, records, clearText)`; the outer loop returns at
the first record that is ours. -/
def HandleBuildRequestRecords (env : Env) (w : World) (num : Nat) (records : List Nat)
    (clearText : List Nat) : BuildRecordsResult :=
  match (List.range num).find? (isOurRecord env records) with
  | none => { ret := false, records := records, clearText := clearText, world := w }
  | some i =>
    let clearText := ElGamalDecrypt env env.context.privateKey
      (readAt records (sizeofBuildRecord * i + 16) 512) clearText
    let transitTunnel := CreateTransitTunnel
      (be32toh (clearTextReceiveTunnel clearText))
      (clearTextNextIdent clearText) (be32toh (clearTextNextTunnel clearText))
      (clearTextLayerKey clearText) (clearTextIvKey clearText)
      (decide (clearTextFlag clearText &&& 0x80 ≠ 0)) (decide (clearTextFlag clearText &&& 0x40 ≠ 0))
    let w := AddTransitTunnel w transitTunnel
    let records := replaceRecordToReply env records i
    let records := encryptRecords env (clearTextReplyKey clearText) (clearTextReplyIV clearText)
      num records
    { ret := true, records := records, clearText := clearText, world := w }

/-- `HandleVariableTunnelBuildMsg (replyMsgID, buf, len)`: the process state and the
buffer after the call. `mem` is the memory of the message it allocates, `clearText`
the content of its uninitialised local. -/
def HandleVariableTunnelBuildMsg (env : Env) (w : World) (mem clearText : List Nat)
    (replyMsgID : Nat) (buf : List Nat) (len : Nat) : World × List Nat :=
  let num := byteAt buf 0
  match GetPendingTunnel w replyMsgID with
  | some tunnel =>
    let buf1 := env.handleTunnelBuildResponseBuffer tunnel buf len
    if env.handleTunnelBuildResponse tunnel buf len then
      (AddInboundTunnel w tunnel, buf1)
    else
      (deleteTunnel w tunnel, buf1)
  | none =>
    let r := HandleBuildRequestRecords env w num (buf.drop 1) clearText
    let buf := buf.take 1 ++ r.records
    if r.ret then
      if clearTextFlag r.clearText &&& 0x40 ≠ 0 then
        let (w1, msg) := CreateTunnelGatewayMsgTyped env r.world mem
          (be32toh (clearTextNextTunnel r.clearText)) .eI2NPVariableTunnelBuildReply buf len
          (be32toh (clearTextNextMessageID r.clearText))
        (SendMessage w1 (clearTextNextIdent r.clearText) msg, buf)
      else
        let (w1, msg) := CreateI2NPMessage env r.world mem .eI2NPVariableTunnelBuild buf len
          (be32toh (clearTextNextMessageID r.clearText))
        (SendMessage w1 (clearTextNextIdent r.clearText) msg, buf)
    else (r.world, buf)

/-- `HandleTunnelBuildMsg (buf, len)`: the process state and the buffer after the
call. -/
def HandleTunnelBuildMsg (env : Env) (w : World) (mem clearText : List Nat)
    (buf : List Nat) (len : Nat) : World × List Nat :=
  let r := HandleBuildRequestRecords env w NUM_TUNNEL_BUILD_RECORDS buf clearText
  let buf := r.records
  if r.ret then
    if clearTextFlag r.clearText &&& 0x40 ≠ 0 then
      let (w1, msg) := CreateTunnelGatewayMsgTyped env r.world mem
        (be32toh (clearTextNextTunnel r.clearText)) .eI2NPTunnelBuildReply buf len
        (be32toh (clearTextNextMessageID r.clearText))
      (SendMessage w1 (clearTextNextIdent r.clearText) msg, buf)
    else
      let (w1, msg) := CreateI2NPMessage env r.world mem .eI2NPTunnelBuild buf len
        (be32toh (clearTextNextMessageID r.clearText))
      (SendMessage w1 (clearTextNextIdent r.clearText) msg, buf)
  else (r.world, buf)

/-- `HandleVariableTunnelBuildReplyMsg (replyMsgID, buf, len)`: the process state and
the buffer after the call. -/
def HandleVariableTunnelBuildReplyMsg (env : Env) (w : World) (replyMsgID : Nat)
    (buf : List Nat) (len : Nat) : World × List Nat :=
  match GetPendingTunnel w replyMsgID with
  | some tunnel =>
    let buf1 := env.handleTunnelBuildResponseBuffer tunnel buf len
    if env.handleTunnelBuildResponse tunnel buf len then (AddOutboundTunnel w tunnel, buf1)
    else (deleteTunnel w tunnel, buf1)
  | none => (w, buf)

/-! ## Gateway unwrap -/

/-- `HandleTunnelGatewayMsg (msg)`; `mem` is the memory of the message allocated for
the copy handed to NetDb. -/
def HandleTunnelGatewayMsg (w : World) (mem : List Nat) (msg : I2NPMessage) : World :=
  let header := msg.GetPayload
  let tunnelID := be32toh (readAt msg.buf header 4)
  let len := be16toh (readAt msg.buf (header + 4) 2)
  let msg := { msg with offset := msg.offset + (sizeofI2NPHeader + sizeofTunnelGatewayHeader) }
  let msg := { msg with len := msg.offset + len }
  let w1 :=
    if msg.typeID = I2NPMessageType.eI2NPDatabaseStore.toByte then
      let ds := NewI2NPMessage mem
      let ds := I2NPMessage.assign ds msg
      PostI2NPMsg w ds
    else w
  match GetTransitTunnel w1 tunnelID with
  | some tunnel => TransitTunnel.SendTunnelDataMsg w1 tunnel msg
  | none => DeleteI2NPMessage w1 msg

/-! ## Dispatch -/

/-- `i2p::tunnel::tunnels.PostTunnelData (msg)`. -/
def PostTunnelData (w : World) (msg : I2NPMessage) : World :=
  { w with tunnelDataQueue := w.tunnelDataQueue ++ [msg] }

/-- `i2p::garlic::routing.HandleGarlicMessage (msg)`. -/
def HandleGarlicMessage (w : World) (msg : I2NPMessage) : World :=
  { w with garlicMsgs := w.garlicMsgs ++ [msg] }

/-- `i2p::garlic::routing.HandleDeliveryStatusMessage (buf, len)`; `buf` is the memory
from the pointer on. -/
def HandleDeliveryStatusMessage (w : World) (buf : List Nat) (len : Nat) : World :=
  { w with garlicDeliveryStatus := w.garlicDeliveryStatus ++ [(buf, len)] }

/-- `pool->ProcessDeliveryStatus (msg)` on the tunnel pool `pool`. -/
def ProcessDeliveryStatus (w : World) (pool : Nat) (msg : I2NPMessage) : World :=
  { w with poolDeliveryStatus := w.poolDeliveryStatus ++ [(pool, msg)] }

/-- Modelled from the spec: `get_next_outbound()` followed by the outbound tunnel's
`SendTunnelDataMsg (gwHash, gwTunnel, msg)`. -/
def OutboundSendTunnelDataMsg (w : World) (gwHash : List Nat) (gwTunnel : Nat)
    (msg : I2NPMessage) : World :=
  { w with outboundSent := w.outboundSent ++ [(gwHash, gwTunnel, msg)] }

/-- `HandleDatabaseLookupMsg (buf, len)`; `mem` is the memory of the reply it
allocates. -/
def HandleDatabaseLookupMsg (env : Env) (w : World) (mem : List Nat) (buf : List Nat)
    (_len : Nat) : World :=
  let flag := byteAt buf 64
  let replyTunnelID := 0
  let replyTunnelID := if flag &&& 0x01 ≠ 0 then be32toh (readAt buf 64 4) else replyTunnelID
  let (w1, replyMsg) := CreateDatabaseSearchReply env w mem buf
  if replyTunnelID ≠ 0 then
    OutboundSendTunnelDataMsg w1 (readAt buf 32 32) replyTunnelID replyMsg
  else
    SendMessage w1 (readAt buf 0 32) replyMsg

/-- `HandleI2NPMessage (uint8_t * msg, size_t len)`: the process state and the buffer
after the call. -/
def HandleI2NPMessageRaw (env : Env) (w : World) (mem clearText : List Nat) (msg : List Nat)
    (_len : Nat) : World × List Nat :=
  let typeID := byteAt msg 0
  let msgID := be32toh (readAt msg 1 4)
  let buf := msg.drop sizeofI2NPHeader
  let size := be16toh (readAt msg 13 2)
  if typeID = I2NPMessageType.eI2NPVariableTunnelBuild.toByte then
    let (w1, buf1) := HandleVariableTunnelBuildMsg env w mem clearText msgID buf size
    (w1, msg.take sizeofI2NPHeader ++ buf1)
  else if typeID = I2NPMessageType.eI2NPVariableTunnelBuildReply.toByte then
    let (w1, buf1) := HandleVariableTunnelBuildReplyMsg env w msgID buf size
    (w1, msg.take sizeofI2NPHeader ++ buf1)
  else if typeID = I2NPMessageType.eI2NPTunnelBuild.toByte then
    let (w1, buf1) := HandleTunnelBuildMsg env w mem clearText buf size
    (w1, msg.take sizeofI2NPHeader ++ buf1)
  else if typeID = I2NPMessageType.eI2NPTunnelBuildReply.toByte then
    (w, msg)
  else if typeID = I2NPMessageType.eI2NPDatabaseLookup.toByte then
    (HandleDatabaseLookupMsg env w mem buf size, msg)
  else
    (w, msg)

/-- `HandleI2NPMessage (I2NPMessage * msg)`; `none` is the null pointer. -/
def HandleI2NPMessage (env : Env) (w : World) (mem clearText : List Nat)
    (msg : Option I2NPMessage) : World :=
  match msg with
  | none => w
  | some msg =>
    if msg.typeID = I2NPMessageType.eI2NPTunnelData.toByte then
      PostTunnelData w msg
    else if msg.typeID = I2NPMessageType.eI2NPTunnelGateway.toByte then
      HandleTunnelGatewayMsg w mem msg
    else if msg.typeID = I2NPMessageType.eI2NPGarlic.toByte then
      HandleGarlicMessage w msg
    else if msg.typeID = I2NPMessageType.eI2NPDatabaseStore.toByte then
      PostI2NPMsg w msg
    else if msg.typeID = I2NPMessageType.eI2NPDatabaseSearchReply.toByte then
      PostI2NPMsg w msg
    else if msg.typeID = I2NPMessageType.eI2NPDeliveryStatus.toByte then
      match msg.fromTunnel.bind fun t => t.pool with
      | some pool => ProcessDeliveryStatus w pool msg
      | none =>
        let w1 := HandleDeliveryStatusMessage w (msg.buf.drop msg.GetPayload) msg.GetLength
        DeleteI2NPMessage w1 msg
    else
      let (w1, buf1) := HandleI2NPMessageRaw env w mem clearText (msg.buf.drop msg.GetBuffer)
        msg.GetLength
      DeleteI2NPMessage w1 { msg with buf := msg.buf.take msg.GetBuffer ++ buf1 }

/-! ## Specification vocabulary -/

/-- The message ID `FillI2NPMessageHeader` stamps: the reply message ID when there is
one, the counter otherwise. -/
def stampedMsgID (w : World) (replyMsgID : Nat) : Nat :=
  if replyMsgID ≠ 0 then replyMsgID else w.I2NPmsgID

/-- The 16 bytes `FillI2NPMessageHeader` stores at `msg->GetHeader ()`. -/
def filledHeader (env : Env) (w : World) (msg : I2NPMessage) (msgType : I2NPMessageType)
    (replyMsgID : Nat) : List Nat :=
  [msgType.toByte] ++ htobe32 (stampedMsgID w replyMsgID) ++
    htobe64 (env.clock w.clockReads + 5000) ++
    htobe16 (msg.GetLength - sizeofI2NPHeader) ++ [byteAt (SHA256 env msg.payload) 0]

/-- The message invariant of the data model: the header and the payload lie inside
the buffer. -/
def I2NPMessage.WellFormed (msg : I2NPMessage) : Prop :=
  msg.offset + sizeofI2NPHeader ≤ msg.len ∧ msg.len ≤ msg.buf.length

/-- Field `tunnelID` of the TunnelGateway header at the start of the payload,
decoded. -/
def I2NPMessage.gatewayTunnelID (msg : I2NPMessage) : Nat :=
  be32toh (readAt msg.buf msg.GetPayload 4)

/-- Field `length` of the TunnelGateway header at the start of the payload,
decoded. -/
def I2NPMessage.gatewayLength (msg : I2NPMessage) : Nat :=
  be16toh (readAt msg.buf (msg.GetPayload + 4) 2)

/-- The message that a TunnelGateway message carries: the same buffer read from
behind the I2NP header and the TunnelGateway header. -/
def I2NPMessage.gatewayInner (msg : I2NPMessage) : I2NPMessage :=
  { msg with offset := msg.offset + (sizeofI2NPHeader + sizeofTunnelGatewayHeader) }

/-- A TunnelGateway message that wraps a complete I2NP message: type TunnelGateway,
a gateway header with the given tunnel ID and the length of the inner message, and an
inner message with the given type, message ID and payload whose size and checksum
fields are valid for that payload. -/
def GatewayWraps (env : Env) (msg : I2NPMessage) (tunnelID : Nat) (innerType : I2NPMessageType)
    (innerMsgID : Nat) (innerPayload : List Nat) : Prop :=
  msg.typeID = I2NPMessageType.eI2NPTunnelGateway.toByte ∧
  msg.gatewayTunnelID = tunnelID ∧
  msg.gatewayLength = sizeofI2NPHeader + innerPayload.length ∧
  msg.gatewayInner.GetLength = sizeofI2NPHeader + innerPayload.length ∧
  msg.gatewayInner.typeID = innerType.toByte ∧
  msg.gatewayInner.msgID = innerMsgID ∧
  msg.gatewayInner.payload = innerPayload ∧
  msg.gatewayInner.size = innerPayload.length ∧
  msg.gatewayInner.chks = byteAt (SHA256 env innerPayload) 0

/-- Record `i` is the first of the `num` records whose toPeer is the first 16 bytes
of the local identity hash: the record that `HandleBuildRequestRecords` takes as its
own. -/
def FirstOwnRecord (env : Env) (records : List Nat) (num i : Nat) : Prop :=
  i < num ∧
  readAt records (sizeofBuildRecord * i) 16 = readAt env.context.identHash 0 16 ∧
  ∀ k, k < i → readAt records (sizeofBuildRecord * k) 16 ≠ readAt env.context.identHash 0 16

/-- The message `HandleTunnelGatewayMsg` unwraps: the offset advanced past the I2NP
header and the TunnelGateway header, and `len = offset + length` with the length
read from the TunnelGateway header. -/
def I2NPMessage.gatewayUnwrapped (msg : I2NPMessage) : I2NPMessage :=
  { msg with
    offset := msg.offset + (sizeofI2NPHeader + sizeofTunnelGatewayHeader)
    len := msg.offset + (sizeofI2NPHeader + sizeofTunnelGatewayHeader) + msg.gatewayLength }

/-- The excluded entries of a DatabaseLookup payload: the 32-byte hashes one after the
other, in the order given. -/
def excludedEntries : List (List Nat) → List Nat
  | [] => []
  | it :: rest => readAt it 0 32 ++ excludedEntries rest

/-- The flag part of a DatabaseLookup payload as the spec lays it out: `flag:u8`
followed by `reply_tunnel_id:u32` when there is a reply tunnel; the flag is 0x01 for a
reply via tunnel, 0x03 when the reply is also encrypted, 0x00 for a direct reply. -/
def lookupFlagSection (replyTunnelID : Nat) (encryption : Bool) : List Nat :=
  if replyTunnelID ≠ 0 then [if encryption then 3 else 1] ++ htobe32 replyTunnelID else [0]

/-- The excluded part of a DatabaseLookup payload as the spec lays it out:
`num_excluded:u16 | excluded[num_excluded*32]`, one all-zero entry when exploratory and
the given set otherwise. -/
def lookupExcludedSection (exploratory : Bool) (excludedPeers : Option (List (List Nat))) :
    List Nat :=
  if exploratory then htobe16 1 ++ List.replicate 32 0
  else
    match excludedPeers with
    | some peers => htobe16 peers.length ++ excludedEntries peers
    | none => htobe16 0

/-- The session key drawn for an encrypted DatabaseLookup reply: the first RNG block. -/
def lookupSessionKey (env : Env) (w : World) : List Nat := readAt (env.genBlock w.rngCalls 32) 0 32

/-- The session tag drawn for an encrypted DatabaseLookup reply: the second RNG block. -/
def lookupSessionTag (env : Env) (w : World) : List Nat :=
  readAt (env.genBlock (w.rngCalls + 1) 32) 0 32

/-- The trailer of a DatabaseLookup payload as the spec lays it out:
`session_key:[32] | tag_count:u8=1 | session_tag:[32]`, present only for an encrypted
reply through a reply tunnel. -/
def lookupSessionSection (env : Env) (w : World) (replyTunnelID : Nat) (encryption : Bool) :
    List Nat :=
  if replyTunnelID ≠ 0 ∧ encryption = true then
    lookupSessionKey env w ++ [1] ++ lookupSessionTag env w
  else []

/-- The DatabaseLookup payload as the spec lays it out:
`key | from | flag [| reply_tunnel_id] | num_excluded | excluded [| session_key | 1 | session_tag]`. -/
def databaseLookupPayload (env : Env) (w : World) (key fromIdent : List Nat)
    (replyTunnelID : Nat) (exploratory : Bool) (excludedPeers : Option (List (List Nat)))
    (encryption : Bool) : List Nat :=
  readAt key 0 32 ++ (readAt fromIdent 0 32 ++ (lookupFlagSection replyTunnelID encryption ++
    (lookupExcludedSection exploratory excludedPeers ++
      lookupSessionSection env w replyTunnelID encryption)))

/-- The process state after `CreateDatabaseLookupMsg` as the spec describes it: for an
encrypted reply through a reply tunnel two RNG draws and one `add_session_key` with the
drawn key and tag; then the header is filled. -/
def databaseLookupWorld (env : Env) (w : World) (replyTunnelID : Nat) (encryption : Bool) :
    World :=
  if replyTunnelID ≠ 0 ∧ encryption = true then
    AddSessionKey { w with rngCalls := w.rngCalls + 1 + 1 } (lookupSessionKey env w)
      (lookupSessionTag env w)
  else w

/-- The block of `CreateDatabaseLookupMsg` that stores the delivery flag and the reply
tunnel ID: the buffer, the position and the encryption flag after it. -/
def lookupFlagStage (b : List Nat) (buf : Nat) (replyTunnelID : Nat) (encryption : Bool) :
    List Nat × Nat × Bool :=
  if replyTunnelID ≠ 0 then
    let b := writeAt b buf [if encryption then 3 else 1]
    let b := writeAt b (buf + 1) (htobe32 replyTunnelID)
    (b, buf + 5, encryption)
  else
    (writeAt b buf [0], buf + 1, false)

/-- The block of `CreateDatabaseLookupMsg` that stores the excluded peers: the buffer
and the position after it. -/
def lookupExcludedStage (b : List Nat) (buf : Nat) (exploratory : Bool)
    (excludedPeers : Option (List (List Nat))) : List Nat × Nat :=
  if exploratory then
    let b := writeAt b buf (htobe16 1)
    let b := writeAt b (buf + 2) (List.replicate 32 0)
    (b, buf + 2 + 32)
  else
    match excludedPeers with
    | some peers =>
      let cnt := peers.length
      let b := writeAt b buf (htobe16 cnt)
      copyExcludedPeers b (buf + 2) peers
    | none => (writeAt b buf (htobe16 0), buf + 2)

/-- The block of `CreateDatabaseLookupMsg` that draws and stores the session key and
tag: the buffer, the position and the process state after it. -/
def lookupSessionStage (env : Env) (w : World) (b : List Nat) (buf : Nat) (encryption : Bool) :
    List Nat × Nat × World :=
  if encryption then
    let (k, w1) := GenerateBlock env w 32
    let b := writeAt b buf k
    let b := writeAt b (buf + 32) [1]
    let (t, w2) := GenerateBlock env w1 32
    let b := writeAt b (buf + 33) t
    let w3 := AddSessionKey w2 (readAt b buf 32) (readAt b (buf + 33) 32)
    (b, buf + 65, w3)
  else (b, buf, w)

/-! ## Sample inputs -/

/-- A sample environment: a one-byte-sum digest, identity ciphers, a clock that
always reads 1000 and an RNG that always returns 0xDEADBEEF. -/
def sampleEnv : Env :=
  { sha256 := fun data => [data.sum % 256]
    elGamalDecrypt := fun _ encrypted _ => encrypted
    elGamalEncrypt := fun _ data => data
    cbcEncrypt := fun _ _ data => data
    gzip := fun data => data
    clock := fun _ => 1000
    hours := fun _ => 0
    hostU32 := fun x => [x % 256, x / 256 % 256, x / 65536 % 256, x / 16777216 % 256]
    genWord32 := fun _ => 0xDEADBEEF
    genBlock := fun _ n => List.replicate n 7
    handleTunnelBuildResponse := fun _ _ _ => true
    handleTunnelBuildResponseBuffer := fun _ buf _ => buf
    TUNNEL_DATA_MSG_SIZE := 1028
    context := { identHash := List.replicate 32 0, privateKey := [], routerInfoBuffer := [] } }

/-- A sample process state: nothing registered, nothing sent, the message-ID counter
at its last value before it wraps. -/
def sampleWorld : World :=
  { I2NPmsgID := 4294967295, clockReads := 0, rngCalls := 0, transitTunnels := [],
    pendingTunnels := [], inboundTunnels := [], outboundTunnels := [], deletedTunnels := [],
    sent := [], netdbQueue := [], transitSent := [], outboundSent := [], tunnelDataQueue := [],
    garlicMsgs := [], garlicDeliveryStatus := [], poolDeliveryStatus := [], sessionKeys := [],
    deletedMsgs := [] }

/-- A sample message: a three-byte payload behind a header in a 32-byte buffer. -/
def sampleMsg : I2NPMessage :=
  { buf := List.replicate 18 0 ++ [1, 2, 3] ++ List.replicate 11 0, len := 21, offset := 2,
    fromTunnel := none }

/-- A sample record array of two records: the first for another router, the second
for the router of `sampleEnv`; its bytes after toPeer are the clear text, all zero. -/
def sampleRecords : List Nat := List.replicate 528 1 ++ List.replicate 528 0

/-- The router of `sampleEnv` as its peers see it. -/
def sampleRouter : RouterInfo := { identHash := List.replicate 32 0, encryptionKey := [] }

/-- A sample clear text record made by `CreateBuildRequestRecord`: receive tunnel 5,
next tunnel 6, next router 3,3,..,3, not a gateway. -/
def sampleClearText (isEndpoint : Bool) (nextMessageID : Nat) : List Nat :=
  (CreateBuildRequestRecord sampleEnv sampleWorld [] (List.replicate 32 0) 5
    (List.replicate 32 3) 6 [] [] [] [] nextMessageID false isEndpoint).1

/-- The payload of a sample VariableTunnelBuild message: one record, made by
`EncryptBuildRequestRecord` for the router of `sampleEnv`. -/
def sampleBuildMsg (isEndpoint : Bool) (nextMessageID : Nat) : List Nat :=
  [1] ++ EncryptBuildRequestRecord sampleEnv sampleRouter
    (sampleClearText isEndpoint nextMessageID) []

/-- The memory of a sample allocation: 600 bytes. -/
def sampleMem : List Nat := List.replicate 600 0

/-- A sample process state with a pending tunnel for message ID 7. -/
def samplePendingWorld : World := { sampleWorld with pendingTunnels := [(7, { tunnelID := 1 })] }

/-- A sample message with room in front: 30 bytes of reserved prefix, then a 16-byte
header and the payload 1, 2, 3. -/
def sampleRoomyMsg : I2NPMessage :=
  { buf := List.replicate 46 0 ++ [1, 2, 3] ++ List.replicate 15 0, len := 49, offset := 30,
    fromTunnel := none }

/-- A sample transit tunnel with receive tunnel ID 258. -/
def sampleTransitTunnel : TransitTunnel :=
  { receiveTunnelID := 258, nextIdent := [], nextTunnelID := 0, layerKey := [], ivKey := [],
    isGateway := false, isEndpoint := false }

/-- A sample received TunnelGateway message for tunnel 258 (gateway header
0, 0, 1, 2 | 0, 19) that carries a DatabaseStore message with a three-byte payload. -/
def sampleGatewayMsg : I2NPMessage :=
  { buf := [0, 0] ++ [19] ++ List.replicate 15 0 ++ [0, 0, 1, 2, 0, 19] ++ [1] ++
      List.replicate 15 0 ++ [7, 8, 9],
    len := 43, offset := 2, fromTunnel := none }

/-- A sample received DatabaseStore message with size 1 whose header checksum byte is 0
while the digest of its one-byte payload starts with 5. -/
def sampleBadChecksumMsg : I2NPMessage :=
  { buf := [1] ++ List.replicate 12 0 ++ [0, 1, 0] ++ [5], len := 17, offset := 0,
    fromTunnel := none }

/-- A sample raw VariableTunnelBuildReply with msg_id 7, size 1 and checksum byte 0 over
the one-byte payload 5. -/
def sampleRawReply : List Nat := [24, 0, 0, 0, 7] ++ List.replicate 8 0 ++ [0, 1, 0] ++ [5]

/-- A sample raw TunnelBuildReply with msg_id 7, size 1 and payload 5. -/
def sampleRawBuildReply : List Nat :=
  [22, 0, 0, 0, 7] ++ List.replicate 8 0 ++ [0, 1, 5] ++ [5]

/-- A sample raw DatabaseLookup with size field 10 in 85 bytes of memory: a header and
69 zero bytes, of which the first 10 are its payload. -/
def sampleShortLookup : List Nat :=
  [2] ++ List.replicate 12 0 ++ [0, 10, 0] ++ List.replicate 69 0

/-- A sample received TunnelGateway message for tunnel 258 whose gateway header gives
the length 65535 although only three bytes follow the header. -/
def sampleLongGatewayMsg : I2NPMessage :=
  { buf := [19] ++ List.replicate 15 0 ++ [0, 0, 1, 2, 255, 255] ++ [0, 0, 0], len := 25,
    offset := 0, fromTunnel := none }

/-- The payload of a sample DatabaseLookup as `CreateDatabaseLookupMsg` lays it out for
reply tunnel 0x1234: key 1,1,..,1, from 2,2,..,2, flag 0x01, tunnel ID 0, 0, 0x12, 0x34
and no excluded peers. -/
def sampleTunnelLookup : List Nat :=
  List.replicate 32 1 ++ List.replicate 32 2 ++ [1, 0, 0, 18, 52] ++ [0, 0]

/-- The payload of a sample DatabaseLookup for a direct reply: key 1,1,..,1, from
2,2,..,2, flag 0x00 and no excluded peers. -/
def sampleDirectLookup : List Nat :=
  List.replicate 32 1 ++ List.replicate 32 2 ++ [0] ++ [0, 0]

/-- A sample environment like `sampleEnv` whose HandleTunnelBuildResponse stores 255
into the byte after the num byte, the first byte of the first record. -/
def sampleWritingEnv : Env :=
  { sampleEnv with handleTunnelBuildResponseBuffer := fun _ buf _ => writeAt buf 1 [255] }

/-! ## Buffer lemmas -/

theorem byteAt_map_range (f : Nat → Nat) (n i : Nat) :
    byteAt ((List.range n).map f) i = if i < n then f i else 0 := by
  unfold byteAt
  by_cases h : i < n
  · simp [List.getD_eq_getElem?_getD, h]
  · have h2 : ((List.range n).map f).length ≤ i := by simpa using Nat.le_of_not_lt h
    rw [List.getD_eq_default _ _ h2, if_neg h]

theorem byteAt_of_length_le (buf : List Nat) (i : Nat) (h : buf.length ≤ i) : byteAt buf i = 0 :=
  List.getD_eq_default _ _ h

theorem length_readAt (buf : List Nat) (pos n : Nat) : (readAt buf pos n).length = n := by
  simp [readAt]

theorem length_writeAt (buf : List Nat) (pos : Nat) (bs : List Nat) :
    (writeAt buf pos bs).length = buf.length := by
  simp [writeAt]

theorem byteAt_readAt (buf : List Nat) (pos n i : Nat) :
    byteAt (readAt buf pos n) i = if i < n then byteAt buf (pos + i) else 0 := by
  unfold readAt
  exact byteAt_map_range _ n i

theorem byteAt_writeAt (buf : List Nat) (pos : Nat) (bs : List Nat) (i : Nat) :
    byteAt (writeAt buf pos bs) i =
      if pos ≤ i ∧ i < pos + bs.length ∧ i < buf.length then byteAt bs (i - pos)
      else byteAt buf i := by
  unfold writeAt
  rw [byteAt_map_range]
  by_cases h : i < buf.length
  · by_cases h1 : pos ≤ i ∧ i < pos + bs.length
    · have h3 : pos ≤ i ∧ i < pos + bs.length ∧ i < buf.length := ⟨h1.1, h1.2, h⟩
      rw [if_pos h, if_pos h1, if_pos h3]
    · have h3 : ¬ (pos ≤ i ∧ i < pos + bs.length ∧ i < buf.length) := fun c => h1 ⟨c.1, c.2.1⟩
      rw [if_pos h, if_neg h1, if_neg h3]
  · have h3 : ¬ (pos ≤ i ∧ i < pos + bs.length ∧ i < buf.length) := fun c => h c.2.2
    rw [if_neg h, if_neg h3]
    exact (byteAt_of_length_le buf i (Nat.le_of_not_lt h)).symm

theorem byteAt_writeAt_of_outside (buf : List Nat) (pos : Nat) (bs : List Nat) (i : Nat)
    (h : i < pos ∨ pos + bs.length ≤ i) : byteAt (writeAt buf pos bs) i = byteAt buf i := by
  rw [byteAt_writeAt, if_neg]
  omega

theorem byteAt_writeAt_of_inside (buf : List Nat) (pos : Nat) (bs : List Nat) (i : Nat)
    (h1 : pos ≤ i) (h2 : i < pos + bs.length) (h3 : i < buf.length) :
    byteAt (writeAt buf pos bs) i = byteAt bs (i - pos) := by
  rw [byteAt_writeAt, if_pos ⟨h1, h2, h3⟩]

theorem ext_byteAt (a b : List Nat) (hl : a.length = b.length)
    (h : ∀ i, i < a.length → byteAt a i = byteAt b i) : a = b := by
  apply List.ext_getElem hl
  intro i h1 h2
  have := h i h1
  simpa [byteAt, List.getD_eq_getElem?_getD, h1, h2] using this

theorem readAt_congr (a b : List Nat) (p q n : Nat)
    (h : ∀ i, i < n → byteAt a (p + i) = byteAt b (q + i)) : readAt a p n = readAt b q n := by
  apply ext_byteAt
  · simp [length_readAt]
  · intro i hi
    rw [length_readAt] at hi
    rw [byteAt_readAt, byteAt_readAt, if_pos hi, if_pos hi]
    exact h i hi

theorem readAt_zero_length (a : List Nat) : readAt a 0 a.length = a := by
  apply ext_byteAt
  · simp [length_readAt]
  · intro i hi
    rw [length_readAt] at hi
    rw [byteAt_readAt, if_pos hi, Nat.zero_add]

theorem readAt_writeAt_of_disjoint (buf : List Nat) (pos : Nat) (bs : List Nat) (p n : Nat)
    (h : p + n ≤ pos ∨ pos + bs.length ≤ p) :
    readAt (writeAt buf pos bs) p n = readAt buf p n := by
  apply readAt_congr
  intro i hi
  apply byteAt_writeAt_of_outside
  omega

theorem readAt_writeAt_sub (buf : List Nat) (pos : Nat) (bs : List Nat) (k n : Nat)
    (hfit : pos + bs.length ≤ buf.length) (hk : k + n ≤ bs.length) :
    readAt (writeAt buf pos bs) (pos + k) n = readAt bs k n := by
  apply readAt_congr
  intro i hi
  rw [byteAt_writeAt_of_inside _ _ _ _ (by omega) (by omega) (by omega)]
  congr 1
  omega

theorem readAt_writeAt_self (buf : List Nat) (pos : Nat) (bs : List Nat)
    (hfit : pos + bs.length ≤ buf.length) :
    readAt (writeAt buf pos bs) pos bs.length = bs := by
  have := readAt_writeAt_sub buf pos bs 0 bs.length hfit (by omega)
  rw [Nat.add_zero] at this
  rw [this, readAt_zero_length]

theorem readAt_readAt (buf : List Nat) (p n k m : Nat) (h : k + m ≤ n) :
    readAt (readAt buf p n) k m = readAt buf (p + k) m := by
  apply readAt_congr
  intro i hi
  rw [byteAt_readAt, if_pos (by omega), Nat.add_assoc]

theorem byteAt_append (a b : List Nat) (i : Nat) :
    byteAt (a ++ b) i = if i < a.length then byteAt a i else byteAt b (i - a.length) := by
  unfold byteAt
  by_cases h : i < a.length
  · rw [if_pos h, List.getD_append _ _ _ _ h]
  · rw [if_neg h, List.getD_append_right _ _ _ _ (Nat.le_of_not_lt h)]

theorem writeAt_writeAt_adjacent (buf : List Nat) (p : Nat) (a b : List Nat) :
    writeAt (writeAt buf p a) (p + a.length) b = writeAt buf p (a ++ b) := by
  apply ext_byteAt
  · simp [length_writeAt]
  · intro i hi
    simp only [length_writeAt] at hi
    rw [byteAt_writeAt, byteAt_writeAt, byteAt_writeAt, byteAt_append, length_writeAt,
      List.length_append]
    by_cases h1 : i < p
    · rw [if_neg (by omega), if_neg (by omega), if_neg (by omega)]
    · by_cases h2 : i < p + a.length
      · rw [if_neg (by omega), if_pos (by omega), if_pos (by omega), if_pos (by omega)]
      · by_cases h3 : i < p + a.length + b.length
        · rw [if_pos (by omega), if_pos (by omega), if_neg (by omega)]
          congr 1
          omega
        · rw [if_neg (by omega), if_neg (by omega), if_neg (by omega)]

theorem be16toh_htobe16 (x : Nat) : be16toh (htobe16 x) = x % 65536 := by
  simp only [be16toh, u8, htobe16, byteAt, List.getD_cons_zero, List.getD_cons_succ,
    Nat.mod_mod]
  omega

theorem be32toh_htobe32 (x : Nat) : be32toh (htobe32 x) = x % 4294967296 := by
  simp only [be32toh, u8, htobe32, byteAt, List.getD_cons_zero, List.getD_cons_succ,
    Nat.mod_mod]
  omega

theorem be64toh_htobe64 (x : Nat) : be64toh (htobe64 x) = x % 18446744073709551616 := by
  simp only [be64toh, u8, htobe64, byteAt, List.getD_cons_zero, List.getD_cons_succ,
    Nat.mod_mod]
  omega

theorem be16toh_lt (bs : List Nat) : be16toh bs < 65536 := by
  simp only [be16toh, u8]
  omega

theorem be32toh_lt (bs : List Nat) : be32toh bs < 4294967296 := by
  simp only [be32toh, u8]
  omega

theorem length_htobe16 (x : Nat) : (htobe16 x).length = 2 := rfl

theorem length_htobe32 (x : Nat) : (htobe32 x).length = 4 := rfl

theorem length_htobe64 (x : Nat) : (htobe64 x).length = 8 := rfl

theorem length_SHA256 (env : Env) (data : List Nat) : (SHA256 env data).length = 32 :=
  length_readAt _ _ _

/-! ## The header written by FillI2NPMessageHeader -/

theorem length_filledHeader (env : Env) (w : World) (msg : I2NPMessage)
    (msgType : I2NPMessageType) (replyMsgID : Nat) :
    (filledHeader env w msg msgType replyMsgID).length = 16 := rfl

theorem Fill_buf (env : Env) (w : World) (msg : I2NPMessage) (msgType : I2NPMessageType)
    (replyMsgID : Nat) :
    (FillI2NPMessageHeader env w msg msgType replyMsgID).2.buf =
      writeAt msg.buf msg.offset (filledHeader env w msg msgType replyMsgID) := by
  have hpay : ∀ b1 b2 b3 b4 : List Nat,
      readAt (writeAt (writeAt (writeAt (writeAt msg.buf msg.offset b1) (msg.offset + 1) b2)
        (msg.offset + 5) b3) (msg.offset + 13) b4) (msg.offset + 16) (msg.len - msg.offset - 16)
        = readAt msg.buf (msg.offset + 16) (msg.len - msg.offset - 16) ∨
      ¬ (b1.length = 1 ∧ b2.length = 4 ∧ b3.length = 8 ∧ b4.length = 2) := by
    intro b1 b2 b3 b4
    by_cases hl : b1.length = 1 ∧ b2.length = 4 ∧ b3.length = 8 ∧ b4.length = 2
    · left
      rw [readAt_writeAt_of_disjoint _ _ _ _ _ (by omega),
        readAt_writeAt_of_disjoint _ _ _ _ _ (by omega),
        readAt_writeAt_of_disjoint _ _ _ _ _ (by omega),
        readAt_writeAt_of_disjoint _ _ _ _ _ (by omega)]
    · right; exact hl
  unfold filledHeader
  rw [← writeAt_writeAt_adjacent, ← writeAt_writeAt_adjacent, ← writeAt_writeAt_adjacent,
    ← writeAt_writeAt_adjacent]
  simp only [List.length_append, List.length_singleton, length_htobe32, length_htobe64,
    length_htobe16]
  have e1 : msg.offset + (1 + 4) = msg.offset + 5 := rfl
  have e2 : msg.offset + (1 + 4 + 8) = msg.offset + 13 := rfl
  have e3 : msg.offset + (1 + 4 + 8 + 2) = msg.offset + 15 := rfl
  rw [e1, e2, e3]
  have hp := (hpay [msgType.toByte] (htobe32 (stampedMsgID w replyMsgID))
    (htobe64 (env.clock w.clockReads + 5000))
    (htobe16 (msg.len - msg.offset - 16))).resolve_right (by simp [length_htobe32, length_htobe64, length_htobe16])
  by_cases hr : replyMsgID = 0
  · simp only [FillI2NPMessageHeader, GetMillisecondsSinceEpoch, I2NPMessage.GetHeader,
      I2NPMessage.GetBuffer, I2NPMessage.GetPayload, I2NPMessage.GetLength, I2NPMessage.payload,
      sizeofI2NPHeader, stampedMsgID, hr, ne_eq, not_true_eq_false, if_false] at hp ⊢
    rw [hp]
  · simp only [FillI2NPMessageHeader, GetMillisecondsSinceEpoch, I2NPMessage.GetHeader,
      I2NPMessage.GetBuffer, I2NPMessage.GetPayload, I2NPMessage.GetLength, I2NPMessage.payload,
      sizeofI2NPHeader, stampedMsgID, hr, ne_eq, not_false_eq_true, if_true] at hp ⊢
    rw [hp]

theorem Fill_offset (env : Env) (w : World) (msg : I2NPMessage) (msgType : I2NPMessageType)
    (replyMsgID : Nat) :
    (FillI2NPMessageHeader env w msg msgType replyMsgID).2.offset = msg.offset := by
  by_cases hr : replyMsgID = 0 <;> simp [FillI2NPMessageHeader, GetMillisecondsSinceEpoch, hr]

theorem Fill_len (env : Env) (w : World) (msg : I2NPMessage) (msgType : I2NPMessageType)
    (replyMsgID : Nat) :
    (FillI2NPMessageHeader env w msg msgType replyMsgID).2.len = msg.len := by
  by_cases hr : replyMsgID = 0 <;> simp [FillI2NPMessageHeader, GetMillisecondsSinceEpoch, hr]

theorem Fill_fromTunnel (env : Env) (w : World) (msg : I2NPMessage) (msgType : I2NPMessageType)
    (replyMsgID : Nat) :
    (FillI2NPMessageHeader env w msg msgType replyMsgID).2.fromTunnel = msg.fromTunnel := by
  by_cases hr : replyMsgID = 0 <;> simp [FillI2NPMessageHeader, GetMillisecondsSinceEpoch, hr]

theorem Fill_buf_length (env : Env) (w : World) (msg : I2NPMessage) (msgType : I2NPMessageType)
    (replyMsgID : Nat) :
    (FillI2NPMessageHeader env w msg msgType replyMsgID).2.buf.length = msg.buf.length := by
  rw [Fill_buf, length_writeAt]

theorem Fill_GetLength (env : Env) (w : World) (msg : I2NPMessage) (msgType : I2NPMessageType)
    (replyMsgID : Nat) :
    (FillI2NPMessageHeader env w msg msgType replyMsgID).2.GetLength = msg.GetLength := by
  simp only [I2NPMessage.GetLength, Fill_len, Fill_offset]

theorem Fill_world (env : Env) (w : World) (msg : I2NPMessage) (msgType : I2NPMessageType)
    (replyMsgID : Nat) :
    (FillI2NPMessageHeader env w msg msgType replyMsgID).1 =
      { w with
        I2NPmsgID := if replyMsgID ≠ 0 then w.I2NPmsgID else (w.I2NPmsgID + 1) % 4294967296,
        clockReads := w.clockReads + 1 } := by
  by_cases hr : replyMsgID = 0 <;> simp [FillI2NPMessageHeader, GetMillisecondsSinceEpoch, hr]

theorem Fill_byteAt_outside (env : Env) (w : World) (msg : I2NPMessage)
    (msgType : I2NPMessageType) (replyMsgID : Nat) (i : Nat)
    (h : i < msg.offset ∨ msg.offset + 16 ≤ i) :
    byteAt (FillI2NPMessageHeader env w msg msgType replyMsgID).2.buf i = byteAt msg.buf i := by
  rw [Fill_buf]
  apply byteAt_writeAt_of_outside
  rw [length_filledHeader]
  exact h

theorem Fill_readAt_outside (env : Env) (w : World) (msg : I2NPMessage)
    (msgType : I2NPMessageType) (replyMsgID : Nat) (p n : Nat)
    (h : p + n ≤ msg.offset ∨ msg.offset + 16 ≤ p) :
    readAt (FillI2NPMessageHeader env w msg msgType replyMsgID).2.buf p n = readAt msg.buf p n := by
  rw [Fill_buf]
  apply readAt_writeAt_of_disjoint
  rw [length_filledHeader]
  exact h

theorem Fill_payload (env : Env) (w : World) (msg : I2NPMessage) (msgType : I2NPMessageType)
    (replyMsgID : Nat) :
    (FillI2NPMessageHeader env w msg msgType replyMsgID).2.payload = msg.payload := by
  simp only [I2NPMessage.payload, I2NPMessage.GetPayload, I2NPMessage.GetBuffer, Fill_offset,
    Fill_GetLength]
  apply Fill_readAt_outside
  right
  simp [sizeofI2NPHeader]

theorem Fill_readAt_header (env : Env) (w : World) (msg : I2NPMessage)
    (msgType : I2NPMessageType) (replyMsgID : Nat) (k n : Nat)
    (h : msg.offset + 16 ≤ msg.buf.length) (hk : k + n ≤ 16) :
    readAt (FillI2NPMessageHeader env w msg msgType replyMsgID).2.buf (msg.offset + k) n =
      readAt (filledHeader env w msg msgType replyMsgID) k n := by
  rw [Fill_buf]
  apply readAt_writeAt_sub
  · rw [length_filledHeader]; exact h
  · rw [length_filledHeader]; exact hk

theorem Fill_byteAt_header (env : Env) (w : World) (msg : I2NPMessage)
    (msgType : I2NPMessageType) (replyMsgID : Nat) (k : Nat)
    (h : msg.offset + 16 ≤ msg.buf.length) (hk : k < 16) :
    byteAt (FillI2NPMessageHeader env w msg msgType replyMsgID).2.buf (msg.offset + k) =
      byteAt (filledHeader env w msg msgType replyMsgID) k := by
  rw [Fill_buf, byteAt_writeAt_of_inside _ _ _ _ (by omega)
    (by rw [length_filledHeader]; omega) (by omega)]
  congr 1
  omega

theorem Fill_typeID (env : Env) (w : World) (msg : I2NPMessage) (msgType : I2NPMessageType)
    (replyMsgID : Nat) (h : msg.offset + 16 ≤ msg.buf.length) :
    (FillI2NPMessageHeader env w msg msgType replyMsgID).2.typeID = msgType.toByte := by
  have := Fill_byteAt_header env w msg msgType replyMsgID 0 h (by omega)
  simp only [I2NPMessage.typeID, I2NPMessage.GetHeader, I2NPMessage.GetBuffer, Fill_offset]
  rw [Nat.add_zero] at this
  rw [this]
  rfl

theorem Fill_msgID (env : Env) (w : World) (msg : I2NPMessage) (msgType : I2NPMessageType)
    (replyMsgID : Nat) (h : msg.offset + 16 ≤ msg.buf.length) :
    (FillI2NPMessageHeader env w msg msgType replyMsgID).2.msgID =
      stampedMsgID w replyMsgID % 4294967296 := by
  simp only [I2NPMessage.msgID, I2NPMessage.GetHeader, I2NPMessage.GetBuffer, Fill_offset]
  rw [Fill_readAt_header env w msg msgType replyMsgID 1 4 h (by omega)]
  exact be32toh_htobe32 _

theorem Fill_expiration (env : Env) (w : World) (msg : I2NPMessage) (msgType : I2NPMessageType)
    (replyMsgID : Nat) (h : msg.offset + 16 ≤ msg.buf.length) :
    (FillI2NPMessageHeader env w msg msgType replyMsgID).2.expiration =
      (env.clock w.clockReads + 5000) % 18446744073709551616 := by
  simp only [I2NPMessage.expiration, I2NPMessage.GetHeader, I2NPMessage.GetBuffer, Fill_offset]
  rw [Fill_readAt_header env w msg msgType replyMsgID 5 8 h (by omega)]
  exact be64toh_htobe64 _

theorem Fill_size (env : Env) (w : World) (msg : I2NPMessage) (msgType : I2NPMessageType)
    (replyMsgID : Nat) (h : msg.offset + 16 ≤ msg.buf.length) :
    (FillI2NPMessageHeader env w msg msgType replyMsgID).2.size =
      (msg.GetLength - sizeofI2NPHeader) % 65536 := by
  simp only [I2NPMessage.size, I2NPMessage.GetHeader, I2NPMessage.GetBuffer, Fill_offset]
  rw [Fill_readAt_header env w msg msgType replyMsgID 13 2 h (by omega)]
  exact be16toh_htobe16 _

theorem Fill_chks (env : Env) (w : World) (msg : I2NPMessage) (msgType : I2NPMessageType)
    (replyMsgID : Nat) (h : msg.offset + 16 ≤ msg.buf.length) :
    (FillI2NPMessageHeader env w msg msgType replyMsgID).2.chks =
      byteAt (SHA256 env msg.payload) 0 := by
  simp only [I2NPMessage.chks, I2NPMessage.GetHeader, I2NPMessage.GetBuffer, Fill_offset]
  rw [Fill_byteAt_header env w msg msgType replyMsgID 15 h (by omega)]
  rfl

/-! ## Every builder ends in FillI2NPMessageHeader -/

/-- C3: a call of FillI2NPMessageHeader without a reply message ID stamps the header
with the current value c of the counter and advances the counter to (c + 1) mod 2^32,
so two successive calls stamp c and (c + 1) mod 2^32; a call with a non-zero reply
message ID leaves the counter unchanged. -/
theorem msgID_of_successive_fills (env : Env) (w : World) (m1 m2 : I2NPMessage)
    (t1 t2 : I2NPMessageType) (hc : w.I2NPmsgID < 4294967296)
    (h1 : m1.WellFormed) (h2 : m2.WellFormed) :
    (FillI2NPMessageHeader env w m1 t1 0).2.msgID = w.I2NPmsgID ∧
    (FillI2NPMessageHeader env w m1 t1 0).1.I2NPmsgID = (w.I2NPmsgID + 1) % 4294967296 ∧
    (FillI2NPMessageHeader env (FillI2NPMessageHeader env w m1 t1 0).1 m2 t2 0).2.msgID =
      (w.I2NPmsgID + 1) % 4294967296 ∧
    (∀ replyMsgID, replyMsgID ≠ 0 →
      (FillI2NPMessageHeader env w m1 t1 replyMsgID).1.I2NPmsgID = w.I2NPmsgID) := by
  have b1 : m1.offset + 16 ≤ m1.buf.length := by
    have := h1.1; have := h1.2; simp only [sizeofI2NPHeader] at *; omega
  have b2 : m2.offset + 16 ≤ m2.buf.length := by
    have := h2.1; have := h2.2; simp only [sizeofI2NPHeader] at *; omega
  refine ⟨?_, ?_, ?_, ?_⟩
  · rw [Fill_msgID env w m1 t1 0 b1]
    simp only [stampedMsgID, ne_eq, not_true_eq_false, if_false]
    exact Nat.mod_eq_of_lt hc
  · rw [Fill_world]; simp
  · rw [Fill_msgID _ _ m2 t2 0 b2, Fill_world]
    simp [stampedMsgID]
  · intro r hr
    rw [Fill_world]; simp [hr]

theorem msgID_of_successive_fills_witness :
    (FillI2NPMessageHeader sampleEnv sampleWorld sampleMsg .eI2NPTunnelData 0).2.msgID
      = 4294967295 ∧
    (FillI2NPMessageHeader sampleEnv sampleWorld sampleMsg .eI2NPTunnelData 0).1.I2NPmsgID
      = (4294967295 + 1) % 4294967296 ∧
    (FillI2NPMessageHeader sampleEnv
      (FillI2NPMessageHeader sampleEnv sampleWorld sampleMsg .eI2NPTunnelData 0).1
      sampleMsg .eI2NPGarlic 0).2.msgID = (4294967295 + 1) % 4294967296 ∧
    (∀ replyMsgID, replyMsgID ≠ 0 →
      (FillI2NPMessageHeader sampleEnv sampleWorld sampleMsg .eI2NPTunnelData
        replyMsgID).1.I2NPmsgID = 4294967295) :=
  msgID_of_successive_fills sampleEnv sampleWorld sampleMsg sampleMsg .eI2NPTunnelData
    .eI2NPGarlic (by decide) ⟨by decide, by decide⟩ ⟨by decide, by decide⟩

/-! ## The tunnel-build engine -/

theorem length_CBCEncrypt (env : Env) (key iv data : List Nat) :
    (CBCEncrypt env key iv data).length = data.length :=
  length_readAt _ _ _

theorem length_encryptRecords (env : Env) (key iv : List Nat) (num : Nat) (records : List Nat) :
    (encryptRecords env key iv num records).length = records.length := by
  unfold encryptRecords
  induction num with
  | zero => simp
  | succ n ih => rw [List.range_succ, List.foldl_append, List.foldl_cons, List.foldl_nil,
      length_writeAt, ih]

theorem encryptRecords_succ (env : Env) (key iv : List Nat) (n : Nat) (records : List Nat) :
    encryptRecords env key iv (n + 1) records =
      writeAt (encryptRecords env key iv n records) (sizeofBuildRecord * n)
        (CBCEncrypt env key iv
          (readAt (encryptRecords env key iv n records) (sizeofBuildRecord * n)
            sizeofBuildRecord)) := by
  unfold encryptRecords
  rw [List.range_succ, List.foldl_append, List.foldl_cons, List.foldl_nil]

theorem byteAt_encryptRecords_of_ge (env : Env) (key iv : List Nat) (num : Nat)
    (records : List Nat) (p : Nat) (h : sizeofBuildRecord * num ≤ p) :
    byteAt (encryptRecords env key iv num records) p = byteAt records p := by
  induction num with
  | zero => rfl
  | succ n ih =>
    simp only [sizeofBuildRecord] at h ih
    rw [encryptRecords_succ, byteAt_writeAt_of_outside, ih (by omega)]
    rw [length_CBCEncrypt, length_readAt]
    simp only [sizeofBuildRecord]
    omega

theorem readAt_encryptRecords (env : Env) (key iv : List Nat) (num : Nat) (records : List Nat)
    (hfit : sizeofBuildRecord * num ≤ records.length) (j : Nat) (hj : j < num) :
    readAt (encryptRecords env key iv num records) (sizeofBuildRecord * j) sizeofBuildRecord =
      CBCEncrypt env key iv (readAt records (sizeofBuildRecord * j) sizeofBuildRecord) := by
  induction num with
  | zero => omega
  | succ n ih =>
    simp only [sizeofBuildRecord] at hfit ih ⊢
    have hsame : readAt (encryptRecords env key iv n records) (528 * n) 528 =
        readAt records (528 * n) 528 := by
      apply readAt_congr
      intro i _
      apply byteAt_encryptRecords_of_ge
      simp only [sizeofBuildRecord]
      omega
    rw [encryptRecords_succ]
    simp only [sizeofBuildRecord]
    rw [hsame]
    by_cases hjn : j = n
    · subst hjn
      have hl : (CBCEncrypt env key iv (readAt records (528 * j) 528)).length = 528 := by
        rw [length_CBCEncrypt, length_readAt]
      have := readAt_writeAt_self (encryptRecords env key iv j records) (528 * j)
        (CBCEncrypt env key iv (readAt records (528 * j) 528))
        (by rw [hl, length_encryptRecords]; omega)
      rw [hl] at this
      exact this
    · rw [readAt_writeAt_of_disjoint _ _ _ _ _ (by left; omega)]
      exact ih (by omega) (by omega)

theorem length_replaceRecordToReply (env : Env) (records : List Nat) (i : Nat) :
    (replaceRecordToReply env records i).length = records.length := by
  simp only [replaceRecordToReply, length_writeAt]

theorem byteAt_replaceRecordToReply_of_outside (env : Env) (records : List Nat) (i p : Nat)
    (h : p < sizeofBuildRecord * i + responseRetPos ∨ sizeofBuildRecord * (i + 1) ≤ p) :
    byteAt (replaceRecordToReply env records i) p = byteAt records p := by
  simp only [sizeofBuildRecord, responseRetPos] at h
  simp only [replaceRecordToReply, sizeofBuildRecord, responseRetPos, responseHashPos]
  rw [byteAt_writeAt_of_outside _ _ _ _ (by rw [length_SHA256]; omega),
    byteAt_writeAt_of_outside _ _ _ _ (by simp only [List.length_singleton]; omega)]

theorem readAt_replaceRecordToReply_of_ne (env : Env) (records : List Nat) (i j : Nat)
    (h : j ≠ i) :
    readAt (replaceRecordToReply env records i) (sizeofBuildRecord * j) sizeofBuildRecord =
      readAt records (sizeofBuildRecord * j) sizeofBuildRecord := by
  apply readAt_congr
  intro k hk
  apply byteAt_replaceRecordToReply_of_outside
  simp only [sizeofBuildRecord, responseRetPos] at hk ⊢
  rcases Nat.lt_or_gt_of_ne h with h1 | h1
  · left; omega
  · right; omega

theorem HandleBuildRequestRecords_of_none (env : Env) (w : World) (num : Nat)
    (records clearText : List Nat) (h : ∀ i, i < num → isOurRecord env records i = false) :
    HandleBuildRequestRecords env w num records clearText =
      { ret := false, records := records, clearText := clearText, world := w } := by
  have hf : (List.range num).find? (isOurRecord env records) = none := by
    rw [List.find?_range_eq_none]
    intro i hi
    simp [h i hi]
  simp only [HandleBuildRequestRecords, hf]

theorem HandleBuildRequestRecords_of_own (env : Env) (w : World) (num : Nat)
    (records clearText : List Nat) (i : Nat) (hi : i < num)
    (hown : isOurRecord env records i = true)
    (hfirst : ∀ k, k < i → isOurRecord env records k = false) :
    HandleBuildRequestRecords env w num records clearText =
      { ret := true
        records := encryptRecords env
          (clearTextReplyKey (ElGamalDecrypt env env.context.privateKey
            (readAt records (sizeofBuildRecord * i + 16) 512) clearText))
          (clearTextReplyIV (ElGamalDecrypt env env.context.privateKey
            (readAt records (sizeofBuildRecord * i + 16) 512) clearText))
          num (replaceRecordToReply env records i)
        clearText := ElGamalDecrypt env env.context.privateKey
          (readAt records (sizeofBuildRecord * i + 16) 512) clearText
        world := AddTransitTunnel w (CreateTransitTunnel
          (be32toh (clearTextReceiveTunnel (ElGamalDecrypt env env.context.privateKey
            (readAt records (sizeofBuildRecord * i + 16) 512) clearText)))
          (clearTextNextIdent (ElGamalDecrypt env env.context.privateKey
            (readAt records (sizeofBuildRecord * i + 16) 512) clearText))
          (be32toh (clearTextNextTunnel (ElGamalDecrypt env env.context.privateKey
            (readAt records (sizeofBuildRecord * i + 16) 512) clearText)))
          (clearTextLayerKey (ElGamalDecrypt env env.context.privateKey
            (readAt records (sizeofBuildRecord * i + 16) 512) clearText))
          (clearTextIvKey (ElGamalDecrypt env env.context.privateKey
            (readAt records (sizeofBuildRecord * i + 16) 512) clearText))
          (decide (clearTextFlag (ElGamalDecrypt env env.context.privateKey
            (readAt records (sizeofBuildRecord * i + 16) 512) clearText) &&& 0x80 ≠ 0))
          (decide (clearTextFlag (ElGamalDecrypt env env.context.privateKey
            (readAt records (sizeofBuildRecord * i + 16) 512) clearText) &&& 0x40 ≠ 0))) } := by
  have hf : (List.range num).find? (isOurRecord env records) = some i := by
    rw [List.find?_range_eq_some]
    refine ⟨hown, List.mem_range.mpr hi, ?_⟩
    intro k hk
    simp [hfirst k hk]
  simp only [HandleBuildRequestRecords, hf]

theorem HandleBuildRequestRecords_ret_eq_false_iff (env : Env) (w : World) (num : Nat)
    (records clearText : List Nat) :
    (HandleBuildRequestRecords env w num records clearText).ret = false ↔
      ∀ i, i < num → isOurRecord env records i = false := by
  constructor
  · intro h i hi
    cases hf : (List.range num).find? (isOurRecord env records) with
    | none =>
      rw [List.find?_range_eq_none] at hf
      simpa using hf i hi
    | some k => simp [HandleBuildRequestRecords, hf] at h
  · intro h
    rw [HandleBuildRequestRecords_of_none env w num records clearText h]

theorem replaceRecordToReply_slot (env : Env) (records : List Nat) (i : Nat)
    (hfit : sizeofBuildRecord * (i + 1) ≤ records.length) :
    byteAt (readAt (replaceRecordToReply env records i) (sizeofBuildRecord * i) sizeofBuildRecord)
      responseRetPos = 0 ∧
    readAt (readAt (replaceRecordToReply env records i) (sizeofBuildRecord * i) sizeofBuildRecord)
      responseHashPos 32 =
      SHA256 env (readAt (readAt (replaceRecordToReply env records i) (sizeofBuildRecord * i)
        sizeofBuildRecord) responsePaddingPos (sizeofResponsePadding + 1)) ∧
    readAt (readAt (replaceRecordToReply env records i) (sizeofBuildRecord * i) sizeofBuildRecord)
      responsePaddingPos sizeofResponsePadding =
      readAt records (sizeofBuildRecord * i + responsePaddingPos) sizeofResponsePadding := by
  simp only [sizeofBuildRecord, responseRetPos, responseHashPos, responsePaddingPos,
    sizeofResponsePadding, Nat.add_zero] at hfit ⊢
  refine ⟨?_, ?_, ?_⟩
  · rw [byteAt_readAt, if_pos (by omega)]
    simp only [replaceRecordToReply, sizeofBuildRecord, responseRetPos, responseHashPos,
      responsePaddingPos, sizeofResponsePadding]
    rw [byteAt_writeAt_of_outside _ _ _ _ (by left; omega),
      byteAt_writeAt_of_inside _ _ _ _ (by omega) (by simp only [List.length_singleton]; omega)
        (by omega)]
    simp [byteAt]
  · rw [readAt_readAt _ _ _ _ _ (by omega), readAt_readAt _ _ _ _ _ (by omega)]
    simp only [replaceRecordToReply, sizeofBuildRecord, responseRetPos, responseHashPos,
      responsePaddingPos, sizeofResponsePadding, Nat.add_zero]
    rw [readAt_writeAt_of_disjoint _ (528 * i + 496) _ (528 * i) 496 (by left; omega)]
    have hl := length_SHA256 env (readAt (writeAt records (528 * i + 495) [0]) (528 * i) 496)
    have := readAt_writeAt_self (writeAt records (528 * i + 495) [0]) (528 * i + 496)
      (SHA256 env (readAt (writeAt records (528 * i + 495) [0]) (528 * i) 496))
      (by rw [hl, length_writeAt]; omega)
    rw [hl] at this
    exact this
  · rw [readAt_readAt _ _ _ _ _ (by omega)]
    apply readAt_congr
    intro k hk
    rw [Nat.add_zero]
    apply byteAt_replaceRecordToReply_of_outside
    simp only [sizeofBuildRecord, responseRetPos]
    left; omega

theorem isOurRecord_eq_true_iff (env : Env) (records : List Nat) (i : Nat) :
    isOurRecord env records i = true ↔
      readAt records (sizeofBuildRecord * i) 16 = readAt env.context.identHash 0 16 := by
  simp [isOurRecord]

theorem isOurRecord_eq_false_iff (env : Env) (records : List Nat) (i : Nat) :
    isOurRecord env records i = false ↔
      readAt records (sizeofBuildRecord * i) 16 ≠ readAt env.context.identHash 0 16 := by
  simp [isOurRecord]

/-! ## C4 and C5: what HandleBuildRequestRecords does to the record array -/

/-- C4: when record i is the first of the num records whose toPeer is the local
identity, HandleBuildRequestRecords returns true and has encrypted each of the num
records exactly once, independently, with the reply key and IV of the decrypted
clear text; so any CBC decryption dec that inverts that encryption yields the
original bytes in every slot but slot i and, in slot i, the response record (the
original padding, ret = 0 and the digest of padding and ret). -/
theorem reencryption_of_build_records (env : Env) (w : World) (num : Nat)
    (records clearText : List Nat) (dec : List Nat → List Nat) (i : Nat)
    (hi : i < num)
    (hown : readAt records (sizeofBuildRecord * i) 16 = readAt env.context.identHash 0 16)
    (hfirst : ∀ k, k < i →
      readAt records (sizeofBuildRecord * k) 16 ≠ readAt env.context.identHash 0 16)
    (hfit : sizeofBuildRecord * num ≤ records.length)
    (hdec : ∀ d, d.length = sizeofBuildRecord →
      dec (CBCEncrypt env
        (clearTextReplyKey (HandleBuildRequestRecords env w num records clearText).clearText)
        (clearTextReplyIV (HandleBuildRequestRecords env w num records clearText).clearText)
        d) = d) :
    (HandleBuildRequestRecords env w num records clearText).ret = true ∧
    (HandleBuildRequestRecords env w num records clearText).clearText =
      ElGamalDecrypt env env.context.privateKey
        (readAt records (sizeofBuildRecord * i + 16) 512) clearText ∧
    (∀ j, j < num →
      readAt (HandleBuildRequestRecords env w num records clearText).records
        (sizeofBuildRecord * j) sizeofBuildRecord =
      CBCEncrypt env
        (clearTextReplyKey (HandleBuildRequestRecords env w num records clearText).clearText)
        (clearTextReplyIV (HandleBuildRequestRecords env w num records clearText).clearText)
        (readAt (replaceRecordToReply env records i) (sizeofBuildRecord * j)
          sizeofBuildRecord)) ∧
    (∀ j, j < num → j ≠ i →
      dec (readAt (HandleBuildRequestRecords env w num records clearText).records
        (sizeofBuildRecord * j) sizeofBuildRecord) =
      readAt records (sizeofBuildRecord * j) sizeofBuildRecord) ∧
    readAt (dec (readAt (HandleBuildRequestRecords env w num records clearText).records
        (sizeofBuildRecord * i) sizeofBuildRecord)) responsePaddingPos sizeofResponsePadding =
      readAt records (sizeofBuildRecord * i + responsePaddingPos) sizeofResponsePadding ∧
    byteAt (dec (readAt (HandleBuildRequestRecords env w num records clearText).records
        (sizeofBuildRecord * i) sizeofBuildRecord)) responseRetPos = 0 ∧
    readAt (dec (readAt (HandleBuildRequestRecords env w num records clearText).records
        (sizeofBuildRecord * i) sizeofBuildRecord)) responseHashPos 32 =
      SHA256 env (readAt (dec (readAt
        (HandleBuildRequestRecords env w num records clearText).records
        (sizeofBuildRecord * i) sizeofBuildRecord)) responsePaddingPos
        (sizeofResponsePadding + 1)) ∧
    (∀ p, sizeofBuildRecord * num ≤ p →
      byteAt (HandleBuildRequestRecords env w num records clearText).records p =
        byteAt records p) := by
  have e := HandleBuildRequestRecords_of_own env w num records clearText i hi
    ((isOurRecord_eq_true_iff env records i).mpr hown)
    (fun k hk => (isOurRecord_eq_false_iff env records k).mpr (hfirst k hk))
  rw [e] at hdec ⊢
  simp only at hdec ⊢
  have hfit2 : sizeofBuildRecord * num ≤ (replaceRecordToReply env records i).length := by
    rw [length_replaceRecordToReply]; exact hfit
  have henc := readAt_encryptRecords env
    (clearTextReplyKey (ElGamalDecrypt env env.context.privateKey
      (readAt records (sizeofBuildRecord * i + 16) 512) clearText))
    (clearTextReplyIV (ElGamalDecrypt env env.context.privateKey
      (readAt records (sizeofBuildRecord * i + 16) 512) clearText))
    num (replaceRecordToReply env records i) hfit2
  have hslot := replaceRecordToReply_slot env records i
    (by simp only [sizeofBuildRecord] at hfit ⊢; omega)
  have hdi := hdec (readAt (replaceRecordToReply env records i) (sizeofBuildRecord * i)
    sizeofBuildRecord) (length_readAt _ _ _)
  refine ⟨trivial, trivial, henc, ?_, ?_, ?_, ?_, ?_⟩
  · intro j hj hne
    rw [henc j hj, hdec _ (length_readAt _ _ _), readAt_replaceRecordToReply_of_ne env records i j hne]
  · rw [henc i hi, hdi]; exact hslot.2.2
  · rw [henc i hi, hdi]; exact hslot.1
  · rw [henc i hi, hdi]; exact hslot.2.1
  · intro p hp
    rw [byteAt_encryptRecords_of_ge _ _ _ _ _ _ hp]
    apply byteAt_replaceRecordToReply_of_outside
    right
    simp only [sizeofBuildRecord] at hp ⊢
    omega

/-- C5: HandleBuildRequestRecords returns false exactly when none of the first num
records has toPeer equal to the first 16 bytes of the local identity hash; it then
leaves the record array, the clear text and the process state (so the transit
tunnels) unchanged, and HandleVariableTunnelBuildMsg (without a pending tunnel) and
HandleTunnelBuildMsg then change nothing either: nothing is sent. -/
theorem no_matching_build_record (env : Env) (w : World) (num : Nat)
    (records clearText : List Nat) :
    ((HandleBuildRequestRecords env w num records clearText).ret = false ↔
      ∀ i, i < num →
        readAt records (sizeofBuildRecord * i) 16 ≠ readAt env.context.identHash 0 16) ∧
    ((HandleBuildRequestRecords env w num records clearText).ret = false →
      (HandleBuildRequestRecords env w num records clearText).records = records ∧
      (HandleBuildRequestRecords env w num records clearText).clearText = clearText ∧
      (HandleBuildRequestRecords env w num records clearText).world = w) ∧
    (∀ (mem buf : List Nat) (replyMsgID len : Nat), GetPendingTunnel w replyMsgID = none →
      (HandleBuildRequestRecords env w (byteAt buf 0) (buf.drop 1) clearText).ret = false →
      HandleVariableTunnelBuildMsg env w mem clearText replyMsgID buf len = (w, buf)) ∧
    (∀ (mem buf : List Nat) (len : Nat),
      (HandleBuildRequestRecords env w NUM_TUNNEL_BUILD_RECORDS buf clearText).ret = false →
      HandleTunnelBuildMsg env w mem clearText buf len = (w, buf)) := by
  refine ⟨?_, ?_, ?_, ?_⟩
  · rw [HandleBuildRequestRecords_ret_eq_false_iff]
    constructor
    · intro h i hi; exact (isOurRecord_eq_false_iff env records i).mp (h i hi)
    · intro h i hi; exact (isOurRecord_eq_false_iff env records i).mpr (h i hi)
  · intro h
    rw [HandleBuildRequestRecords_ret_eq_false_iff] at h
    rw [HandleBuildRequestRecords_of_none env w num records clearText h]
    exact ⟨rfl, rfl, rfl⟩
  · intro mem buf replyMsgID len hp h
    rw [HandleBuildRequestRecords_ret_eq_false_iff] at h
    simp only [HandleVariableTunnelBuildMsg, hp,
      HandleBuildRequestRecords_of_none env w _ _ clearText h, List.take_append_drop]
    rfl
  · intro mem buf len h
    rw [HandleBuildRequestRecords_ret_eq_false_iff] at h
    simp only [HandleTunnelBuildMsg, HandleBuildRequestRecords_of_none env w _ _ clearText h]
    rfl

theorem byteAt_replicate (n v i : Nat) :
    byteAt (List.replicate n v) i = if i < n then v else 0 := by
  unfold byteAt
  by_cases h : i < n
  · simp [List.getD_eq_getElem?_getD, h]
  · rw [if_neg h, List.getD_eq_default]
    simpa using Nat.le_of_not_lt h

theorem byteAt_sampleRecords (i : Nat) :
    byteAt sampleRecords i = if i < 528 then 1 else 0 := by
  unfold sampleRecords
  rw [byteAt_append, byteAt_replicate, byteAt_replicate, List.length_replicate]
  by_cases h : i < 528
  · simp [h]
  · by_cases h2 : i - 528 < 528 <;> simp [h, h2]

theorem length_sampleRecords : sampleRecords.length = 1056 := by
  unfold sampleRecords
  rw [List.length_append, List.length_replicate, List.length_replicate]

theorem sampleRecords_second_is_ours :
    readAt sampleRecords (sizeofBuildRecord * 1) 16 = readAt sampleEnv.context.identHash 0 16 := by
  apply readAt_congr
  intro i hi
  rw [byteAt_sampleRecords, if_neg (by simp only [sizeofBuildRecord]; omega)]
  show 0 = byteAt (List.replicate 32 0) (0 + i)
  rw [byteAt_replicate]
  simp

theorem sampleRecords_first_is_not_ours (k : Nat) (hk : k < 1) :
    readAt sampleRecords (sizeofBuildRecord * k) 16 ≠ readAt sampleEnv.context.identHash 0 16 := by
  have hk0 : k = 0 := by omega
  subst hk0
  intro h
  have h1 := congrArg (fun l => byteAt l 0) h
  simp only [byteAt_readAt] at h1
  rw [byteAt_sampleRecords] at h1
  revert h1
  decide

theorem reencryption_of_build_records_witness :
    (HandleBuildRequestRecords sampleEnv sampleWorld 2 sampleRecords []).ret = true ∧
    readAt (HandleBuildRequestRecords sampleEnv sampleWorld 2 sampleRecords []).records
      (sizeofBuildRecord * 0) sizeofBuildRecord = readAt sampleRecords (sizeofBuildRecord * 0)
        sizeofBuildRecord ∧
    byteAt (readAt (HandleBuildRequestRecords sampleEnv sampleWorld 2 sampleRecords []).records
      (sizeofBuildRecord * 1) sizeofBuildRecord) responseRetPos = 0 :=
  have h := reencryption_of_build_records sampleEnv sampleWorld 2 sampleRecords []
    (fun d => d) 1 (by decide) sampleRecords_second_is_ours sampleRecords_first_is_not_ours
    (by rw [length_sampleRecords]; decide)
    (fun d _ => readAt_zero_length d)
  ⟨h.1, h.2.2.2.1 0 (by decide) (by decide), h.2.2.2.2.2.1⟩

theorem no_matching_build_record_witness :
    (HandleBuildRequestRecords sampleEnv sampleWorld 1 sampleRecords []).ret = false ∧
    (HandleBuildRequestRecords sampleEnv sampleWorld 1 sampleRecords []).records =
      sampleRecords ∧
    (HandleBuildRequestRecords sampleEnv sampleWorld 1 sampleRecords []).clearText = [] ∧
    (HandleBuildRequestRecords sampleEnv sampleWorld 1 sampleRecords []).world = sampleWorld :=
  have h := no_matching_build_record sampleEnv sampleWorld 1 sampleRecords []
  have hret := h.1.mpr sampleRecords_first_is_not_ours
  ⟨hret, h.2.1 hret⟩

/-! ## CreateI2NPMessage -/

theorem CreateI2NPMessage_eq (env : Env) (w : World) (mem : List Nat) (msgType : I2NPMessageType)
    (buf : List Nat) (len replyMsgID : Nat) :
    CreateI2NPMessage env w mem msgType buf len replyMsgID =
      FillI2NPMessageHeader env w
        { buf := writeAt mem 18 (readAt buf 0 len), len := 18 + len, offset := 2,
          fromTunnel := none } msgType replyMsgID := rfl

theorem CreateI2NPMessage_offset (env : Env) (w : World) (mem : List Nat)
    (msgType : I2NPMessageType) (buf : List Nat) (len replyMsgID : Nat) :
    (CreateI2NPMessage env w mem msgType buf len replyMsgID).2.offset = 2 := by
  rw [CreateI2NPMessage_eq, Fill_offset]

theorem CreateI2NPMessage_len (env : Env) (w : World) (mem : List Nat)
    (msgType : I2NPMessageType) (buf : List Nat) (len replyMsgID : Nat) :
    (CreateI2NPMessage env w mem msgType buf len replyMsgID).2.len = 18 + len := by
  rw [CreateI2NPMessage_eq, Fill_len]

theorem CreateI2NPMessage_buf_length (env : Env) (w : World) (mem : List Nat)
    (msgType : I2NPMessageType) (buf : List Nat) (len replyMsgID : Nat) :
    (CreateI2NPMessage env w mem msgType buf len replyMsgID).2.buf.length = mem.length := by
  rw [CreateI2NPMessage_eq, Fill_buf_length, length_writeAt]

theorem CreateI2NPMessage_typeID (env : Env) (w : World) (mem : List Nat)
    (msgType : I2NPMessageType) (buf : List Nat) (len replyMsgID : Nat)
    (hmem : 18 + len ≤ mem.length) :
    (CreateI2NPMessage env w mem msgType buf len replyMsgID).2.typeID = msgType.toByte := by
  rw [CreateI2NPMessage_eq]
  apply Fill_typeID
  simp only [length_writeAt]
  omega

theorem CreateI2NPMessage_msgID (env : Env) (w : World) (mem : List Nat)
    (msgType : I2NPMessageType) (buf : List Nat) (len replyMsgID : Nat)
    (hmem : 18 + len ≤ mem.length) :
    (CreateI2NPMessage env w mem msgType buf len replyMsgID).2.msgID =
      stampedMsgID w replyMsgID % 4294967296 := by
  rw [CreateI2NPMessage_eq]
  apply Fill_msgID
  simp only [length_writeAt]
  omega

theorem CreateI2NPMessage_payload (env : Env) (w : World) (mem : List Nat)
    (msgType : I2NPMessageType) (buf : List Nat) (len replyMsgID : Nat)
    (hmem : 18 + len ≤ mem.length) :
    (CreateI2NPMessage env w mem msgType buf len replyMsgID).2.payload = readAt buf 0 len := by
  rw [CreateI2NPMessage_eq, Fill_payload]
  simp only [I2NPMessage.payload, I2NPMessage.GetPayload, I2NPMessage.GetBuffer,
    I2NPMessage.GetLength, sizeofI2NPHeader]
  have hl : (readAt buf 0 len).length = len := length_readAt _ _ _
  have := readAt_writeAt_self mem 18 (readAt buf 0 len) (by rw [hl]; exact hmem)
  rw [hl] at this
  have e : 18 + len - 2 - 16 = len := by omega
  rw [e]
  exact this

theorem CreateI2NPMessage_world (env : Env) (w : World) (mem : List Nat)
    (msgType : I2NPMessageType) (buf : List Nat) (len replyMsgID : Nat) :
    (CreateI2NPMessage env w mem msgType buf len replyMsgID).1 =
      { w with
        I2NPmsgID := if replyMsgID ≠ 0 then w.I2NPmsgID else (w.I2NPmsgID + 1) % 4294967296,
        clockReads := w.clockReads + 1 } := by
  rw [CreateI2NPMessage_eq, Fill_world]

/-! ## C6: forwarding at an intermediate hop -/

theorem HandleBuildRequestRecords_ret_of_own (env : Env) (w : World) (num : Nat)
    (records clearText : List Nat) (i : Nat) (hi : i < num)
    (hown : readAt records (sizeofBuildRecord * i) 16 = readAt env.context.identHash 0 16)
    (hfirst : ∀ k, k < i →
      readAt records (sizeofBuildRecord * k) 16 ≠ readAt env.context.identHash 0 16) :
    (HandleBuildRequestRecords env w num records clearText).ret = true := by
  rw [HandleBuildRequestRecords_of_own env w num records clearText i hi
    ((isOurRecord_eq_true_iff env _ i).mpr hown)
    (fun k hk => (isOurRecord_eq_false_iff env _ k).mpr (hfirst k hk))]

theorem HandleBuildRequestRecords_clearText_of_own (env : Env) (w : World) (num : Nat)
    (records clearText : List Nat) (i : Nat) (hi : i < num)
    (hown : readAt records (sizeofBuildRecord * i) 16 = readAt env.context.identHash 0 16)
    (hfirst : ∀ k, k < i →
      readAt records (sizeofBuildRecord * k) 16 ≠ readAt env.context.identHash 0 16) :
    (HandleBuildRequestRecords env w num records clearText).clearText =
      ElGamalDecrypt env env.context.privateKey
        (readAt records (sizeofBuildRecord * i + 16) 512) clearText := by
  rw [HandleBuildRequestRecords_of_own env w num records clearText i hi
    ((isOurRecord_eq_true_iff env _ i).mpr hown)
    (fun k hk => (isOurRecord_eq_false_iff env _ k).mpr (hfirst k hk))]

theorem HandleBuildRequestRecords_world (env : Env) (w : World) (num : Nat)
    (records clearText : List Nat) :
    (HandleBuildRequestRecords env w num records clearText).world.sent = w.sent ∧
    (HandleBuildRequestRecords env w num records clearText).world.I2NPmsgID = w.I2NPmsgID ∧
    (HandleBuildRequestRecords env w num records clearText).world.clockReads = w.clockReads := by
  unfold HandleBuildRequestRecords
  cases (List.range num).find? (isOurRecord env records) with
  | none => exact ⟨rfl, rfl, rfl⟩
  | some i => exact ⟨rfl, rfl, rfl⟩

theorem HandleVariableTunnelBuildMsg_forward (env : Env) (w : World) (mem clearText : List Nat)
    (replyMsgID : Nat) (buf : List Nat) (len : Nat)
    (hp : GetPendingTunnel w replyMsgID = none)
    (hret : (HandleBuildRequestRecords env w (byteAt buf 0) (buf.drop 1) clearText).ret = true)
    (hflag : clearTextFlag
      (HandleBuildRequestRecords env w (byteAt buf 0) (buf.drop 1) clearText).clearText
        &&& 0x40 = 0) :
    HandleVariableTunnelBuildMsg env w mem clearText replyMsgID buf len =
      (SendMessage
        (CreateI2NPMessage env
          (HandleBuildRequestRecords env w (byteAt buf 0) (buf.drop 1) clearText).world mem
          .eI2NPVariableTunnelBuild
          (buf.take 1 ++
            (HandleBuildRequestRecords env w (byteAt buf 0) (buf.drop 1) clearText).records)
          len
          (be32toh (clearTextNextMessageID
            (HandleBuildRequestRecords env w (byteAt buf 0) (buf.drop 1)
              clearText).clearText))).1
        (clearTextNextIdent
          (HandleBuildRequestRecords env w (byteAt buf 0) (buf.drop 1) clearText).clearText)
        (CreateI2NPMessage env
          (HandleBuildRequestRecords env w (byteAt buf 0) (buf.drop 1) clearText).world mem
          .eI2NPVariableTunnelBuild
          (buf.take 1 ++
            (HandleBuildRequestRecords env w (byteAt buf 0) (buf.drop 1) clearText).records)
          len
          (be32toh (clearTextNextMessageID
            (HandleBuildRequestRecords env w (byteAt buf 0) (buf.drop 1)
              clearText).clearText))).2,
       buf.take 1 ++
          (HandleBuildRequestRecords env w (byteAt buf 0) (buf.drop 1) clearText).records) := by
  have hflag2 : ¬ (clearTextFlag
      (HandleBuildRequestRecords env w (byteAt buf 0) (buf.drop 1) clearText).clearText
        &&& 0x40 ≠ 0) := fun h => h hflag
  unfold HandleVariableTunnelBuildMsg
  simp only [hp]
  rw [if_pos hret, if_neg hflag2]

/-- C6 (as amended): for a VariableTunnelBuild message without pending tunnel whose
first own record is record i and decrypts to a clear text with (flag & 0x40) = 0,
HandleVariableTunnelBuildMsg performs exactly one transports send, to the record's
next_ident, of a message of type VariableTunnelBuild whose payload is the first len
bytes of the buffer after the call (the num byte followed by the re-encrypted
records); its msg_id is next_message_id when that is not zero, and the current value
of the message-ID counter when it is zero. -/
theorem intermediate_hop_forwarding (env : Env) (w : World) (mem clearText : List Nat)
    (replyMsgID : Nat) (buf : List Nat) (len i : Nat)
    (hp : GetPendingTunnel w replyMsgID = none)
    (hi : i < byteAt buf 0)
    (hown : readAt (buf.drop 1) (sizeofBuildRecord * i) 16 = readAt env.context.identHash 0 16)
    (hfirst : ∀ k, k < i →
      readAt (buf.drop 1) (sizeofBuildRecord * k) 16 ≠ readAt env.context.identHash 0 16)
    (hflag : clearTextFlag
      (HandleBuildRequestRecords env w (byteAt buf 0) (buf.drop 1) clearText).clearText
        &&& 0x40 = 0)
    (hmem : 18 + len ≤ mem.length) :
    (HandleBuildRequestRecords env w (byteAt buf 0) (buf.drop 1) clearText).clearText =
      ElGamalDecrypt env env.context.privateKey
        (readAt (buf.drop 1) (sizeofBuildRecord * i + 16) 512) clearText ∧
    (HandleVariableTunnelBuildMsg env w mem clearText replyMsgID buf len).2 =
      buf.take 1 ++
        (HandleBuildRequestRecords env w (byteAt buf 0) (buf.drop 1) clearText).records ∧
    ∃ msg,
      (HandleVariableTunnelBuildMsg env w mem clearText replyMsgID buf len).1.sent =
        w.sent ++ [(clearTextNextIdent
          (HandleBuildRequestRecords env w (byteAt buf 0) (buf.drop 1) clearText).clearText,
          msg)] ∧
      msg.typeID = I2NPMessageType.eI2NPVariableTunnelBuild.toByte ∧
      (be32toh (clearTextNextMessageID
          (HandleBuildRequestRecords env w (byteAt buf 0) (buf.drop 1) clearText).clearText)
          ≠ 0 →
        msg.msgID = be32toh (clearTextNextMessageID
          (HandleBuildRequestRecords env w (byteAt buf 0) (buf.drop 1) clearText).clearText)) ∧
      (be32toh (clearTextNextMessageID
          (HandleBuildRequestRecords env w (byteAt buf 0) (buf.drop 1) clearText).clearText)
          = 0 →
        msg.msgID = w.I2NPmsgID % 4294967296) ∧
      msg.payload =
        readAt (HandleVariableTunnelBuildMsg env w mem clearText replyMsgID buf len).2 0 len := by
  have hret := HandleBuildRequestRecords_ret_of_own env w (byteAt buf 0) (buf.drop 1) clearText
    i hi hown hfirst
  have hw := HandleBuildRequestRecords_world env w (byteAt buf 0) (buf.drop 1) clearText
  rw [HandleVariableTunnelBuildMsg_forward env w mem clearText replyMsgID buf len hp hret hflag]
  refine ⟨HandleBuildRequestRecords_clearText_of_own env w (byteAt buf 0) (buf.drop 1) clearText
    i hi hown hfirst, rfl, ?_⟩
  generalize HandleBuildRequestRecords env w (byteAt buf 0) (buf.drop 1) clearText = r at hw ⊢
  refine ⟨(CreateI2NPMessage env r.world mem .eI2NPVariableTunnelBuild
    (buf.take 1 ++ r.records) len (be32toh (clearTextNextMessageID r.clearText))).2,
    ?_, ?_, ?_, ?_, ?_⟩
  · simp only [SendMessage, CreateI2NPMessage_world, hw.1]
  · exact CreateI2NPMessage_typeID _ _ _ _ _ _ _ hmem
  · intro hnz
    rw [CreateI2NPMessage_msgID _ _ _ _ _ _ _ hmem]
    simp only [stampedMsgID, hnz, ne_eq, not_false_eq_true, if_true]
    exact Nat.mod_eq_of_lt (be32toh_lt _)
  · intro hz
    rw [CreateI2NPMessage_msgID _ _ _ _ _ _ _ hmem]
    simp only [stampedMsgID, hz, ne_eq, not_true_eq_false, if_false, hw.2.1]
  · exact CreateI2NPMessage_payload _ _ _ _ _ _ _ hmem

/-! ## CreateBuildRequestRecord and EncryptBuildRequestRecord -/

theorem readAt_writeAt_eq (buf : List Nat) (pos : Nat) (bs : List Nat) (n : Nat)
    (hn : bs.length = n) (hfit : pos + n ≤ buf.length) :
    readAt (writeAt buf pos bs) pos n = bs := by
  subst hn
  exact readAt_writeAt_self buf pos bs hfit

theorem length_CreateBuildRequestRecord (env : Env) (w : World) (garbage ourIdent : List Nat)
    (receiveTunnelID : Nat) (nextIdent : List Nat) (nextTunnelID : Nat)
    (layerKey ivKey replyKey replyIV : List Nat) (nextMessageID : Nat)
    (isGateway isEndpoint : Bool) :
    (CreateBuildRequestRecord env w garbage ourIdent receiveTunnelID nextIdent nextTunnelID
      layerKey ivKey replyKey replyIV nextMessageID isGateway isEndpoint).1.length = 222 := by
  simp only [CreateBuildRequestRecord, GetHoursSinceEpoch, length_writeAt, length_readAt,
    sizeofClearText]

theorem CreateBuildRequestRecord_fields (env : Env) (w : World) (garbage ourIdent : List Nat)
    (receiveTunnelID : Nat) (nextIdent : List Nat) (nextTunnelID : Nat)
    (layerKey ivKey replyKey replyIV : List Nat) (nextMessageID : Nat)
    (isGateway isEndpoint : Bool) :
    clearTextReceiveTunnel (CreateBuildRequestRecord env w garbage ourIdent receiveTunnelID
      nextIdent nextTunnelID layerKey ivKey replyKey replyIV nextMessageID isGateway
      isEndpoint).1 = htobe32 receiveTunnelID ∧
    clearTextOurIdent (CreateBuildRequestRecord env w garbage ourIdent receiveTunnelID
      nextIdent nextTunnelID layerKey ivKey replyKey replyIV nextMessageID isGateway
      isEndpoint).1 = readAt ourIdent 0 32 ∧
    clearTextNextTunnel (CreateBuildRequestRecord env w garbage ourIdent receiveTunnelID
      nextIdent nextTunnelID layerKey ivKey replyKey replyIV nextMessageID isGateway
      isEndpoint).1 = htobe32 nextTunnelID ∧
    clearTextNextIdent (CreateBuildRequestRecord env w garbage ourIdent receiveTunnelID
      nextIdent nextTunnelID layerKey ivKey replyKey replyIV nextMessageID isGateway
      isEndpoint).1 = readAt nextIdent 0 32 ∧
    clearTextLayerKey (CreateBuildRequestRecord env w garbage ourIdent receiveTunnelID
      nextIdent nextTunnelID layerKey ivKey replyKey replyIV nextMessageID isGateway
      isEndpoint).1 = readAt layerKey 0 32 ∧
    clearTextIvKey (CreateBuildRequestRecord env w garbage ourIdent receiveTunnelID
      nextIdent nextTunnelID layerKey ivKey replyKey replyIV nextMessageID isGateway
      isEndpoint).1 = readAt ivKey 0 32 ∧
    clearTextReplyKey (CreateBuildRequestRecord env w garbage ourIdent receiveTunnelID
      nextIdent nextTunnelID layerKey ivKey replyKey replyIV nextMessageID isGateway
      isEndpoint).1 = readAt replyKey 0 32 ∧
    clearTextReplyIV (CreateBuildRequestRecord env w garbage ourIdent receiveTunnelID
      nextIdent nextTunnelID layerKey ivKey replyKey replyIV nextMessageID isGateway
      isEndpoint).1 = readAt replyIV 0 16 ∧
    clearTextFlag (CreateBuildRequestRecord env w garbage ourIdent receiveTunnelID
      nextIdent nextTunnelID layerKey ivKey replyKey replyIV nextMessageID isGateway
      isEndpoint).1 = (if isGateway then 0x80 else 0) + (if isEndpoint then 0x40 else 0) ∧
    clearTextNextMessageID (CreateBuildRequestRecord env w garbage ourIdent receiveTunnelID
      nextIdent nextTunnelID layerKey ivKey replyKey replyIV nextMessageID isGateway
      isEndpoint).1 = htobe32 nextMessageID := by
  simp only [CreateBuildRequestRecord, GetHoursSinceEpoch, clearTextReceiveTunnel,
    clearTextOurIdent, clearTextNextTunnel, clearTextNextIdent, clearTextLayerKey,
    clearTextIvKey, clearTextReplyKey, clearTextReplyIV, clearTextFlag, clearTextNextMessageID,
    sizeofClearText]
  refine ⟨?_, ?_, ?_, ?_, ?_, ?_, ?_, ?_, ?_, ?_⟩
  · repeat rw [readAt_writeAt_of_disjoint _ _ _ _ _
      (by simp only [length_readAt, length_htobe32, List.length_singleton]; omega)]
    exact readAt_writeAt_eq _ _ _ _ rfl (by simp only [length_readAt]; omega)
  · repeat rw [readAt_writeAt_of_disjoint _ _ _ _ _
      (by simp only [length_readAt, length_htobe32, List.length_singleton]; omega)]
    exact readAt_writeAt_eq _ _ _ _ (length_readAt _ _ _)
      (by simp only [length_writeAt, length_readAt]; omega)
  · repeat rw [readAt_writeAt_of_disjoint _ _ _ _ _
      (by simp only [length_readAt, length_htobe32, List.length_singleton]; omega)]
    exact readAt_writeAt_eq _ _ _ _ rfl (by simp only [length_writeAt, length_readAt]; omega)
  · repeat rw [readAt_writeAt_of_disjoint _ _ _ _ _
      (by simp only [length_readAt, length_htobe32, List.length_singleton]; omega)]
    exact readAt_writeAt_eq _ _ _ _ (length_readAt _ _ _)
      (by simp only [length_writeAt, length_readAt]; omega)
  · repeat rw [readAt_writeAt_of_disjoint _ _ _ _ _
      (by simp only [length_readAt, length_htobe32, List.length_singleton]; omega)]
    exact readAt_writeAt_eq _ _ _ _ (length_readAt _ _ _)
      (by simp only [length_writeAt, length_readAt]; omega)
  · repeat rw [readAt_writeAt_of_disjoint _ _ _ _ _
      (by simp only [length_readAt, length_htobe32, List.length_singleton]; omega)]
    exact readAt_writeAt_eq _ _ _ _ (length_readAt _ _ _)
      (by simp only [length_writeAt, length_readAt]; omega)
  · repeat rw [readAt_writeAt_of_disjoint _ _ _ _ _
      (by simp only [length_readAt, length_htobe32, List.length_singleton]; omega)]
    exact readAt_writeAt_eq _ _ _ _ (length_readAt _ _ _)
      (by simp only [length_writeAt, length_readAt]; omega)
  · repeat rw [readAt_writeAt_of_disjoint _ _ _ _ _
      (by simp only [length_readAt, length_htobe32, List.length_singleton]; omega)]
    exact readAt_writeAt_eq _ _ _ _ (length_readAt _ _ _)
      (by simp only [length_writeAt, length_readAt]; omega)
  · repeat rw [byteAt_writeAt_of_outside _ _ _ _
      (by simp only [length_readAt, length_htobe32, List.length_singleton]; omega)]
    rw [byteAt_writeAt_of_inside _ _ _ _ (by omega)
      (by simp only [List.length_singleton]; omega)
      (by simp only [length_writeAt, length_readAt]; omega)]
    cases isGateway <;> cases isEndpoint <;> rfl
  · exact readAt_writeAt_eq _ _ _ _ rfl (by simp only [length_writeAt, length_readAt]; omega)

theorem length_EncryptBuildRequestRecord (env : Env) (router : RouterInfo)
    (clearText record : List Nat) :
    (EncryptBuildRequestRecord env router clearText record).length = 528 := by
  simp only [EncryptBuildRequestRecord, length_writeAt, length_readAt, sizeofBuildRecord]

theorem EncryptBuildRequestRecord_toPeer (env : Env) (router : RouterInfo)
    (clearText record : List Nat) :
    readAt (EncryptBuildRequestRecord env router clearText record) 0 16 =
      readAt router.identHash 0 16 := by
  simp only [EncryptBuildRequestRecord, sizeofBuildRecord]
  exact readAt_writeAt_eq _ _ _ _ (length_readAt _ _ _)
    (by simp only [length_writeAt, length_readAt]; omega)

theorem EncryptBuildRequestRecord_encrypted (env : Env) (router : RouterInfo)
    (clearText record : List Nat) :
    readAt (EncryptBuildRequestRecord env router clearText record) 16 512 =
      readAt (env.elGamalEncrypt router.encryptionKey (readAt clearText 0 sizeofClearText)) 0
        512 := by
  simp only [EncryptBuildRequestRecord, sizeofBuildRecord]
  rw [readAt_writeAt_of_disjoint _ _ _ _ _ (by simp only [length_readAt]; omega)]
  exact readAt_writeAt_eq _ _ _ _ (length_readAt _ _ _)
    (by simp only [length_readAt]; omega)

theorem HandleBuildRequestRecords_world_of_own (env : Env) (w : World) (num : Nat)
    (records clearText : List Nat) (i : Nat) (hi : i < num)
    (hown : readAt records (sizeofBuildRecord * i) 16 = readAt env.context.identHash 0 16)
    (hfirst : ∀ k, k < i →
      readAt records (sizeofBuildRecord * k) 16 ≠ readAt env.context.identHash 0 16) :
    (HandleBuildRequestRecords env w num records clearText).world =
      AddTransitTunnel w (CreateTransitTunnel
        (be32toh (clearTextReceiveTunnel
          (HandleBuildRequestRecords env w num records clearText).clearText))
        (clearTextNextIdent (HandleBuildRequestRecords env w num records clearText).clearText)
        (be32toh (clearTextNextTunnel
          (HandleBuildRequestRecords env w num records clearText).clearText))
        (clearTextLayerKey (HandleBuildRequestRecords env w num records clearText).clearText)
        (clearTextIvKey (HandleBuildRequestRecords env w num records clearText).clearText)
        (decide (clearTextFlag
          (HandleBuildRequestRecords env w num records clearText).clearText &&& 0x80 ≠ 0))
        (decide (clearTextFlag
          (HandleBuildRequestRecords env w num records clearText).clearText &&& 0x40 ≠ 0))) := by
  rw [HandleBuildRequestRecords_of_own env w num records clearText i hi
    ((isOurRecord_eq_true_iff env _ i).mpr hown)
    (fun k hk => (isOurRecord_eq_false_iff env _ k).mpr (hfirst k hk))]

/-! ## C8: the transit tunnel installed for the own record -/

/-- C8: when HandleBuildRequestRecords finds its own record (the first matching one,
record i), it registers exactly one transit tunnel, built from the ElGamal-decrypted
clear text: receive tunnel ID and next tunnel ID decoded big-endian, next_ident,
layer_key, iv_key, is_gateway = (flag & 0x80 != 0), is_endpoint = (flag & 0x40 != 0);
and when the record was made by EncryptBuildRequestRecord from the clear text of
CreateBuildRequestRecord (and ElGamal decryption returns that clear text), the tunnel
carries the receiveTunnelID, nextTunnelID, isGateway and isEndpoint given to the
builder. -/
theorem transit_tunnel_installation (env : Env) (w : World) (num : Nat)
    (records clearText : List Nat) (i : Nat) (hi : i < num)
    (hown : readAt records (sizeofBuildRecord * i) 16 = readAt env.context.identHash 0 16)
    (hfirst : ∀ k, k < i →
      readAt records (sizeofBuildRecord * k) 16 ≠ readAt env.context.identHash 0 16) :
    ∃ t : TransitTunnel,
      (HandleBuildRequestRecords env w num records clearText).world = AddTransitTunnel w t ∧
      (HandleBuildRequestRecords env w num records clearText).world.transitTunnels =
        t :: w.transitTunnels ∧
      t.receiveTunnelID = be32toh (clearTextReceiveTunnel (ElGamalDecrypt env
        env.context.privateKey (readAt records (sizeofBuildRecord * i + 16) 512) clearText)) ∧
      t.nextIdent = clearTextNextIdent (ElGamalDecrypt env
        env.context.privateKey (readAt records (sizeofBuildRecord * i + 16) 512) clearText) ∧
      t.nextTunnelID = be32toh (clearTextNextTunnel (ElGamalDecrypt env
        env.context.privateKey (readAt records (sizeofBuildRecord * i + 16) 512) clearText)) ∧
      t.layerKey = clearTextLayerKey (ElGamalDecrypt env
        env.context.privateKey (readAt records (sizeofBuildRecord * i + 16) 512) clearText) ∧
      t.ivKey = clearTextIvKey (ElGamalDecrypt env
        env.context.privateKey (readAt records (sizeofBuildRecord * i + 16) 512) clearText) ∧
      (t.isGateway = true ↔ clearTextFlag (ElGamalDecrypt env
        env.context.privateKey (readAt records (sizeofBuildRecord * i + 16) 512) clearText)
          &&& 0x80 ≠ 0) ∧
      (t.isEndpoint = true ↔ clearTextFlag (ElGamalDecrypt env
        env.context.privateKey (readAt records (sizeofBuildRecord * i + 16) 512) clearText)
          &&& 0x40 ≠ 0) ∧
      (∀ (w0 : World) (router : RouterInfo) (garbage record ourIdent nextIdent layerKey ivKey
          replyKey replyIV : List Nat) (receiveTunnelID nextTunnelID nextMessageID : Nat)
          (isGateway isEndpoint : Bool),
        receiveTunnelID < 4294967296 → nextTunnelID < 4294967296 →
        readAt records (sizeofBuildRecord * i) sizeofBuildRecord =
          EncryptBuildRequestRecord env router
            (CreateBuildRequestRecord env w0 garbage ourIdent receiveTunnelID nextIdent
              nextTunnelID layerKey ivKey replyKey replyIV nextMessageID isGateway
              isEndpoint).1 record →
        ElGamalDecrypt env env.context.privateKey
          (readAt (env.elGamalEncrypt router.encryptionKey
            (CreateBuildRequestRecord env w0 garbage ourIdent receiveTunnelID nextIdent
              nextTunnelID layerKey ivKey replyKey replyIV nextMessageID isGateway
              isEndpoint).1) 0 512) clearText =
          (CreateBuildRequestRecord env w0 garbage ourIdent receiveTunnelID nextIdent
              nextTunnelID layerKey ivKey replyKey replyIV nextMessageID isGateway
              isEndpoint).1 →
        t.receiveTunnelID = receiveTunnelID ∧ t.nextTunnelID = nextTunnelID ∧
        t.isGateway = isGateway ∧ t.isEndpoint = isEndpoint ∧
        t.nextIdent = readAt nextIdent 0 32 ∧ t.layerKey = readAt layerKey 0 32 ∧
        t.ivKey = readAt ivKey 0 32) := by
  have hw := HandleBuildRequestRecords_world_of_own env w num records clearText i hi hown hfirst
  have hc := HandleBuildRequestRecords_clearText_of_own env w num records clearText i hi hown
    hfirst
  rw [hc] at hw
  refine ⟨_, hw, by rw [hw]; rfl, rfl, rfl, rfl, rfl, rfl, ?_, ?_, ?_⟩
  · simp [CreateTransitTunnel]
  · simp [CreateTransitTunnel]
  · intro w0 router garbage record ourIdent nextIdent layerKey ivKey replyKey replyIV
      receiveTunnelID nextTunnelID nextMessageID isGateway isEndpoint hr hn hrec hdec
    have henc : readAt records (sizeofBuildRecord * i + 16) 512 =
        readAt (env.elGamalEncrypt router.encryptionKey
          (CreateBuildRequestRecord env w0 garbage ourIdent receiveTunnelID nextIdent
            nextTunnelID layerKey ivKey replyKey replyIV nextMessageID isGateway
            isEndpoint).1) 0 512 := by
      have h1 := EncryptBuildRequestRecord_encrypted env router
        (CreateBuildRequestRecord env w0 garbage ourIdent receiveTunnelID nextIdent
          nextTunnelID layerKey ivKey replyKey replyIV nextMessageID isGateway isEndpoint).1
        record
      rw [← hrec, readAt_readAt _ _ _ _ _ (by simp only [sizeofBuildRecord]; omega)] at h1
      rw [h1]
      have hl := length_CreateBuildRequestRecord env w0 garbage ourIdent receiveTunnelID
        nextIdent nextTunnelID layerKey ivKey replyKey replyIV nextMessageID isGateway isEndpoint
      have e222 : sizeofClearText = (CreateBuildRequestRecord env w0 garbage ourIdent
        receiveTunnelID nextIdent nextTunnelID layerKey ivKey replyKey replyIV nextMessageID
        isGateway isEndpoint).1.length := by rw [hl]; rfl
      rw [e222, readAt_zero_length]
    rw [henc, hdec]
    have hf := CreateBuildRequestRecord_fields env w0 garbage ourIdent receiveTunnelID
      nextIdent nextTunnelID layerKey ivKey replyKey replyIV nextMessageID isGateway isEndpoint
    obtain ⟨f1, _, f3, f4, f5, f6, _, _, f9, _⟩ := hf
    simp only [CreateTransitTunnel]
    refine ⟨?_, ?_, ?_, ?_, f4, f5, f6⟩
    · rw [f1, be32toh_htobe32, Nat.mod_eq_of_lt hr]
    · rw [f3, be32toh_htobe32, Nat.mod_eq_of_lt hn]
    · rw [f9]; cases isGateway <;> cases isEndpoint <;> decide
    · rw [f9]; cases isGateway <;> cases isEndpoint <;> decide

/-! ## CreateTunnelGatewayMsg (tunnelID, msgType, buf, len, replyMsgID) -/

theorem CreateTunnelGatewayMsgTyped_eq (env : Env) (w : World) (mem : List Nat) (tunnelID : Nat)
    (msgType : I2NPMessageType) (buf : List Nat) (len replyMsgID : Nat) :
    CreateTunnelGatewayMsgTyped env w mem tunnelID msgType buf len replyMsgID =
      FillI2NPMessageHeader env
        (FillI2NPMessageHeader env w
          { buf := writeAt mem 40 (readAt buf 0 len), len := 40 + len, offset := 24,
            fromTunnel := none } msgType replyMsgID).1
        { buf := writeAt (writeAt
            (FillI2NPMessageHeader env w
              { buf := writeAt mem 40 (readAt buf 0 len), len := 40 + len, offset := 24,
                fromTunnel := none } msgType replyMsgID).2.buf
            18 (htobe32 tunnelID)) 22 (htobe16 (16 + len)),
          len := 40 + len, offset := 2, fromTunnel := none }
        .eI2NPTunnelGateway 0 := by
  have e : 40 + len - 24 = 16 + len := by omega
  simp only [CreateTunnelGatewayMsgTyped, NewI2NPMessage, I2NPMessage.GetPayload,
    I2NPMessage.GetBuffer, I2NPMessage.GetLength, Fill_offset, Fill_len, Fill_fromTunnel,
    sizeofI2NPHeader, sizeofTunnelGatewayHeader, Nat.reduceAdd, Nat.reduceSub, e]

theorem CreateTunnelGatewayMsgTyped_world (env : Env) (w : World) (mem : List Nat)
    (tunnelID : Nat) (msgType : I2NPMessageType) (buf : List Nat) (len replyMsgID : Nat) :
    (CreateTunnelGatewayMsgTyped env w mem tunnelID msgType buf len replyMsgID).1.sent = w.sent ∧
    (CreateTunnelGatewayMsgTyped env w mem tunnelID msgType buf len replyMsgID).1.transitTunnels =
      w.transitTunnels := by
  rw [CreateTunnelGatewayMsgTyped_eq, Fill_world, Fill_world]
  exact ⟨rfl, rfl⟩

theorem CreateTunnelGatewayMsgTyped_wraps (env : Env) (w : World) (mem : List Nat)
    (tunnelID : Nat) (msgType : I2NPMessageType) (buf : List Nat) (len replyMsgID : Nat)
    (hmem : 40 + len ≤ mem.length) (h16 : 16 + len < 65536) (htid : tunnelID < 4294967296) :
    GatewayWraps env
      (CreateTunnelGatewayMsgTyped env w mem tunnelID msgType buf len replyMsgID).2
      tunnelID msgType (stampedMsgID w replyMsgID % 4294967296) (readAt buf 0 len) := by
  rw [CreateTunnelGatewayMsgTyped_eq]
  generalize hm1 : I2NPMessage.mk (writeAt mem 40 (readAt buf 0 len)) (40 + len) 24 none = m1
  have hm1o : m1.offset = 24 := by rw [← hm1]
  have hm1l : m1.len = 40 + len := by rw [← hm1]
  have hm1b : m1.buf.length = mem.length := by rw [← hm1]; exact length_writeAt _ _ _
  have hm1fit : m1.offset + 16 ≤ m1.buf.length := by rw [hm1o, hm1b]; omega
  have hm1p : m1.payload = readAt buf 0 len := by
    rw [← hm1]
    simp only [I2NPMessage.payload, I2NPMessage.GetPayload, I2NPMessage.GetBuffer,
      I2NPMessage.GetLength, sizeofI2NPHeader]
    have e : 40 + len - 24 - 16 = len := by omega
    rw [e]
    exact readAt_writeAt_eq _ _ _ _ (length_readAt _ _ _) hmem
  have hM1l := Fill_buf_length env w m1 msgType replyMsgID
  generalize hW1 : (FillI2NPMessageHeader env w m1 msgType replyMsgID).1 = W1
  -- bytes from position 24 on are those of the inner message after its header was filled
  have hin : ∀ p n, 24 ≤ p →
      readAt (FillI2NPMessageHeader env W1
        { buf := writeAt (writeAt (FillI2NPMessageHeader env w m1 msgType replyMsgID).2.buf
            18 (htobe32 tunnelID)) 22 (htobe16 (16 + len)),
          len := 40 + len, offset := 2, fromTunnel := none } .eI2NPTunnelGateway 0).2.buf p n =
      readAt (FillI2NPMessageHeader env w m1 msgType replyMsgID).2.buf p n := by
    intro p n hp
    rw [Fill_readAt_outside _ _ _ _ _ _ _ (by right; simp only; omega)]
    simp only
    rw [readAt_writeAt_of_disjoint _ _ _ _ _ (by right; rw [length_htobe16]; omega),
      readAt_writeAt_of_disjoint _ _ _ _ _ (by right; rw [length_htobe32]; omega)]
  have hinb : ∀ p, 24 ≤ p →
      byteAt (FillI2NPMessageHeader env W1
        { buf := writeAt (writeAt (FillI2NPMessageHeader env w m1 msgType replyMsgID).2.buf
            18 (htobe32 tunnelID)) 22 (htobe16 (16 + len)),
          len := 40 + len, offset := 2, fromTunnel := none } .eI2NPTunnelGateway 0).2.buf p =
      byteAt (FillI2NPMessageHeader env w m1 msgType replyMsgID).2.buf p := by
    intro p hp
    rw [Fill_byteAt_outside _ _ _ _ _ _ (by right; simp only; omega)]
    simp only
    rw [byteAt_writeAt_of_outside _ _ _ _ (by right; rw [length_htobe16]; omega),
      byteAt_writeAt_of_outside _ _ _ _ (by right; rw [length_htobe32]; omega)]
  have hl : (readAt buf 0 len).length = len := length_readAt _ _ _
  have hM1pay := Fill_payload env w m1 msgType replyMsgID
  simp only [I2NPMessage.payload, I2NPMessage.GetPayload, I2NPMessage.GetBuffer,
    I2NPMessage.GetLength, Fill_offset, Fill_len, sizeofI2NPHeader, hm1o, hm1l] at hM1pay
  have hm1p2 := hm1p
  simp only [I2NPMessage.payload, I2NPMessage.GetPayload, I2NPMessage.GetBuffer,
    I2NPMessage.GetLength, sizeofI2NPHeader, hm1o, hm1l] at hm1p2
  refine ⟨?_, ?_, ?_, ?_, ?_, ?_, ?_, ?_, ?_⟩
  · apply Fill_typeID
    simp only [length_writeAt, hM1l, hm1b]
    omega
  · simp only [I2NPMessage.gatewayTunnelID, I2NPMessage.GetPayload, I2NPMessage.GetBuffer,
      Fill_offset, sizeofI2NPHeader]
    rw [Fill_readAt_outside _ _ _ _ _ _ _ (by right; simp only; omega)]
    simp only
    rw [readAt_writeAt_of_disjoint _ _ _ _ _ (by left; omega),
      readAt_writeAt_eq _ _ _ _ (length_htobe32 _) (by rw [hM1l, hm1b]; omega),
      be32toh_htobe32, Nat.mod_eq_of_lt htid]
  · simp only [I2NPMessage.gatewayLength, I2NPMessage.GetPayload, I2NPMessage.GetBuffer,
      Fill_offset, sizeofI2NPHeader]
    rw [Fill_readAt_outside _ _ _ _ _ _ _ (by right; simp only; omega)]
    simp only
    rw [readAt_writeAt_eq _ _ _ _ (length_htobe16 _)
      (by rw [length_writeAt, hM1l, hm1b]; omega), be16toh_htobe16, hl,
      Nat.mod_eq_of_lt h16]
  · simp only [I2NPMessage.gatewayInner, I2NPMessage.GetLength, Fill_offset, Fill_len,
      sizeofI2NPHeader, sizeofTunnelGatewayHeader, hl]
    omega
  · simp only [I2NPMessage.gatewayInner, I2NPMessage.typeID, I2NPMessage.GetHeader,
      I2NPMessage.GetBuffer, Fill_offset, sizeofI2NPHeader, sizeofTunnelGatewayHeader]
    rw [hinb _ (by omega)]
    have := Fill_typeID env w m1 msgType replyMsgID hm1fit
    simp only [I2NPMessage.typeID, I2NPMessage.GetHeader, I2NPMessage.GetBuffer, Fill_offset,
      hm1o] at this
    exact this
  · simp only [I2NPMessage.gatewayInner, I2NPMessage.msgID, I2NPMessage.GetHeader,
      I2NPMessage.GetBuffer, Fill_offset, sizeofI2NPHeader, sizeofTunnelGatewayHeader]
    rw [hin _ _ (by omega)]
    have := Fill_msgID env w m1 msgType replyMsgID hm1fit
    simp only [I2NPMessage.msgID, I2NPMessage.GetHeader, I2NPMessage.GetBuffer, Fill_offset,
      hm1o] at this
    exact this
  · simp only [I2NPMessage.gatewayInner, I2NPMessage.payload, I2NPMessage.GetPayload,
      I2NPMessage.GetLength, I2NPMessage.GetBuffer, Fill_offset, Fill_len, sizeofI2NPHeader,
      sizeofTunnelGatewayHeader]
    rw [hin _ _ (by omega)]
    have e : 40 + len - (2 + (16 + 6)) - 16 = 40 + len - 24 - 16 := by omega
    rw [e, hM1pay, hm1p2]
  · simp only [I2NPMessage.gatewayInner, I2NPMessage.size, I2NPMessage.GetHeader,
      I2NPMessage.GetBuffer, Fill_offset, sizeofI2NPHeader, sizeofTunnelGatewayHeader]
    rw [hin _ _ (by omega)]
    have := Fill_size env w m1 msgType replyMsgID hm1fit
    simp only [I2NPMessage.size, I2NPMessage.GetHeader, I2NPMessage.GetBuffer, Fill_offset,
      I2NPMessage.GetLength, sizeofI2NPHeader, hm1o, hm1l] at this
    rw [this, hl]
    have e : 40 + len - 24 - 16 = len := by omega
    rw [e]
    exact Nat.mod_eq_of_lt (by omega)
  · simp only [I2NPMessage.gatewayInner, I2NPMessage.chks, I2NPMessage.GetHeader,
      I2NPMessage.GetBuffer, Fill_offset, sizeofI2NPHeader, sizeofTunnelGatewayHeader]
    rw [hinb _ (by omega)]
    have := Fill_chks env w m1 msgType replyMsgID hm1fit
    simp only [I2NPMessage.chks, I2NPMessage.GetHeader, I2NPMessage.GetBuffer, Fill_offset,
      hm1o] at this
    rw [this, hm1p]

/-! ## The sample build message -/

theorem length_sampleClearText (isEndpoint : Bool) (nextMessageID : Nat) :
    (sampleClearText isEndpoint nextMessageID).length = 222 :=
  length_CreateBuildRequestRecord _ _ _ _ _ _ _ _ _ _ _ _ _ _

theorem sampleBuildMsg_num (isEndpoint : Bool) (nextMessageID : Nat) :
    byteAt (sampleBuildMsg isEndpoint nextMessageID) 0 = 1 := rfl

theorem sampleBuildMsg_records (isEndpoint : Bool) (nextMessageID : Nat) :
    (sampleBuildMsg isEndpoint nextMessageID).drop 1 =
      EncryptBuildRequestRecord sampleEnv sampleRouter
        (sampleClearText isEndpoint nextMessageID) [] := by
  unfold sampleBuildMsg
  rw [List.singleton_append, List.drop_succ_cons, List.drop_zero]

theorem sampleBuildMsg_firstOwn (isEndpoint : Bool) (nextMessageID : Nat) :
    FirstOwnRecord sampleEnv ((sampleBuildMsg isEndpoint nextMessageID).drop 1)
      (byteAt (sampleBuildMsg isEndpoint nextMessageID) 0) 0 := by
  refine ⟨by rw [sampleBuildMsg_num]; decide, ?_, fun k hk => absurd hk (Nat.not_lt_zero k)⟩
  rw [sampleBuildMsg_records]
  exact EncryptBuildRequestRecord_toPeer sampleEnv sampleRouter _ _

theorem sampleBuildMsg_clearText (w : World) (isEndpoint : Bool) (nextMessageID : Nat) :
    (HandleBuildRequestRecords sampleEnv w (byteAt (sampleBuildMsg isEndpoint nextMessageID) 0)
      ((sampleBuildMsg isEndpoint nextMessageID).drop 1) []).clearText =
      sampleClearText isEndpoint nextMessageID := by
  obtain ⟨h1, h2, h3⟩ := sampleBuildMsg_firstOwn isEndpoint nextMessageID
  rw [HandleBuildRequestRecords_clearText_of_own sampleEnv w _ _ [] 0 h1 h2 h3,
    sampleBuildMsg_records]
  have e : sizeofBuildRecord * 0 + 16 = 16 := rfl
  rw [e, EncryptBuildRequestRecord_encrypted]
  have hl := length_sampleClearText isEndpoint nextMessageID
  have e222 : sizeofClearText = (sampleClearText isEndpoint nextMessageID).length := by
    rw [hl]; rfl
  rw [e222, readAt_zero_length]
  unfold ElGamalDecrypt
  simp only [sampleEnv, sampleRouter]
  rw [readAt_readAt _ _ _ _ _ (by simp only [sizeofClearText]; omega), e222]
  exact readAt_zero_length _

theorem sampleBuildMsg_ret (w : World) (isEndpoint : Bool) (nextMessageID : Nat) :
    (HandleBuildRequestRecords sampleEnv w (byteAt (sampleBuildMsg isEndpoint nextMessageID) 0)
      ((sampleBuildMsg isEndpoint nextMessageID).drop 1) []).ret = true := by
  obtain ⟨h1, h2, h3⟩ := sampleBuildMsg_firstOwn isEndpoint nextMessageID
  exact HandleBuildRequestRecords_ret_of_own sampleEnv w _ _ [] 0 h1 h2 h3

theorem sampleClearText_flag (isEndpoint : Bool) (nextMessageID : Nat) :
    clearTextFlag (sampleClearText isEndpoint nextMessageID) =
      if isEndpoint then 0x40 else 0 := by
  have h := (CreateBuildRequestRecord_fields sampleEnv sampleWorld [] (List.replicate 32 0) 5
    (List.replicate 32 3) 6 [] [] [] [] nextMessageID false isEndpoint).2.2.2.2.2.2.2.2.1
  unfold sampleClearText
  rw [h]
  cases isEndpoint <;> rfl

theorem sampleClearText_nextMessageID (isEndpoint : Bool) (nextMessageID : Nat) :
    be32toh (clearTextNextMessageID (sampleClearText isEndpoint nextMessageID)) =
      nextMessageID % 4294967296 := by
  have h := (CreateBuildRequestRecord_fields sampleEnv sampleWorld [] (List.replicate 32 0) 5
    (List.replicate 32 3) 6 [] [] [] [] nextMessageID false isEndpoint).2.2.2.2.2.2.2.2.2
  unfold sampleClearText
  rw [h, be32toh_htobe32]

theorem length_sampleMem : sampleMem.length = 600 := by
  unfold sampleMem
  rw [List.length_replicate]

/-! ## C6: witness and counterexample -/

theorem intermediate_hop_forwarding_witness :
    (HandleBuildRequestRecords sampleEnv sampleWorld (byteAt (sampleBuildMsg false 9) 0)
        ((sampleBuildMsg false 9).drop 1) []).clearText =
      ElGamalDecrypt sampleEnv sampleEnv.context.privateKey
        (readAt ((sampleBuildMsg false 9).drop 1) (sizeofBuildRecord * 0 + 16) 512) [] ∧
    (HandleVariableTunnelBuildMsg sampleEnv sampleWorld sampleMem [] 7 (sampleBuildMsg false 9)
        529).2 =
      (sampleBuildMsg false 9).take 1 ++
        (HandleBuildRequestRecords sampleEnv sampleWorld (byteAt (sampleBuildMsg false 9) 0)
          ((sampleBuildMsg false 9).drop 1) []).records :=
  have h := intermediate_hop_forwarding sampleEnv sampleWorld sampleMem [] 7
    (sampleBuildMsg false 9) 529 0 rfl (sampleBuildMsg_firstOwn false 9).1
    (sampleBuildMsg_firstOwn false 9).2.1 (sampleBuildMsg_firstOwn false 9).2.2
    (by rw [sampleBuildMsg_clearText, sampleClearText_flag]; decide)
    (by rw [length_sampleMem]; decide)
  ⟨h.1, h.2.1⟩

/-- C6 fails as stated: the sample VariableTunnelBuild message, for which no tunnel is
pending, has an own record with (flag & 0x40) = 0 and next_message_id = 0; the one
message that is sent carries msg_id 4294967295, the value of the message-ID counter,
and not next_message_id. -/
theorem intermediate_hop_forwarding_counterexample :
    GetPendingTunnel sampleWorld 7 = none ∧
    (HandleBuildRequestRecords sampleEnv sampleWorld (byteAt (sampleBuildMsg false 0) 0)
        ((sampleBuildMsg false 0).drop 1) []).ret = true ∧
    clearTextFlag (HandleBuildRequestRecords sampleEnv sampleWorld
        (byteAt (sampleBuildMsg false 0) 0) ((sampleBuildMsg false 0).drop 1) []).clearText
        &&& 0x40 = 0 ∧
    be32toh (clearTextNextMessageID (HandleBuildRequestRecords sampleEnv sampleWorld
        (byteAt (sampleBuildMsg false 0) 0) ((sampleBuildMsg false 0).drop 1) []).clearText)
        = 0 ∧
    (HandleVariableTunnelBuildMsg sampleEnv sampleWorld sampleMem [] 7 (sampleBuildMsg false 0)
        529).1.sent.map (fun p => p.2.msgID) = [4294967295] := by
  have hflag : clearTextFlag (HandleBuildRequestRecords sampleEnv sampleWorld
      (byteAt (sampleBuildMsg false 0) 0) ((sampleBuildMsg false 0).drop 1) []).clearText
      &&& 0x40 = 0 := by
    rw [sampleBuildMsg_clearText, sampleClearText_flag]; decide
  have hnm : be32toh (clearTextNextMessageID (HandleBuildRequestRecords sampleEnv sampleWorld
      (byteAt (sampleBuildMsg false 0) 0) ((sampleBuildMsg false 0).drop 1) []).clearText)
      = 0 := by
    rw [sampleBuildMsg_clearText, sampleClearText_nextMessageID]
  refine ⟨rfl, sampleBuildMsg_ret _ _ _, hflag, hnm, ?_⟩
  rw [HandleVariableTunnelBuildMsg_forward sampleEnv sampleWorld sampleMem [] 7
    (sampleBuildMsg false 0) 529 rfl (sampleBuildMsg_ret _ _ _) hflag]
  have hw := HandleBuildRequestRecords_world sampleEnv sampleWorld
    (byteAt (sampleBuildMsg false 0) 0) ((sampleBuildMsg false 0).drop 1) []
  simp only [SendMessage, CreateI2NPMessage_world, hw.1, List.map_append, List.map_cons,
    List.map_nil]
  rw [CreateI2NPMessage_msgID _ _ _ _ _ _ _ (by rw [length_sampleMem]; decide), hnm]
  simp only [stampedMsgID, ne_eq, not_true_eq_false, if_false, hw.2.1]
  rfl

/-! ## C7: forwarding at the outbound endpoint -/

theorem HandleVariableTunnelBuildMsg_endpoint (env : Env) (w : World)
    (mem clearText : List Nat) (replyMsgID : Nat) (buf : List Nat) (len : Nat)
    (hp : GetPendingTunnel w replyMsgID = none)
    (hret : (HandleBuildRequestRecords env w (byteAt buf 0) (buf.drop 1) clearText).ret = true)
    (hflag : clearTextFlag
      (HandleBuildRequestRecords env w (byteAt buf 0) (buf.drop 1) clearText).clearText
        &&& 0x40 ≠ 0) :
    HandleVariableTunnelBuildMsg env w mem clearText replyMsgID buf len =
      (SendMessage
        (CreateTunnelGatewayMsgTyped env
          (HandleBuildRequestRecords env w (byteAt buf 0) (buf.drop 1) clearText).world mem
          (be32toh (clearTextNextTunnel
            (HandleBuildRequestRecords env w (byteAt buf 0) (buf.drop 1) clearText).clearText))
          .eI2NPVariableTunnelBuildReply
          (buf.take 1 ++
            (HandleBuildRequestRecords env w (byteAt buf 0) (buf.drop 1) clearText).records)
          len
          (be32toh (clearTextNextMessageID
            (HandleBuildRequestRecords env w (byteAt buf 0) (buf.drop 1)
              clearText).clearText))).1
        (clearTextNextIdent
          (HandleBuildRequestRecords env w (byteAt buf 0) (buf.drop 1) clearText).clearText)
        (CreateTunnelGatewayMsgTyped env
          (HandleBuildRequestRecords env w (byteAt buf 0) (buf.drop 1) clearText).world mem
          (be32toh (clearTextNextTunnel
            (HandleBuildRequestRecords env w (byteAt buf 0) (buf.drop 1) clearText).clearText))
          .eI2NPVariableTunnelBuildReply
          (buf.take 1 ++
            (HandleBuildRequestRecords env w (byteAt buf 0) (buf.drop 1) clearText).records)
          len
          (be32toh (clearTextNextMessageID
            (HandleBuildRequestRecords env w (byteAt buf 0) (buf.drop 1)
              clearText).clearText))).2,
       buf.take 1 ++
          (HandleBuildRequestRecords env w (byteAt buf 0) (buf.drop 1) clearText).records) := by
  unfold HandleVariableTunnelBuildMsg
  simp only [hp]
  rw [if_pos hret, if_pos hflag]

theorem HandleTunnelBuildMsg_endpoint (env : Env) (w : World)
    (mem clearText : List Nat) (buf : List Nat) (len : Nat)
    (hret : (HandleBuildRequestRecords env w NUM_TUNNEL_BUILD_RECORDS buf clearText).ret = true)
    (hflag : clearTextFlag
      (HandleBuildRequestRecords env w NUM_TUNNEL_BUILD_RECORDS buf clearText).clearText
        &&& 0x40 ≠ 0) :
    HandleTunnelBuildMsg env w mem clearText buf len =
      (SendMessage
        (CreateTunnelGatewayMsgTyped env
          (HandleBuildRequestRecords env w NUM_TUNNEL_BUILD_RECORDS buf clearText).world mem
          (be32toh (clearTextNextTunnel
            (HandleBuildRequestRecords env w NUM_TUNNEL_BUILD_RECORDS buf clearText).clearText))
          .eI2NPTunnelBuildReply
          (HandleBuildRequestRecords env w NUM_TUNNEL_BUILD_RECORDS buf clearText).records
          len
          (be32toh (clearTextNextMessageID
            (HandleBuildRequestRecords env w NUM_TUNNEL_BUILD_RECORDS buf
              clearText).clearText))).1
        (clearTextNextIdent
          (HandleBuildRequestRecords env w NUM_TUNNEL_BUILD_RECORDS buf clearText).clearText)
        (CreateTunnelGatewayMsgTyped env
          (HandleBuildRequestRecords env w NUM_TUNNEL_BUILD_RECORDS buf clearText).world mem
          (be32toh (clearTextNextTunnel
            (HandleBuildRequestRecords env w NUM_TUNNEL_BUILD_RECORDS buf clearText).clearText))
          .eI2NPTunnelBuildReply
          (HandleBuildRequestRecords env w NUM_TUNNEL_BUILD_RECORDS buf clearText).records
          len
          (be32toh (clearTextNextMessageID
            (HandleBuildRequestRecords env w NUM_TUNNEL_BUILD_RECORDS buf
              clearText).clearText))).2,
       (HandleBuildRequestRecords env w NUM_TUNNEL_BUILD_RECORDS buf clearText).records) := by
  unfold HandleTunnelBuildMsg
  simp only []
  rw [if_pos hret, if_pos hflag]

theorem endpoint_send (env : Env) (w : World) (r : BuildRecordsResult) (mem : List Nat)
    (msgType : I2NPMessageType) (buf : List Nat) (len : Nat)
    (hw : r.world.sent = w.sent ∧ r.world.I2NPmsgID = w.I2NPmsgID ∧
      r.world.clockReads = w.clockReads)
    (hmem : 40 + len ≤ mem.length) (h16 : 16 + len < 65536) :
    ∃ msg id,
      (SendMessage
        (CreateTunnelGatewayMsgTyped env r.world mem (be32toh (clearTextNextTunnel r.clearText))
          msgType buf len (be32toh (clearTextNextMessageID r.clearText))).1
        (clearTextNextIdent r.clearText)
        (CreateTunnelGatewayMsgTyped env r.world mem (be32toh (clearTextNextTunnel r.clearText))
          msgType buf len (be32toh (clearTextNextMessageID r.clearText))).2).sent =
        w.sent ++ [(clearTextNextIdent r.clearText, msg)] ∧
      GatewayWraps env msg (be32toh (clearTextNextTunnel r.clearText)) msgType id
        (readAt buf 0 len) ∧
      (be32toh (clearTextNextMessageID r.clearText) ≠ 0 →
        id = be32toh (clearTextNextMessageID r.clearText)) ∧
      (be32toh (clearTextNextMessageID r.clearText) = 0 → id = w.I2NPmsgID % 4294967296) := by
  refine ⟨(CreateTunnelGatewayMsgTyped env r.world mem (be32toh (clearTextNextTunnel r.clearText))
      msgType buf len (be32toh (clearTextNextMessageID r.clearText))).2,
    stampedMsgID r.world (be32toh (clearTextNextMessageID r.clearText)) % 4294967296, ?_,
    CreateTunnelGatewayMsgTyped_wraps env r.world mem _ msgType buf len _ hmem h16
    (be32toh_lt _), ?_, ?_⟩
  · simp only [SendMessage, (CreateTunnelGatewayMsgTyped_world env r.world mem _ _ _ _ _).1, hw.1]
  · intro hnz
    simp only [stampedMsgID, hnz, ne_eq, not_false_eq_true, if_true]
    exact Nat.mod_eq_of_lt (be32toh_lt _)
  · intro hz
    simp only [stampedMsgID, hz, ne_eq, not_true_eq_false, if_false, hw.2.1]

/-- C7 (as amended): at the outbound endpoint, that is when the first own record
(record i) decrypts to a clear text with (flag & 0x40) != 0, HandleVariableTunnelBuildMsg
(when no tunnel is pending for the message ID) and HandleTunnelBuildMsg perform exactly
one transports send, to next_ident, of a TunnelGateway message whose payload is the
gateway header (tunnel_id = next_tunnel, length = 16 + len) followed by a complete I2NP
message of type VariableTunnelBuildReply (resp. TunnelBuildReply) whose payload is the
first len bytes of the re-encrypted build payload and whose size and checksum are valid
for it; the inner msg_id is next_message_id when that is not zero, and the current value
of the message-ID counter when it is zero. -/
theorem outbound_endpoint_forwarding (env : Env) (w : World) (mem clearText : List Nat)
    (buf : List Nat) (len i : Nat) (hmem : 40 + len ≤ mem.length) (h16 : 16 + len < 65536) :
    (∀ replyMsgID, GetPendingTunnel w replyMsgID = none →
      FirstOwnRecord env (buf.drop 1) (byteAt buf 0) i →
      clearTextFlag
        (HandleBuildRequestRecords env w (byteAt buf 0) (buf.drop 1) clearText).clearText
          &&& 0x40 ≠ 0 →
      (HandleVariableTunnelBuildMsg env w mem clearText replyMsgID buf len).2 =
        buf.take 1 ++
          (HandleBuildRequestRecords env w (byteAt buf 0) (buf.drop 1) clearText).records ∧
      ∃ msg id,
        (HandleVariableTunnelBuildMsg env w mem clearText replyMsgID buf len).1.sent =
          w.sent ++ [(clearTextNextIdent
            (HandleBuildRequestRecords env w (byteAt buf 0) (buf.drop 1) clearText).clearText,
            msg)] ∧
        GatewayWraps env msg
          (be32toh (clearTextNextTunnel
            (HandleBuildRequestRecords env w (byteAt buf 0) (buf.drop 1) clearText).clearText))
          .eI2NPVariableTunnelBuildReply id
          (readAt (HandleVariableTunnelBuildMsg env w mem clearText replyMsgID buf len).2 0
            len) ∧
        (be32toh (clearTextNextMessageID
          (HandleBuildRequestRecords env w (byteAt buf 0) (buf.drop 1) clearText).clearText)
            ≠ 0 →
          id = be32toh (clearTextNextMessageID
            (HandleBuildRequestRecords env w (byteAt buf 0) (buf.drop 1)
              clearText).clearText)) ∧
        (be32toh (clearTextNextMessageID
          (HandleBuildRequestRecords env w (byteAt buf 0) (buf.drop 1) clearText).clearText)
            = 0 →
          id = w.I2NPmsgID % 4294967296)) ∧
    (FirstOwnRecord env buf NUM_TUNNEL_BUILD_RECORDS i →
      clearTextFlag
        (HandleBuildRequestRecords env w NUM_TUNNEL_BUILD_RECORDS buf clearText).clearText
          &&& 0x40 ≠ 0 →
      (HandleTunnelBuildMsg env w mem clearText buf len).2 =
        (HandleBuildRequestRecords env w NUM_TUNNEL_BUILD_RECORDS buf clearText).records ∧
      ∃ msg id,
        (HandleTunnelBuildMsg env w mem clearText buf len).1.sent =
          w.sent ++ [(clearTextNextIdent
            (HandleBuildRequestRecords env w NUM_TUNNEL_BUILD_RECORDS buf clearText).clearText,
            msg)] ∧
        GatewayWraps env msg
          (be32toh (clearTextNextTunnel
            (HandleBuildRequestRecords env w NUM_TUNNEL_BUILD_RECORDS buf clearText).clearText))
          .eI2NPTunnelBuildReply id
          (readAt (HandleTunnelBuildMsg env w mem clearText buf len).2 0 len) ∧
        (be32toh (clearTextNextMessageID
          (HandleBuildRequestRecords env w NUM_TUNNEL_BUILD_RECORDS buf clearText).clearText)
            ≠ 0 →
          id = be32toh (clearTextNextMessageID
            (HandleBuildRequestRecords env w NUM_TUNNEL_BUILD_RECORDS buf
              clearText).clearText)) ∧
        (be32toh (clearTextNextMessageID
          (HandleBuildRequestRecords env w NUM_TUNNEL_BUILD_RECORDS buf clearText).clearText)
            = 0 →
          id = w.I2NPmsgID % 4294967296)) := by
  constructor
  · intro replyMsgID hp hown hflag
    have hret := HandleBuildRequestRecords_ret_of_own env w (byteAt buf 0) (buf.drop 1)
      clearText i hown.1 hown.2.1 hown.2.2
    have hw := HandleBuildRequestRecords_world env w (byteAt buf 0) (buf.drop 1) clearText
    rw [HandleVariableTunnelBuildMsg_endpoint env w mem clearText replyMsgID buf len hp hret
      hflag]
    exact ⟨rfl, endpoint_send env w _ mem _ _ len hw hmem h16⟩
  · intro hown hflag
    have hret := HandleBuildRequestRecords_ret_of_own env w NUM_TUNNEL_BUILD_RECORDS buf
      clearText i hown.1 hown.2.1 hown.2.2
    have hw := HandleBuildRequestRecords_world env w NUM_TUNNEL_BUILD_RECORDS buf clearText
    rw [HandleTunnelBuildMsg_endpoint env w mem clearText buf len hret hflag]
    exact ⟨rfl, endpoint_send env w _ mem _ _ len hw hmem h16⟩

theorem outbound_endpoint_forwarding_witness :
    (HandleVariableTunnelBuildMsg sampleEnv sampleWorld sampleMem [] 7 (sampleBuildMsg true 9)
        529).2 =
      (sampleBuildMsg true 9).take 1 ++
        (HandleBuildRequestRecords sampleEnv sampleWorld (byteAt (sampleBuildMsg true 9) 0)
          ((sampleBuildMsg true 9).drop 1) []).records :=
  ((outbound_endpoint_forwarding sampleEnv sampleWorld sampleMem [] (sampleBuildMsg true 9)
      529 0 (by rw [length_sampleMem]; decide) (by decide)).1 7 rfl
    (sampleBuildMsg_firstOwn true 9)
    (by rw [sampleBuildMsg_clearText, sampleClearText_flag]; decide)).1

theorem samplePendingWorld_pending :
    GetPendingTunnel samplePendingWorld 7 = some { tunnelID := 1 } := by decide

/-- C7 fails as stated, in two ways. With a tunnel pending for message ID 7, the sample
VariableTunnelBuild message, whose own record has (flag & 0x40) != 0, makes
HandleVariableTunnelBuildMsg send nothing. Without a pending tunnel and with
next_message_id = 0 in the own record, the inner message of the one TunnelGateway
message sent carries msg_id 4294967295, the value of the message-ID counter, and not
next_message_id. -/
theorem outbound_endpoint_forwarding_counterexample :
    (FirstOwnRecord sampleEnv ((sampleBuildMsg true 9).drop 1)
        (byteAt (sampleBuildMsg true 9) 0) 0 ∧
      clearTextFlag (ElGamalDecrypt sampleEnv sampleEnv.context.privateKey
        (readAt ((sampleBuildMsg true 9).drop 1) (sizeofBuildRecord * 0 + 16) 512) [])
        &&& 0x40 ≠ 0 ∧
      (HandleVariableTunnelBuildMsg sampleEnv samplePendingWorld sampleMem [] 7
        (sampleBuildMsg true 9) 529).1.sent = []) ∧
    (GetPendingTunnel sampleWorld 7 = none ∧
      (HandleBuildRequestRecords sampleEnv sampleWorld (byteAt (sampleBuildMsg true 0) 0)
        ((sampleBuildMsg true 0).drop 1) []).ret = true ∧
      clearTextFlag (HandleBuildRequestRecords sampleEnv sampleWorld
        (byteAt (sampleBuildMsg true 0) 0) ((sampleBuildMsg true 0).drop 1) []).clearText
        &&& 0x40 ≠ 0 ∧
      be32toh (clearTextNextMessageID (HandleBuildRequestRecords sampleEnv sampleWorld
        (byteAt (sampleBuildMsg true 0) 0) ((sampleBuildMsg true 0).drop 1) []).clearText)
        = 0 ∧
      (HandleVariableTunnelBuildMsg sampleEnv sampleWorld sampleMem [] 7 (sampleBuildMsg true 0)
        529).1.sent.map (fun p => p.2.gatewayInner.msgID) = [4294967295]) := by
  have hown := sampleBuildMsg_firstOwn true 9
  have hflag9 : clearTextFlag (ElGamalDecrypt sampleEnv sampleEnv.context.privateKey
      (readAt ((sampleBuildMsg true 9).drop 1) (sizeofBuildRecord * 0 + 16) 512) [])
      &&& 0x40 ≠ 0 := by
    rw [← HandleBuildRequestRecords_clearText_of_own sampleEnv sampleWorld _ _ [] 0 hown.1
      hown.2.1 hown.2.2, sampleBuildMsg_clearText, sampleClearText_flag]
    decide
  have hflag : clearTextFlag (HandleBuildRequestRecords sampleEnv sampleWorld
      (byteAt (sampleBuildMsg true 0) 0) ((sampleBuildMsg true 0).drop 1) []).clearText
      &&& 0x40 ≠ 0 := by
    rw [sampleBuildMsg_clearText, sampleClearText_flag]; decide
  have hnm : be32toh (clearTextNextMessageID (HandleBuildRequestRecords sampleEnv sampleWorld
      (byteAt (sampleBuildMsg true 0) 0) ((sampleBuildMsg true 0).drop 1) []).clearText)
      = 0 := by
    rw [sampleBuildMsg_clearText, sampleClearText_nextMessageID]
  refine ⟨⟨hown, hflag9, ?_⟩, rfl, sampleBuildMsg_ret _ _ _, hflag, hnm, ?_⟩
  · unfold HandleVariableTunnelBuildMsg
    simp only [samplePendingWorld_pending]
    rfl
  · rw [HandleVariableTunnelBuildMsg_endpoint sampleEnv sampleWorld sampleMem [] 7
      (sampleBuildMsg true 0) 529 rfl (sampleBuildMsg_ret _ _ _) hflag]
    have hw := HandleBuildRequestRecords_world sampleEnv sampleWorld
      (byteAt (sampleBuildMsg true 0) 0) ((sampleBuildMsg true 0).drop 1) []
    have hwr := CreateTunnelGatewayMsgTyped_wraps sampleEnv
      (HandleBuildRequestRecords sampleEnv sampleWorld (byteAt (sampleBuildMsg true 0) 0)
        ((sampleBuildMsg true 0).drop 1) []).world sampleMem
      (be32toh (clearTextNextTunnel (HandleBuildRequestRecords sampleEnv sampleWorld
        (byteAt (sampleBuildMsg true 0) 0) ((sampleBuildMsg true 0).drop 1) []).clearText))
      .eI2NPVariableTunnelBuildReply
      ((sampleBuildMsg true 0).take 1 ++ (HandleBuildRequestRecords sampleEnv sampleWorld
        (byteAt (sampleBuildMsg true 0) 0) ((sampleBuildMsg true 0).drop 1) []).records)
      529
      (be32toh (clearTextNextMessageID (HandleBuildRequestRecords sampleEnv sampleWorld
        (byteAt (sampleBuildMsg true 0) 0) ((sampleBuildMsg true 0).drop 1) []).clearText))
      (by rw [length_sampleMem]; decide) (by decide) (be32toh_lt _)
    have hid := hwr.2.2.2.2.2.1
    simp only [SendMessage, (CreateTunnelGatewayMsgTyped_world sampleEnv _ sampleMem _ _ _ _ _).1,
      hw.1, List.map_append, List.map_cons, List.map_nil]
    rw [hid, hnm]
    simp only [stampedMsgID, ne_eq, not_true_eq_false, if_false, hw.2.1]
    rfl

/-! ## C8: witness -/

theorem sampleEnv_elGamal (k1 k2 d data : List Nat) (hd : d.length = 222) :
    ElGamalDecrypt sampleEnv k1 (readAt (sampleEnv.elGamalEncrypt k2 d) 0 512) data = d := by
  unfold ElGamalDecrypt
  simp only [sampleEnv]
  rw [readAt_readAt _ _ _ _ _ (by simp only [sizeofClearText]; omega)]
  have e222 : sizeofClearText = d.length := by rw [hd]; rfl
  rw [e222]
  exact readAt_zero_length _

theorem transit_tunnel_installation_witness :
    ∃ t : TransitTunnel,
      (HandleBuildRequestRecords sampleEnv sampleWorld (byteAt (sampleBuildMsg true 9) 0)
        ((sampleBuildMsg true 9).drop 1) []).world.transitTunnels =
        t :: sampleWorld.transitTunnels ∧
      t.receiveTunnelID = 5 ∧ t.nextTunnelID = 6 ∧ t.isGateway = false ∧
      t.isEndpoint = true := by
  obtain ⟨t, _, h2, _, _, _, _, _, _, _, h⟩ := transit_tunnel_installation sampleEnv sampleWorld
    (byteAt (sampleBuildMsg true 9) 0) ((sampleBuildMsg true 9).drop 1) [] 0
    (sampleBuildMsg_firstOwn true 9).1 (sampleBuildMsg_firstOwn true 9).2.1
    (sampleBuildMsg_firstOwn true 9).2.2
  have hr := h sampleWorld sampleRouter [] [] (List.replicate 32 0) (List.replicate 32 3) [] []
    [] [] 5 6 9 false true (by decide) (by decide)
    (by
      rw [sampleBuildMsg_records]
      have hl := length_EncryptBuildRequestRecord sampleEnv sampleRouter
        (sampleClearText true 9) []
      have e : sizeofBuildRecord = (EncryptBuildRequestRecord sampleEnv sampleRouter
        (sampleClearText true 9) []).length := by rw [hl]; rfl
      have e0 : sizeofBuildRecord * 0 = 0 := rfl
      rw [e0, e, readAt_zero_length]
      rfl)
    (sampleEnv_elGamal _ _ _ _ (length_CreateBuildRequestRecord _ _ _ _ _ _ _ _ _ _ _ _ _ _))
  exact ⟨t, h2, hr.1, hr.2.1, hr.2.2.1, hr.2.2.2.1⟩

/-! ## C9: the in-place path of CreateTunnelGatewayMsg (tunnelID, msg) -/

theorem CreateTunnelGatewayMsgFromMsg_inplace (env : Env) (w : World) (mem : List Nat)
    (tunnelID : Nat) (msg : I2NPMessage) (hoff : 22 ≤ msg.offset) :
    CreateTunnelGatewayMsgFromMsg env w mem tunnelID msg =
      FillI2NPMessageHeader env w
        { buf := writeAt (writeAt msg.buf (msg.offset - 6) (htobe32 tunnelID))
            (msg.offset - 6 + 4) (htobe16 (msg.len - msg.offset)),
          len := msg.offset - 22 + 16 + 6 + (msg.len - msg.offset),
          offset := msg.offset - 22, fromTunnel := msg.fromTunnel }
        .eI2NPTunnelGateway 0 := by
  have h : msg.offset ≥ 22 := hoff
  simp only [CreateTunnelGatewayMsgFromMsg, I2NPMessage.GetBuffer,
    I2NPMessage.GetLength, sizeofI2NPHeader, sizeofTunnelGatewayHeader, Nat.reduceAdd]
  rw [if_pos h]

/-- C9: for a message with offset >= 22 (lying in its buffer, with a length that fits
the 16-bit field), CreateTunnelGatewayMsg (tunnelID, msg) returns the same message, not
a new allocation, with offset decreased by 22; every byte of the original inner message
is unchanged at its buffer position, which is now offset + 22, and is immediately
preceded by a gateway header with tunnel_id = tunnelID and length = the old
GetLength (). -/
theorem gateway_zero_copy (env : Env) (w : World) (mem : List Nat) (tunnelID : Nat)
    (msg : I2NPMessage) (hoff : 22 ≤ msg.offset) (hlen : msg.offset ≤ msg.len)
    (hfit : msg.len ≤ msg.buf.length) (h16 : msg.GetLength < 65536)
    (htid : tunnelID < 4294967296) :
    (CreateTunnelGatewayMsgFromMsg env w mem tunnelID msg).2.offset = msg.offset - 22 ∧
    (CreateTunnelGatewayMsgFromMsg env w mem tunnelID msg).2.len = msg.len ∧
    (CreateTunnelGatewayMsgFromMsg env w mem tunnelID msg).2.fromTunnel = msg.fromTunnel ∧
    (CreateTunnelGatewayMsgFromMsg env w mem tunnelID msg).2.buf.length = msg.buf.length ∧
    (∀ other : List Nat, CreateTunnelGatewayMsgFromMsg env w other tunnelID msg =
      CreateTunnelGatewayMsgFromMsg env w mem tunnelID msg) ∧
    (CreateTunnelGatewayMsgFromMsg env w mem tunnelID msg).1.deletedMsgs = w.deletedMsgs ∧
    (∀ i, i < msg.offset - 22 ∨ msg.offset ≤ i →
      byteAt (CreateTunnelGatewayMsgFromMsg env w mem tunnelID msg).2.buf i =
        byteAt msg.buf i) ∧
    readAt (CreateTunnelGatewayMsgFromMsg env w mem tunnelID msg).2.buf
      ((CreateTunnelGatewayMsgFromMsg env w mem tunnelID msg).2.offset + 22) msg.GetLength =
      msg.bytes ∧
    (CreateTunnelGatewayMsgFromMsg env w mem tunnelID msg).2.gatewayInner.bytes = msg.bytes ∧
    (CreateTunnelGatewayMsgFromMsg env w mem tunnelID msg).2.typeID =
      I2NPMessageType.eI2NPTunnelGateway.toByte ∧
    (CreateTunnelGatewayMsgFromMsg env w mem tunnelID msg).2.gatewayTunnelID = tunnelID ∧
    (CreateTunnelGatewayMsgFromMsg env w mem tunnelID msg).2.gatewayLength = msg.GetLength := by
  have e := CreateTunnelGatewayMsgFromMsg_inplace env w mem tunnelID msg hoff
  have hframe : ∀ i, i < msg.offset - 22 ∨ msg.offset ≤ i →
      byteAt (CreateTunnelGatewayMsgFromMsg env w mem tunnelID msg).2.buf i =
        byteAt msg.buf i := by
    intro i hi
    rw [e, Fill_byteAt_outside _ _ _ _ _ _ (by simp only; omega)]
    simp only
    rw [byteAt_writeAt_of_outside _ _ _ _ (by rw [length_htobe16]; omega),
      byteAt_writeAt_of_outside _ _ _ _ (by rw [length_htobe32]; omega)]
  have hbytes : readAt (CreateTunnelGatewayMsgFromMsg env w mem tunnelID msg).2.buf
      (msg.offset - 22 + 22) msg.GetLength = msg.bytes := by
    simp only [I2NPMessage.bytes, I2NPMessage.GetBuffer]
    apply readAt_congr
    intro i _
    rw [hframe _ (by omega)]
    congr 1
    omega
  simp only [I2NPMessage.GetLength] at h16
  refine ⟨?_, ?_, ?_, ?_, ?_, ?_, hframe, ?_, ?_, ?_, ?_, ?_⟩
  · rw [e, Fill_offset]
  · rw [e, Fill_len]; simp only; omega
  · rw [e, Fill_fromTunnel]
  · rw [e, Fill_buf_length]; simp only [length_writeAt]
  · intro other
    rw [e, CreateTunnelGatewayMsgFromMsg_inplace env w other tunnelID msg hoff]
  · rw [e, Fill_world]
  · have eo : (CreateTunnelGatewayMsgFromMsg env w mem tunnelID msg).2.offset =
        msg.offset - 22 := by rw [e, Fill_offset]
    rw [eo]; exact hbytes
  · have eo : (CreateTunnelGatewayMsgFromMsg env w mem tunnelID msg).2.offset =
        msg.offset - 22 := by rw [e, Fill_offset]
    have el : (CreateTunnelGatewayMsgFromMsg env w mem tunnelID msg).2.len = msg.len := by
      rw [e, Fill_len]; simp only; omega
    have hb := hbytes
    simp only [I2NPMessage.GetLength] at hb
    simp only [I2NPMessage.gatewayInner, I2NPMessage.bytes, I2NPMessage.GetBuffer,
      I2NPMessage.GetLength, sizeofI2NPHeader, sizeofTunnelGatewayHeader, eo, el]
    have e1 : msg.len - (msg.offset - 22 + (16 + 6)) = msg.len - msg.offset := by omega
    have e2 : msg.offset - 22 + (16 + 6) = msg.offset - 22 + 22 := by omega
    rw [e1, e2, hb]
    rfl
  · rw [e]
    apply Fill_typeID
    simp only [length_writeAt]
    omega
  · rw [e]
    simp only [I2NPMessage.gatewayTunnelID, I2NPMessage.GetPayload, I2NPMessage.GetBuffer,
      Fill_offset, sizeofI2NPHeader]
    rw [Fill_readAt_outside _ _ _ _ _ _ _ (by right; simp only; omega)]
    simp only
    have ep : msg.offset - 22 + 16 = msg.offset - 6 := by omega
    rw [ep, readAt_writeAt_of_disjoint _ _ _ _ _ (by left; omega),
      readAt_writeAt_eq _ _ _ _ (length_htobe32 _) (by omega),
      be32toh_htobe32, Nat.mod_eq_of_lt htid]
  · rw [e]
    simp only [I2NPMessage.gatewayLength, I2NPMessage.GetPayload, I2NPMessage.GetBuffer,
      Fill_offset, sizeofI2NPHeader, I2NPMessage.GetLength]
    rw [Fill_readAt_outside _ _ _ _ _ _ _ (by right; simp only; omega)]
    simp only
    have ep : msg.offset - 22 + 16 + 4 = msg.offset - 6 + 4 := by omega
    rw [ep, readAt_writeAt_eq _ _ _ _ (length_htobe16 _) (by rw [length_writeAt]; omega),
      be16toh_htobe16, Nat.mod_eq_of_lt h16]

theorem gateway_zero_copy_witness :
    (CreateTunnelGatewayMsgFromMsg sampleEnv sampleWorld [] 258 sampleRoomyMsg).2.offset =
      30 - 22 ∧
    (CreateTunnelGatewayMsgFromMsg sampleEnv sampleWorld [] 258 sampleRoomyMsg).2.len = 49 ∧
    (CreateTunnelGatewayMsgFromMsg sampleEnv sampleWorld [] 258 sampleRoomyMsg).2.gatewayLength
      = 19 :=
  have h := gateway_zero_copy sampleEnv sampleWorld [] 258 sampleRoomyMsg (by decide)
    (by decide) (by decide) (by decide) (by decide)
  ⟨h.1, h.2.1, h.2.2.2.2.2.2.2.2.2.2.2⟩

/-! ## C10: HandleTunnelGatewayMsg -/

theorem HandleTunnelGatewayMsg_eq (w : World) (mem : List Nat) (msg : I2NPMessage) :
    HandleTunnelGatewayMsg w mem msg =
      match GetTransitTunnel w msg.gatewayTunnelID with
      | some tunnel =>
        TransitTunnel.SendTunnelDataMsg
          (if msg.gatewayUnwrapped.typeID = I2NPMessageType.eI2NPDatabaseStore.toByte then
            PostI2NPMsg w msg.gatewayUnwrapped else w) tunnel msg.gatewayUnwrapped
      | none =>
        DeleteI2NPMessage
          (if msg.gatewayUnwrapped.typeID = I2NPMessageType.eI2NPDatabaseStore.toByte then
            PostI2NPMsg w msg.gatewayUnwrapped else w) msg.gatewayUnwrapped := by
  have hg : ∀ w1 : World, w1.transitTunnels = w.transitTunnels →
      GetTransitTunnel w1 msg.gatewayTunnelID = GetTransitTunnel w msg.gatewayTunnelID := by
    intro w1 h
    simp only [GetTransitTunnel, h]
  have h1 : HandleTunnelGatewayMsg w mem msg =
      match GetTransitTunnel
        (if msg.gatewayUnwrapped.typeID = I2NPMessageType.eI2NPDatabaseStore.toByte then
          PostI2NPMsg w msg.gatewayUnwrapped else w) msg.gatewayTunnelID with
      | some tunnel =>
        TransitTunnel.SendTunnelDataMsg
          (if msg.gatewayUnwrapped.typeID = I2NPMessageType.eI2NPDatabaseStore.toByte then
            PostI2NPMsg w msg.gatewayUnwrapped else w) tunnel msg.gatewayUnwrapped
      | none =>
        DeleteI2NPMessage
          (if msg.gatewayUnwrapped.typeID = I2NPMessageType.eI2NPDatabaseStore.toByte then
            PostI2NPMsg w msg.gatewayUnwrapped else w) msg.gatewayUnwrapped := rfl
  rw [h1, hg]
  by_cases hds : msg.gatewayUnwrapped.typeID = I2NPMessageType.eI2NPDatabaseStore.toByte
  · rw [if_pos hds]; rfl
  · rw [if_neg hds]

/-- C10: HandleTunnelGatewayMsg unwraps the message by advancing offset by 22 and
setting len = offset + length; when the inner type is DatabaseStore, NetDb.PostI2NPMsg
is invoked exactly once, with a copy equal to the unwrapped message (same bytes, offset
and length), and for any other inner type nothing is posted; then, when a transit
tunnel is registered under tunnel_id, its SendTunnelDataMsg is invoked exactly once with
the unwrapped message, and when none is registered the message is deleted and nothing is
sent; transports receive nothing in either case. -/
theorem tunnel_gateway_unwrap (w : World) (mem : List Nat) (msg : I2NPMessage) :
    msg.gatewayUnwrapped.offset = msg.offset + 22 ∧
    msg.gatewayUnwrapped.len = msg.gatewayUnwrapped.offset + msg.gatewayLength ∧
    msg.gatewayUnwrapped.buf = msg.buf ∧
    (msg.gatewayUnwrapped.typeID = I2NPMessageType.eI2NPDatabaseStore.toByte →
      (HandleTunnelGatewayMsg w mem msg).netdbQueue = w.netdbQueue ++ [msg.gatewayUnwrapped]) ∧
    (msg.gatewayUnwrapped.typeID ≠ I2NPMessageType.eI2NPDatabaseStore.toByte →
      (HandleTunnelGatewayMsg w mem msg).netdbQueue = w.netdbQueue) ∧
    (∀ tunnel, GetTransitTunnel w msg.gatewayTunnelID = some tunnel →
      (HandleTunnelGatewayMsg w mem msg).transitSent =
        w.transitSent ++ [(tunnel, msg.gatewayUnwrapped)] ∧
      (HandleTunnelGatewayMsg w mem msg).deletedMsgs = w.deletedMsgs) ∧
    (GetTransitTunnel w msg.gatewayTunnelID = none →
      (HandleTunnelGatewayMsg w mem msg).transitSent = w.transitSent ∧
      (HandleTunnelGatewayMsg w mem msg).deletedMsgs =
        w.deletedMsgs ++ [msg.gatewayUnwrapped]) ∧
    (HandleTunnelGatewayMsg w mem msg).sent = w.sent ∧
    (HandleTunnelGatewayMsg w mem msg).outboundSent = w.outboundSent ∧
    (HandleTunnelGatewayMsg w mem msg).transitTunnels = w.transitTunnels := by
  rw [HandleTunnelGatewayMsg_eq]
  refine ⟨rfl, rfl, rfl, ?_, ?_, ?_, ?_, ?_, ?_, ?_⟩
  · intro hds
    rw [if_pos hds]
    cases GetTransitTunnel w msg.gatewayTunnelID <;> rfl
  · intro hds
    rw [if_neg hds]
    cases GetTransitTunnel w msg.gatewayTunnelID <;> rfl
  · intro tunnel ht
    rw [ht]
    by_cases hds : msg.gatewayUnwrapped.typeID = I2NPMessageType.eI2NPDatabaseStore.toByte
    · rw [if_pos hds]; exact ⟨rfl, rfl⟩
    · rw [if_neg hds]; exact ⟨rfl, rfl⟩
  · intro ht
    rw [ht]
    by_cases hds : msg.gatewayUnwrapped.typeID = I2NPMessageType.eI2NPDatabaseStore.toByte
    · rw [if_pos hds]; exact ⟨rfl, rfl⟩
    · rw [if_neg hds]; exact ⟨rfl, rfl⟩
  · by_cases hds : msg.gatewayUnwrapped.typeID = I2NPMessageType.eI2NPDatabaseStore.toByte
    · rw [if_pos hds]; cases GetTransitTunnel w msg.gatewayTunnelID <;> rfl
    · rw [if_neg hds]; cases GetTransitTunnel w msg.gatewayTunnelID <;> rfl
  · by_cases hds : msg.gatewayUnwrapped.typeID = I2NPMessageType.eI2NPDatabaseStore.toByte
    · rw [if_pos hds]; cases GetTransitTunnel w msg.gatewayTunnelID <;> rfl
    · rw [if_neg hds]; cases GetTransitTunnel w msg.gatewayTunnelID <;> rfl
  · by_cases hds : msg.gatewayUnwrapped.typeID = I2NPMessageType.eI2NPDatabaseStore.toByte
    · rw [if_pos hds]; cases GetTransitTunnel w msg.gatewayTunnelID <;> rfl
    · rw [if_neg hds]; cases GetTransitTunnel w msg.gatewayTunnelID <;> rfl

theorem tunnel_gateway_unwrap_witness :
    (HandleTunnelGatewayMsg (AddTransitTunnel sampleWorld sampleTransitTunnel) []
        sampleGatewayMsg).netdbQueue = [sampleGatewayMsg.gatewayUnwrapped] ∧
    (HandleTunnelGatewayMsg (AddTransitTunnel sampleWorld sampleTransitTunnel) []
        sampleGatewayMsg).transitSent =
      [(sampleTransitTunnel, sampleGatewayMsg.gatewayUnwrapped)] ∧
    sampleGatewayMsg.gatewayUnwrapped.offset = 24 ∧
    sampleGatewayMsg.gatewayUnwrapped.len = 43 :=
  have h := tunnel_gateway_unwrap (AddTransitTunnel sampleWorld sampleTransitTunnel) []
    sampleGatewayMsg
  ⟨h.2.2.2.1 (by decide), (h.2.2.2.2.2.1 sampleTransitTunnel (by decide)).1, by decide,
    by decide⟩

/-! ## C11: CreateDeliveryStatusMsg -/

theorem CreateI2NPMessage_expiration (env : Env) (w : World) (mem : List Nat)
    (msgType : I2NPMessageType) (buf : List Nat) (len replyMsgID : Nat)
    (hmem : 18 + len ≤ mem.length) :
    (CreateI2NPMessage env w mem msgType buf len replyMsgID).2.expiration =
      (env.clock w.clockReads + 5000) % 18446744073709551616 := by
  rw [CreateI2NPMessage_eq]
  apply Fill_expiration
  simp only [length_writeAt]
  omega

theorem CreateDeliveryStatusMsg_of_ne_zero (env : Env) (w : World) (mem : List Nat)
    (msgID : Nat) (h : msgID ≠ 0) :
    CreateDeliveryStatusMsg env w mem msgID =
      CreateI2NPMessage env { w with clockReads := w.clockReads + 1 } mem .eI2NPDeliveryStatus
        (htobe32 msgID ++ htobe64 (env.clock w.clockReads)) 12 0 := by
  simp only [CreateDeliveryStatusMsg, h, ne_eq, not_false_eq_true, if_true,
    GetMillisecondsSinceEpoch, sizeofI2NPDeliveryStatusMsg]

theorem CreateDeliveryStatusMsg_of_zero (env : Env) (w : World) (mem : List Nat) :
    CreateDeliveryStatusMsg env w mem 0 =
      CreateI2NPMessage env { w with rngCalls := w.rngCalls + 1 } mem .eI2NPDeliveryStatus
        (htobe32 (env.genWord32 w.rngCalls % 4294967296) ++ htobe64 2) 12 0 := by
  simp only [CreateDeliveryStatusMsg, ne_eq, not_true_eq_false, if_false,
    GenerateWord32, sizeofI2NPDeliveryStatusMsg]

theorem readAt_of_length (a : List Nat) (n : Nat) (h : a.length = n) : readAt a 0 n = a := by
  subst h
  exact readAt_zero_length a

/-- C11: CreateDeliveryStatusMsg (msgID) returns a message of type DeliveryStatus whose
12-byte payload is msg_id:u32 | timestamp:u64, big-endian. For msgID = 0 the msg_id field
is the 32-bit word drawn from the RNG and the timestamp is 2; otherwise the msg_id field
is msgID and the timestamp is the clock's reading. In both cases the header expiration
is the clock's reading at the time the header is filled plus 5000 ms. -/
theorem delivery_status_msg (env : Env) (w : World) (mem : List Nat) (msgID : Nat)
    (hmem : 30 ≤ mem.length) (hid : msgID < 4294967296)
    (hclock : ∀ k, env.clock k + 5000 < 18446744073709551616) :
    (CreateDeliveryStatusMsg env w mem msgID).2.typeID =
      I2NPMessageType.eI2NPDeliveryStatus.toByte ∧
    (CreateDeliveryStatusMsg env w mem msgID).2.GetLength - sizeofI2NPHeader = 12 ∧
    (msgID = 0 →
      (CreateDeliveryStatusMsg env w mem msgID).2.payload =
        htobe32 (env.genWord32 w.rngCalls % 4294967296) ++ htobe64 2 ∧
      be32toh (readAt (CreateDeliveryStatusMsg env w mem msgID).2.payload 0 4) =
        env.genWord32 w.rngCalls % 4294967296 ∧
      be64toh (readAt (CreateDeliveryStatusMsg env w mem msgID).2.payload 4 8) = 2 ∧
      (CreateDeliveryStatusMsg env w mem msgID).2.expiration = env.clock w.clockReads + 5000) ∧
    (msgID ≠ 0 →
      (CreateDeliveryStatusMsg env w mem msgID).2.payload =
        htobe32 msgID ++ htobe64 (env.clock w.clockReads) ∧
      be32toh (readAt (CreateDeliveryStatusMsg env w mem msgID).2.payload 0 4) = msgID ∧
      be64toh (readAt (CreateDeliveryStatusMsg env w mem msgID).2.payload 4 8) =
        env.clock w.clockReads ∧
      (CreateDeliveryStatusMsg env w mem msgID).2.expiration =
        env.clock (w.clockReads + 1) + 5000) := by
  have hm : 18 + 12 ≤ mem.length := hmem
  have hdec32 : ∀ (x y : Nat), be32toh (readAt (htobe32 x ++ htobe64 y) 0 4) = x % 4294967296 := by
    intro x y
    have : readAt (htobe32 x ++ htobe64 y) 0 4 = htobe32 x := rfl
    rw [this, be32toh_htobe32]
  have hdec64 : ∀ (x y : Nat),
      be64toh (readAt (htobe32 x ++ htobe64 y) 4 8) = y % 18446744073709551616 := by
    intro x y
    have : readAt (htobe32 x ++ htobe64 y) 4 8 = htobe64 y := rfl
    rw [this, be64toh_htobe64]
  have hlen : ∀ (x y : Nat), (htobe32 x ++ htobe64 y).length = 12 := fun _ _ => rfl
  by_cases h : msgID = 0
  · subst h
    rw [CreateDeliveryStatusMsg_of_zero]
    have hp := CreateI2NPMessage_payload env { w with rngCalls := w.rngCalls + 1 } mem
      .eI2NPDeliveryStatus (htobe32 (env.genWord32 w.rngCalls % 4294967296) ++ htobe64 2) 12 0 hm
    rw [readAt_of_length _ 12 (hlen _ _)] at hp
    refine ⟨CreateI2NPMessage_typeID _ _ _ _ _ _ _ hm, ?_, ?_, ?_⟩
    · simp only [I2NPMessage.GetLength, CreateI2NPMessage_len, CreateI2NPMessage_offset,
        sizeofI2NPHeader]
    · intro _
      refine ⟨hp, ?_, ?_, ?_⟩
      · rw [hp, hdec32, Nat.mod_mod]
      · rw [hp, hdec64]
      · rw [CreateI2NPMessage_expiration _ _ _ _ _ _ _ hm]
        exact Nat.mod_eq_of_lt (hclock _)
    · intro hne
      exact absurd rfl hne
  · rw [CreateDeliveryStatusMsg_of_ne_zero env w mem msgID h]
    have hp := CreateI2NPMessage_payload env { w with clockReads := w.clockReads + 1 } mem
      .eI2NPDeliveryStatus (htobe32 msgID ++ htobe64 (env.clock w.clockReads)) 12 0 hm
    rw [readAt_of_length _ 12 (hlen _ _)] at hp
    refine ⟨CreateI2NPMessage_typeID _ _ _ _ _ _ _ hm, ?_, ?_, ?_⟩
    · simp only [I2NPMessage.GetLength, CreateI2NPMessage_len, CreateI2NPMessage_offset,
        sizeofI2NPHeader]
    · intro h0
      exact absurd h0 h
    · intro _
      refine ⟨hp, ?_, ?_, ?_⟩
      · rw [hp, hdec32, Nat.mod_eq_of_lt hid]
      · rw [hp, hdec64]
        exact Nat.mod_eq_of_lt (by have := hclock w.clockReads; omega)
      · rw [CreateI2NPMessage_expiration _ _ _ _ _ _ _ hm]
        exact Nat.mod_eq_of_lt (hclock _)

theorem delivery_status_msg_witness :
    (CreateDeliveryStatusMsg sampleEnv sampleWorld (List.replicate 30 0) 0).2.payload =
      [0xDE, 0xAD, 0xBE, 0xEF, 0, 0, 0, 0, 0, 0, 0, 2] ∧
    (CreateDeliveryStatusMsg sampleEnv sampleWorld (List.replicate 30 0) 0).2.expiration = 6000 ∧
    (CreateDeliveryStatusMsg sampleEnv sampleWorld (List.replicate 30 0) 0).2.typeID = 10 :=
  have h := delivery_status_msg sampleEnv sampleWorld (List.replicate 30 0) 0 (by decide)
    (by decide)
    (fun _ => (by decide : 1000 + 5000 < 18446744073709551616))
  ⟨(h.2.2.1 rfl).1, (h.2.2.1 rfl).2.2.2, h.1⟩

/-! ## CreateDatabaseLookupMsg -/

theorem writeAt_nil (buf : List Nat) (pos : Nat) : writeAt buf pos [] = buf := by
  apply ext_byteAt
  · exact length_writeAt _ _ _
  · intro i _
    rw [byteAt_writeAt, if_neg]
    simp only [List.length_nil]
    omega

theorem writeAt_writeAt_next (buf : List Nat) (p q : Nat) (a b : List Nat)
    (h : q = p + a.length) : writeAt (writeAt buf p a) q b = writeAt buf p (a ++ b) := by
  subst h
  exact writeAt_writeAt_adjacent buf p a b

theorem length_excludedEntries (peers : List (List Nat)) :
    (excludedEntries peers).length = 32 * peers.length := by
  induction peers with
  | nil => rfl
  | cons it rest ih =>
    simp only [excludedEntries, List.length_append, length_readAt, ih, List.length_cons]
    omega

theorem copyExcludedPeers_eq (buf : List Nat) (pos : Nat) (peers : List (List Nat)) :
    copyExcludedPeers buf pos peers =
      (writeAt buf pos (excludedEntries peers), pos + 32 * peers.length) := by
  induction peers generalizing buf pos with
  | nil => simp only [copyExcludedPeers, excludedEntries, writeAt_nil, List.length_nil,
      Nat.mul_zero, Nat.add_zero]
  | cons it rest ih =>
    simp only [copyExcludedPeers, excludedEntries, ih, List.length_cons]
    rw [writeAt_writeAt_next _ _ _ _ _ (by rw [length_readAt])]
    congr 1
    omega

theorem length_lookupFlagSection (replyTunnelID : Nat) (encryption : Bool) :
    (lookupFlagSection replyTunnelID encryption).length = if replyTunnelID ≠ 0 then 5 else 1 := by
  unfold lookupFlagSection
  by_cases h : replyTunnelID = 0 <;> simp [h, length_htobe32]

theorem length_lookupExcludedSection (exploratory : Bool)
    (excludedPeers : Option (List (List Nat))) :
    (lookupExcludedSection exploratory excludedPeers).length =
      if exploratory then 34
      else match excludedPeers with
        | some peers => 2 + 32 * peers.length
        | none => 2 := by
  unfold lookupExcludedSection
  cases exploratory <;> cases excludedPeers <;>
    simp [length_htobe16, length_excludedEntries]

theorem CreateDatabaseLookupMsg_stages (env : Env) (w : World) (mem key fromIdent : List Nat)
    (replyTunnelID : Nat) (exploratory : Bool) (excludedPeers : Option (List (List Nat)))
    (encryption : Bool) :
    CreateDatabaseLookupMsg env w mem key fromIdent replyTunnelID exploratory excludedPeers
        encryption =
      FillI2NPMessageHeader env
        (lookupSessionStage env w
          (lookupExcludedStage
            (lookupFlagStage (writeAt (writeAt mem 18 (readAt key 0 32)) 50
              (readAt fromIdent 0 32)) 82 replyTunnelID encryption).1
            (lookupFlagStage (writeAt (writeAt mem 18 (readAt key 0 32)) 50
              (readAt fromIdent 0 32)) 82 replyTunnelID encryption).2.1
            exploratory excludedPeers).1
          (lookupExcludedStage
            (lookupFlagStage (writeAt (writeAt mem 18 (readAt key 0 32)) 50
              (readAt fromIdent 0 32)) 82 replyTunnelID encryption).1
            (lookupFlagStage (writeAt (writeAt mem 18 (readAt key 0 32)) 50
              (readAt fromIdent 0 32)) 82 replyTunnelID encryption).2.1
            exploratory excludedPeers).2
          (lookupFlagStage (writeAt (writeAt mem 18 (readAt key 0 32)) 50
            (readAt fromIdent 0 32)) 82 replyTunnelID encryption).2.2).2.2
        { buf := (lookupSessionStage env w
            (lookupExcludedStage
              (lookupFlagStage (writeAt (writeAt mem 18 (readAt key 0 32)) 50
                (readAt fromIdent 0 32)) 82 replyTunnelID encryption).1
              (lookupFlagStage (writeAt (writeAt mem 18 (readAt key 0 32)) 50
                (readAt fromIdent 0 32)) 82 replyTunnelID encryption).2.1
              exploratory excludedPeers).1
            (lookupExcludedStage
              (lookupFlagStage (writeAt (writeAt mem 18 (readAt key 0 32)) 50
                (readAt fromIdent 0 32)) 82 replyTunnelID encryption).1
              (lookupFlagStage (writeAt (writeAt mem 18 (readAt key 0 32)) 50
                (readAt fromIdent 0 32)) 82 replyTunnelID encryption).2.1
              exploratory excludedPeers).2
            (lookupFlagStage (writeAt (writeAt mem 18 (readAt key 0 32)) 50
              (readAt fromIdent 0 32)) 82 replyTunnelID encryption).2.2).1,
          len := 18 + ((lookupSessionStage env w
            (lookupExcludedStage
              (lookupFlagStage (writeAt (writeAt mem 18 (readAt key 0 32)) 50
                (readAt fromIdent 0 32)) 82 replyTunnelID encryption).1
              (lookupFlagStage (writeAt (writeAt mem 18 (readAt key 0 32)) 50
                (readAt fromIdent 0 32)) 82 replyTunnelID encryption).2.1
              exploratory excludedPeers).1
            (lookupExcludedStage
              (lookupFlagStage (writeAt (writeAt mem 18 (readAt key 0 32)) 50
                (readAt fromIdent 0 32)) 82 replyTunnelID encryption).1
              (lookupFlagStage (writeAt (writeAt mem 18 (readAt key 0 32)) 50
                (readAt fromIdent 0 32)) 82 replyTunnelID encryption).2.1
              exploratory excludedPeers).2
            (lookupFlagStage (writeAt (writeAt mem 18 (readAt key 0 32)) 50
              (readAt fromIdent 0 32)) 82 replyTunnelID encryption).2.2).2.1 - 18),
          offset := 2, fromTunnel := none }
        .eI2NPDatabaseLookup 0 := rfl

theorem lookupFlagStage_eq (b : List Nat) (buf : Nat) (replyTunnelID : Nat)
    (encryption : Bool) :
    lookupFlagStage b buf replyTunnelID encryption =
      (writeAt b buf (lookupFlagSection replyTunnelID encryption),
       buf + (lookupFlagSection replyTunnelID encryption).length,
       decide (replyTunnelID ≠ 0) && encryption) := by
  unfold lookupFlagStage lookupFlagSection
  by_cases h : replyTunnelID = 0
  · simp [h]
  · simp only [h, ne_eq, not_false_eq_true, if_true, decide_True, Bool.true_and]
    rw [writeAt_writeAt_next _ _ (buf + 1) _ _ rfl]
    rfl

theorem lookupExcludedStage_eq (b : List Nat) (buf : Nat) (exploratory : Bool)
    (excludedPeers : Option (List (List Nat))) :
    lookupExcludedStage b buf exploratory excludedPeers =
      (writeAt b buf (lookupExcludedSection exploratory excludedPeers),
       buf + (lookupExcludedSection exploratory excludedPeers).length) := by
  unfold lookupExcludedStage lookupExcludedSection
  cases exploratory
  · cases excludedPeers with
    | none => rfl
    | some peers =>
      simp only [Bool.false_eq_true, if_false, copyExcludedPeers_eq]
      rw [writeAt_writeAt_next _ _ (buf + 2) _ _ (by rw [length_htobe16])]
      simp only [List.length_append, length_htobe16, length_excludedEntries]
      congr 1
      omega
  · simp only [if_true]
    rw [writeAt_writeAt_next _ _ (buf + 2) _ _ (by rw [length_htobe16])]
    rfl

theorem lookupSessionStage_eq (env : Env) (w : World) (b : List Nat) (buf : Nat)
    (replyTunnelID : Nat) (encryption : Bool)
    (hfit : buf + (lookupSessionSection env w replyTunnelID encryption).length ≤ b.length) :
    lookupSessionStage env w b buf (decide (replyTunnelID ≠ 0) && encryption) =
      (writeAt b buf (lookupSessionSection env w replyTunnelID encryption),
       buf + (lookupSessionSection env w replyTunnelID encryption).length,
       databaseLookupWorld env w replyTunnelID encryption) := by
  unfold lookupSessionSection at hfit
  unfold lookupSessionStage lookupSessionSection databaseLookupWorld
  by_cases h : replyTunnelID ≠ 0 ∧ encryption = true
  · have hd : (decide (replyTunnelID ≠ 0) && encryption) = true := by
      simp [h.1, h.2]
    have hk : (readAt (env.genBlock w.rngCalls 32) 0 32).length = 32 := length_readAt _ _ _
    have ht : (readAt (env.genBlock (w.rngCalls + 1) 32) 0 32).length = 32 :=
      length_readAt _ _ _
    rw [if_pos h] at hfit
    simp only [List.length_append, List.length_singleton, lookupSessionKey, lookupSessionTag,
      length_readAt] at hfit
    simp only [if_pos hd, if_pos h, GenerateBlock, lookupSessionKey, lookupSessionTag]
    have e1 : readAt (writeAt (writeAt (writeAt b buf (readAt (env.genBlock w.rngCalls 32) 0 32))
        (buf + 32) [1]) (buf + 33) (readAt (env.genBlock (w.rngCalls + 1) 32) 0 32)) buf 32 =
        readAt (env.genBlock w.rngCalls 32) 0 32 := by
      rw [readAt_writeAt_of_disjoint _ _ _ _ _ (by left; omega),
        readAt_writeAt_of_disjoint _ _ _ _ _ (by left; omega)]
      exact readAt_writeAt_eq _ _ _ _ hk (by omega)
    have e2 : readAt (writeAt (writeAt (writeAt b buf (readAt (env.genBlock w.rngCalls 32) 0 32))
        (buf + 32) [1]) (buf + 33) (readAt (env.genBlock (w.rngCalls + 1) 32) 0 32))
        (buf + 33) 32 = readAt (env.genBlock (w.rngCalls + 1) 32) 0 32 := by
      exact readAt_writeAt_eq _ _ _ _ ht (by simp only [length_writeAt]; omega)
    rw [e1, e2, writeAt_writeAt_next _ _ (buf + 32) _ _ (by rw [hk]),
      writeAt_writeAt_next _ _ (buf + 33) _ _ (by
        simp only [List.length_append, hk, List.length_singleton])]
    simp only [List.length_append, List.length_singleton, hk, ht, List.append_assoc]
  · have hd : (decide (replyTunnelID ≠ 0) && encryption) = false := by
      by_cases h1 : replyTunnelID = 0
      · simp [h1]
      · have : encryption = false := by
          cases encryption
          · rfl
          · exact absurd ⟨h1, rfl⟩ h
        simp [this]
    simp only [hd, Bool.false_eq_true, if_false, if_neg h, writeAt_nil, List.length_nil,
      Nat.add_zero]

theorem length_lookupSessionSection (env : Env) (w : World) (replyTunnelID : Nat)
    (encryption : Bool) :
    (lookupSessionSection env w replyTunnelID encryption).length =
      if replyTunnelID ≠ 0 ∧ encryption = true then 65 else 0 := by
  unfold lookupSessionSection
  by_cases h : replyTunnelID ≠ 0 ∧ encryption = true
  · rw [if_pos h, if_pos h]
    simp only [List.length_append, List.length_singleton, lookupSessionKey, lookupSessionTag,
      length_readAt]
  · rw [if_neg h, if_neg h]
    rfl

theorem CreateDatabaseLookupMsg_eq (env : Env) (w : World) (mem key fromIdent : List Nat)
    (replyTunnelID : Nat) (exploratory : Bool) (excludedPeers : Option (List (List Nat)))
    (encryption : Bool)
    (hfit : 18 + (databaseLookupPayload env w key fromIdent replyTunnelID exploratory
      excludedPeers encryption).length ≤ mem.length) :
    CreateDatabaseLookupMsg env w mem key fromIdent replyTunnelID exploratory excludedPeers
        encryption =
      FillI2NPMessageHeader env (databaseLookupWorld env w replyTunnelID encryption)
        { buf := writeAt mem 18 (databaseLookupPayload env w key fromIdent replyTunnelID
            exploratory excludedPeers encryption),
          len := 18 + (databaseLookupPayload env w key fromIdent replyTunnelID exploratory
            excludedPeers encryption).length,
          offset := 2, fromTunnel := none } .eI2NPDatabaseLookup 0 := by
  simp only [databaseLookupPayload, List.length_append, length_readAt] at hfit
  rw [CreateDatabaseLookupMsg_stages, lookupFlagStage_eq, lookupExcludedStage_eq]
  simp only
  rw [lookupSessionStage_eq env w _ _ replyTunnelID encryption
    (by simp only [length_writeAt]; omega)]
  simp only
  rw [writeAt_writeAt_next _ _ _ _ _ rfl, writeAt_writeAt_next _ _ _ _ _ rfl,
    writeAt_writeAt_next _ _ 82 _ _ (by rw [length_readAt]),
    writeAt_writeAt_next _ _ 50 _ _ (by rw [length_readAt])]
  simp only [databaseLookupPayload, List.append_assoc, List.length_append, length_readAt]
  congr 2
  omega

/-! ## DatabaseLookup: the payload and the state after the builder -/

theorem readAt_append_left (a b : List Nat) (p n : Nat) (h : p + n ≤ a.length) :
    readAt (a ++ b) p n = readAt a p n := by
  apply readAt_congr
  intro i hi
  rw [byteAt_append, if_pos (by omega)]

theorem readAt_append_right (a b : List Nat) (p n : Nat) (h : a.length ≤ p) :
    readAt (a ++ b) p n = readAt b (p - a.length) n := by
  apply readAt_congr
  intro i hi
  rw [byteAt_append, if_neg (by omega)]
  congr 1
  omega

theorem readAt_append_length (a b : List Nat) (n : Nat) (h : b.length = n) :
    readAt (a ++ b) a.length n = b := by
  rw [readAt_append_right _ _ _ _ (Nat.le_refl _), Nat.sub_self]
  exact readAt_of_length b n h

theorem readAt_excludedEntries (peers : List (List Nat)) (i : Nat) (hi : i < peers.length) :
    readAt (excludedEntries peers) (32 * i) 32 = readAt peers[i] 0 32 := by
  induction peers generalizing i with
  | nil => exact absurd hi (Nat.not_lt_zero _)
  | cons it rest ih =>
    cases i with
    | zero =>
      simp only [excludedEntries, Nat.mul_zero, List.getElem_cons_zero]
      rw [readAt_append_left _ _ _ _ (by rw [length_readAt])]
      exact readAt_of_length _ _ (length_readAt _ _ _)
    | succ j =>
      simp only [excludedEntries, List.getElem_cons_succ]
      rw [readAt_append_right _ _ _ _ (by rw [length_readAt]; omega), length_readAt]
      have : 32 * (j + 1) - 32 = 32 * j := by omega
      rw [this]
      exact ih j (Nat.lt_of_succ_lt_succ hi)

theorem length_databaseLookupPayload (env : Env) (w : World) (key fromIdent : List Nat)
    (replyTunnelID : Nat) (exploratory : Bool) (excludedPeers : Option (List (List Nat)))
    (encryption : Bool) :
    (databaseLookupPayload env w key fromIdent replyTunnelID exploratory excludedPeers
      encryption).length =
      64 + (lookupFlagSection replyTunnelID encryption).length +
        (lookupExcludedSection exploratory excludedPeers).length +
        (lookupSessionSection env w replyTunnelID encryption).length := by
  simp only [databaseLookupPayload, List.length_append, length_readAt]
  omega

theorem CreateDatabaseLookupMsg_payload (env : Env) (w : World) (mem key fromIdent : List Nat)
    (replyTunnelID : Nat) (exploratory : Bool) (excludedPeers : Option (List (List Nat)))
    (encryption : Bool)
    (hfit : 18 + (databaseLookupPayload env w key fromIdent replyTunnelID exploratory
      excludedPeers encryption).length ≤ mem.length) :
    (CreateDatabaseLookupMsg env w mem key fromIdent replyTunnelID exploratory excludedPeers
        encryption).2.payload =
      databaseLookupPayload env w key fromIdent replyTunnelID exploratory excludedPeers
        encryption := by
  rw [CreateDatabaseLookupMsg_eq _ _ _ _ _ _ _ _ _ hfit, Fill_payload]
  simp only [I2NPMessage.payload, I2NPMessage.GetPayload, I2NPMessage.GetBuffer,
    I2NPMessage.GetLength, sizeofI2NPHeader]
  exact readAt_writeAt_eq _ _ _ _ (by omega) (by omega)

theorem CreateDatabaseLookupMsg_world (env : Env) (w : World)
    (mem key fromIdent : List Nat) (replyTunnelID : Nat) (exploratory : Bool)
    (excludedPeers : Option (List (List Nat))) (encryption : Bool)
    (hfit : 18 + (databaseLookupPayload env w key fromIdent replyTunnelID exploratory
      excludedPeers encryption).length ≤ mem.length) :
    (CreateDatabaseLookupMsg env w mem key fromIdent replyTunnelID exploratory excludedPeers
        encryption).1.sessionKeys =
      (databaseLookupWorld env w replyTunnelID encryption).sessionKeys ∧
    (CreateDatabaseLookupMsg env w mem key fromIdent replyTunnelID exploratory excludedPeers
        encryption).1.rngCalls =
      (databaseLookupWorld env w replyTunnelID encryption).rngCalls := by
  rw [CreateDatabaseLookupMsg_eq _ _ _ _ _ _ _ _ _ hfit, Fill_world]
  exact ⟨rfl, rfl⟩

theorem databaseLookupWorld_of_encrypted (env : Env) (w : World) (replyTunnelID : Nat)
    (h : replyTunnelID ≠ 0) :
    (databaseLookupWorld env w replyTunnelID true).sessionKeys =
      w.sessionKeys ++ [(lookupSessionKey env w, lookupSessionTag env w)] ∧
    (databaseLookupWorld env w replyTunnelID true).rngCalls = w.rngCalls + 2 := by
  unfold databaseLookupWorld
  rw [if_pos ⟨h, rfl⟩]
  exact ⟨rfl, rfl⟩

theorem databaseLookupWorld_of_plain (env : Env) (w : World) (replyTunnelID : Nat)
    (encryption : Bool) (h : replyTunnelID = 0 ∨ encryption = false) :
    databaseLookupWorld env w replyTunnelID encryption = w := by
  unfold databaseLookupWorld
  rw [if_neg]
  intro hc
  cases h with
  | inl h0 => exact hc.1 h0
  | inr hf => rw [hf] at hc; exact Bool.false_ne_true hc.2

theorem lookupSessionSection_of_plain (env : Env) (w : World) (replyTunnelID : Nat)
    (encryption : Bool) (h : replyTunnelID = 0 ∨ encryption = false) :
    lookupSessionSection env w replyTunnelID encryption = [] := by
  unfold lookupSessionSection
  rw [if_neg]
  intro hc
  cases h with
  | inl h0 => exact hc.1 h0
  | inr hf => rw [hf] at hc; exact Bool.false_ne_true hc.2

/-- C12: the excluded section of the payload CreateDatabaseLookupMsg builds starts right
after the flag (and the reply tunnel ID when there is one). When exploratory is set it is
the big-endian u16 count 1 followed by one entry of 32 zero bytes, whatever excludedPeers
holds. Otherwise it is the big-endian u16 count of excludedPeers, 0 without a set,
followed by the 32-byte hash of each element in iteration order. The call (K, F, 0, true,
no set, false) yields the 99-byte payload K | F | 0x00 | 0x0001 | 32 zero bytes. -/
theorem excluded_peer_encoding (env : Env) (w : World) (mem key fromIdent : List Nat)
    (replyTunnelID : Nat) (exploratory : Bool) (excludedPeers : Option (List (List Nat)))
    (encryption : Bool)
    (hfit : 18 + (databaseLookupPayload env w key fromIdent replyTunnelID exploratory
      excludedPeers encryption).length ≤ mem.length)
    (hcnt : ∀ peers, excludedPeers = some peers → peers.length < 65536) :
    (exploratory = true →
      readAt (CreateDatabaseLookupMsg env w mem key fromIdent replyTunnelID exploratory
          excludedPeers encryption).2.payload (if replyTunnelID ≠ 0 then 69 else 65) 34 =
        [0, 1] ++ List.replicate 32 0) ∧
    (exploratory = false → excludedPeers = none →
      readAt (CreateDatabaseLookupMsg env w mem key fromIdent replyTunnelID exploratory
          excludedPeers encryption).2.payload (if replyTunnelID ≠ 0 then 69 else 65) 2 =
        [0, 0]) ∧
    (exploratory = false → ∀ peers, excludedPeers = some peers →
      be16toh (readAt (CreateDatabaseLookupMsg env w mem key fromIdent replyTunnelID
          exploratory excludedPeers encryption).2.payload
          (if replyTunnelID ≠ 0 then 69 else 65) 2) = peers.length ∧
      ∀ (i : Nat) (hi : i < peers.length),
        readAt (CreateDatabaseLookupMsg env w mem key fromIdent replyTunnelID exploratory
          excludedPeers encryption).2.payload
          ((if replyTunnelID ≠ 0 then 69 else 65) + 2 + 32 * i) 32 = readAt peers[i] 0 32) ∧
    (replyTunnelID = 0 → exploratory = true → key.length = 32 → fromIdent.length = 32 →
      (CreateDatabaseLookupMsg env w mem key fromIdent replyTunnelID exploratory
          excludedPeers encryption).2.payload =
        key ++ fromIdent ++ [0] ++ [0, 1] ++ List.replicate 32 0 ∧
      (CreateDatabaseLookupMsg env w mem key fromIdent replyTunnelID exploratory
          excludedPeers encryption).2.payload.length = 99) := by
  rw [CreateDatabaseLookupMsg_payload _ _ _ _ _ _ _ _ _ hfit]
  have hpos : (if replyTunnelID ≠ 0 then 69 else 65) =
      (readAt key 0 32 ++ (readAt fromIdent 0 32 ++
        lookupFlagSection replyTunnelID encryption)).length := by
    simp only [List.length_append, length_readAt, length_lookupFlagSection]
    by_cases h : replyTunnelID = 0 <;> simp [h]
  have hsplit : databaseLookupPayload env w key fromIdent replyTunnelID exploratory
      excludedPeers encryption =
      (readAt key 0 32 ++ (readAt fromIdent 0 32 ++
        lookupFlagSection replyTunnelID encryption)) ++
      (lookupExcludedSection exploratory excludedPeers ++
        lookupSessionSection env w replyTunnelID encryption) := by
    simp only [databaseLookupPayload, List.append_assoc]
  have hsec : ∀ k n, k + n ≤ (lookupExcludedSection exploratory excludedPeers).length →
      readAt (databaseLookupPayload env w key fromIdent replyTunnelID exploratory
        excludedPeers encryption) ((if replyTunnelID ≠ 0 then 69 else 65) + k) n =
      readAt (lookupExcludedSection exploratory excludedPeers) k n := by
    intro k n hk
    rw [hsplit, hpos, readAt_append_right _ _ _ _ (Nat.le_add_right _ _),
      Nat.add_sub_cancel_left, readAt_append_left _ _ _ _ hk]
  refine ⟨?_, ?_, ?_, ?_⟩
  · intro he
    subst he
    have := hsec 0 34 (by rw [length_lookupExcludedSection]; simp)
    rw [Nat.add_zero] at this
    rw [this]
    rfl
  · intro he hn
    subst he hn
    have := hsec 0 2 (by rw [length_lookupExcludedSection]; simp)
    rw [Nat.add_zero] at this
    rw [this]
    rfl
  · intro he peers hp
    subst he hp
    have hlen : (lookupExcludedSection false (some peers)).length = 2 + 32 * peers.length := by
      rw [length_lookupExcludedSection]; simp
    have hdef : lookupExcludedSection false (some peers) =
        htobe16 peers.length ++ excludedEntries peers := by
      simp [lookupExcludedSection]
    constructor
    · have := hsec 0 2 (by rw [hlen]; omega)
      rw [Nat.add_zero] at this
      rw [this, hdef, readAt_append_left _ _ _ _ (by rw [length_htobe16]),
        readAt_of_length _ _ (length_htobe16 _), be16toh_htobe16]
      exact Nat.mod_eq_of_lt (hcnt peers rfl)
    · intro i hi
      have := hsec (2 + 32 * i) 32 (by rw [hlen]; omega)
      rw [← Nat.add_assoc] at this
      rw [this, hdef, readAt_append_right _ _ _ _ (by rw [length_htobe16]; omega),
        length_htobe16, Nat.add_sub_cancel_left]
      exact readAt_excludedEntries peers i hi
  · intro ht he hk hf
    subst ht he
    have hp : databaseLookupPayload env w key fromIdent 0 true excludedPeers encryption =
        key ++ fromIdent ++ [0] ++ [0, 1] ++ List.replicate 32 0 := by
      simp only [databaseLookupPayload, readAt_of_length _ _ hk, readAt_of_length _ _ hf,
        lookupSessionSection_of_plain env w 0 encryption (Or.inl rfl), List.append_nil,
        List.append_assoc]
      rfl
    rw [hp]
    refine ⟨rfl, ?_⟩
    simp only [List.length_append, hk, hf, List.length_replicate, List.length_cons,
      List.length_nil]

theorem excluded_peer_encoding_witness :
    (CreateDatabaseLookupMsg sampleEnv sampleWorld sampleMem (List.replicate 32 1)
        (List.replicate 32 2) 0 true none false).2.payload =
      List.replicate 32 1 ++ List.replicate 32 2 ++ [0] ++ [0, 1] ++ List.replicate 32 0 ∧
    (CreateDatabaseLookupMsg sampleEnv sampleWorld sampleMem (List.replicate 32 1)
        (List.replicate 32 2) 0 true none false).2.payload.length = 99 :=
  (excluded_peer_encoding sampleEnv sampleWorld sampleMem (List.replicate 32 1)
    (List.replicate 32 2) 0 true none false
    (by rw [length_databaseLookupPayload, length_lookupFlagSection,
          length_lookupExcludedSection,
          lookupSessionSection_of_plain _ _ _ _ (Or.inl rfl), length_sampleMem]
        decide)
    (fun _ h => Option.noConfusion h)).2.2.2 rfl rfl (List.length_replicate _ _)
    (List.length_replicate _ _)

/-- C13: for CreateDatabaseLookupMsg with replyTunnelID ≠ 0, payload byte 64 is 0x03 when
encryption is requested and 0x01 otherwise, and payload bytes 65..68 are the big-endian
replyTunnelID. With encryption the payload ends with session_key[32] | 0x01 |
session_tag[32], the key and the tag being the next two 32-byte blocks of the RNG, and
AddSessionKey is invoked exactly once, with the key and tag bytes of the payload. Without
encryption AddSessionKey is not invoked and nothing is drawn from the RNG. -/
theorem lookup_reply_tunnel_flag_and_session (env : Env) (w : World)
    (mem key fromIdent : List Nat) (replyTunnelID : Nat) (exploratory : Bool)
    (excludedPeers : Option (List (List Nat))) (encryption : Bool)
    (hfit : 18 + (databaseLookupPayload env w key fromIdent replyTunnelID exploratory
      excludedPeers encryption).length ≤ mem.length)
    (htid : replyTunnelID ≠ 0) (hlt : replyTunnelID < 4294967296) :
    byteAt (CreateDatabaseLookupMsg env w mem key fromIdent replyTunnelID exploratory
        excludedPeers encryption).2.payload 64 = (if encryption then 3 else 1) ∧
    readAt (CreateDatabaseLookupMsg env w mem key fromIdent replyTunnelID exploratory
        excludedPeers encryption).2.payload 65 4 = htobe32 replyTunnelID ∧
    be32toh (readAt (CreateDatabaseLookupMsg env w mem key fromIdent replyTunnelID exploratory
        excludedPeers encryption).2.payload 65 4) = replyTunnelID ∧
    (encryption = true →
      (CreateDatabaseLookupMsg env w mem key fromIdent replyTunnelID exploratory
          excludedPeers encryption).2.payload.length =
        69 + (lookupExcludedSection exploratory excludedPeers).length + 65 ∧
      readAt (CreateDatabaseLookupMsg env w mem key fromIdent replyTunnelID exploratory
          excludedPeers encryption).2.payload
          (69 + (lookupExcludedSection exploratory excludedPeers).length) 65 =
        readAt (env.genBlock w.rngCalls 32) 0 32 ++ [1] ++
          readAt (env.genBlock (w.rngCalls + 1) 32) 0 32 ∧
      (CreateDatabaseLookupMsg env w mem key fromIdent replyTunnelID exploratory
          excludedPeers encryption).1.rngCalls = w.rngCalls + 2 ∧
      (CreateDatabaseLookupMsg env w mem key fromIdent replyTunnelID exploratory
          excludedPeers encryption).1.sessionKeys =
        w.sessionKeys ++
          [(readAt (CreateDatabaseLookupMsg env w mem key fromIdent replyTunnelID exploratory
              excludedPeers encryption).2.payload
              (69 + (lookupExcludedSection exploratory excludedPeers).length) 32,
            readAt (CreateDatabaseLookupMsg env w mem key fromIdent replyTunnelID exploratory
              excludedPeers encryption).2.payload
              (69 + (lookupExcludedSection exploratory excludedPeers).length + 33) 32)]) ∧
    (encryption = false →
      (CreateDatabaseLookupMsg env w mem key fromIdent replyTunnelID exploratory
          excludedPeers encryption).2.payload.length =
        69 + (lookupExcludedSection exploratory excludedPeers).length ∧
      (CreateDatabaseLookupMsg env w mem key fromIdent replyTunnelID exploratory
          excludedPeers encryption).1.rngCalls = w.rngCalls ∧
      (CreateDatabaseLookupMsg env w mem key fromIdent replyTunnelID exploratory
          excludedPeers encryption).1.sessionKeys = w.sessionKeys) := by
  have hw := CreateDatabaseLookupMsg_world _ _ _ _ _ _ _ _ _ hfit
  rw [CreateDatabaseLookupMsg_payload _ _ _ _ _ _ _ _ _ hfit]
  rw [hw.1, hw.2]
  have hflag : lookupFlagSection replyTunnelID encryption =
      [if encryption = true then 3 else 1] ++ htobe32 replyTunnelID := by
    unfold lookupFlagSection
    rw [if_pos htid]
  have hsplit : databaseLookupPayload env w key fromIdent replyTunnelID exploratory
      excludedPeers encryption =
      (readAt key 0 32 ++ readAt fromIdent 0 32) ++
        (([if encryption = true then 3 else 1] ++ htobe32 replyTunnelID) ++
          (lookupExcludedSection exploratory excludedPeers ++
            lookupSessionSection env w replyTunnelID encryption)) := by
    simp only [databaseLookupPayload, hflag, List.append_assoc]
  have h64 : (readAt key 0 32 ++ readAt fromIdent 0 32).length = 64 := by
    simp only [List.length_append, length_readAt]
  have hid : readAt (databaseLookupPayload env w key fromIdent replyTunnelID exploratory
      excludedPeers encryption) 65 4 = htobe32 replyTunnelID := by
    rw [hsplit, readAt_append_right _ _ _ _ (by rw [h64]; omega), h64,
      readAt_append_left _ _ _ _ (by simp [length_htobe32]),
      readAt_append_right _ _ _ _ (by simp)]
    exact readAt_of_length _ _ (length_htobe32 _)
  have hlen := length_databaseLookupPayload env w key fromIdent replyTunnelID exploratory
    excludedPeers encryption
  rw [length_lookupFlagSection, if_pos htid] at hlen
  have hsplit2 : databaseLookupPayload env w key fromIdent replyTunnelID exploratory
      excludedPeers encryption =
      (readAt key 0 32 ++ (readAt fromIdent 0 32 ++
        (lookupFlagSection replyTunnelID encryption ++
          lookupExcludedSection exploratory excludedPeers))) ++
        lookupSessionSection env w replyTunnelID encryption := by
    simp only [databaseLookupPayload, List.append_assoc]
  have hpre : (readAt key 0 32 ++ (readAt fromIdent 0 32 ++
        (lookupFlagSection replyTunnelID encryption ++
          lookupExcludedSection exploratory excludedPeers))).length =
      69 + (lookupExcludedSection exploratory excludedPeers).length := by
    simp only [List.length_append, length_readAt, length_lookupFlagSection, if_pos htid]
    omega
  refine ⟨?_, hid, ?_, ?_, ?_⟩
  · rw [hsplit, byteAt_append, if_neg (by rw [h64]; omega), h64]
    rfl
  · rw [hid, be32toh_htobe32]
    exact Nat.mod_eq_of_lt hlt
  · intro he
    subst he
    have hs : lookupSessionSection env w replyTunnelID true =
        readAt (env.genBlock w.rngCalls 32) 0 32 ++ [1] ++
          readAt (env.genBlock (w.rngCalls + 1) 32) 0 32 := by
      unfold lookupSessionSection
      rw [if_pos ⟨htid, rfl⟩]
      rfl
    have hsl : (readAt (env.genBlock w.rngCalls 32) 0 32 ++ [1] ++
          readAt (env.genBlock (w.rngCalls + 1) 32) 0 32).length = 65 := by
      simp only [List.length_append, length_readAt, List.length_singleton]
    have hwd := databaseLookupWorld_of_encrypted env w replyTunnelID htid
    rw [hs, hsl] at hlen
    refine ⟨hlen, ?_, hwd.2, ?_⟩
    · rw [hsplit2, ← hpre, hs]
      exact readAt_append_length _ _ _ hsl
    · rw [hwd.1, hsplit2, ← hpre, hs,
        readAt_append_right _ _ _ _ (Nat.le_refl _), Nat.sub_self,
        readAt_append_right _ _ _ _ (Nat.le_add_right _ _), Nat.add_sub_cancel_left,
        List.append_assoc,
        readAt_append_left _ _ _ _ (by rw [length_readAt]),
        readAt_append_right _ _ _ _ (by rw [length_readAt]; omega), length_readAt,
        readAt_append_right _ _ _ _ (by simp)]
      have hrr : ∀ x : List Nat, readAt (readAt x 0 32) 0 32 = readAt x 0 32 :=
        fun x => readAt_of_length _ _ (length_readAt _ _ _)
      simp only [List.length_singleton, Nat.reduceSub, hrr, lookupSessionKey, lookupSessionTag]
  · intro he
    subst he
    rw [lookupSessionSection_of_plain env w replyTunnelID false (Or.inr rfl)] at hlen
    rw [databaseLookupWorld_of_plain env w replyTunnelID false (Or.inr rfl)]
    exact ⟨hlen, rfl, rfl⟩

theorem lookup_reply_tunnel_flag_and_session_witness :
    byteAt (CreateDatabaseLookupMsg sampleEnv sampleWorld sampleMem (List.replicate 32 1)
        (List.replicate 32 2) 4660 false none true).2.payload 64 = 3 ∧
    readAt (CreateDatabaseLookupMsg sampleEnv sampleWorld sampleMem (List.replicate 32 1)
        (List.replicate 32 2) 4660 false none true).2.payload 65 4 = [0, 0, 18, 52] ∧
    (CreateDatabaseLookupMsg sampleEnv sampleWorld sampleMem (List.replicate 32 1)
        (List.replicate 32 2) 4660 false none true).1.sessionKeys =
      [(readAt (CreateDatabaseLookupMsg sampleEnv sampleWorld sampleMem (List.replicate 32 1)
          (List.replicate 32 2) 4660 false none true).2.payload 71 32,
        readAt (CreateDatabaseLookupMsg sampleEnv sampleWorld sampleMem (List.replicate 32 1)
          (List.replicate 32 2) 4660 false none true).2.payload 104 32)] :=
  have h := lookup_reply_tunnel_flag_and_session sampleEnv sampleWorld sampleMem
    (List.replicate 32 1) (List.replicate 32 2) 4660 false none true
    (by rw [length_databaseLookupPayload, length_lookupFlagSection,
          length_lookupExcludedSection, length_lookupSessionSection, length_sampleMem]
        decide)
    (by decide) (by decide)
  ⟨h.1, h.2.1, (h.2.2.2.1 rfl).2.2.2⟩

/-- C14: without a reply tunnel the encryption request is cleared. For every key, from,
exploratory and excludedPeers, CreateDatabaseLookupMsg with replyTunnelID = 0 and
encryption = true returns the same message and the same state as with encryption = false:
the payload is key | from | 0x00 | excluded section, with no tunnel ID field and no
session key / tag trailer, nothing is drawn from the RNG and AddSessionKey is not
invoked. -/
theorem encryption_cleared_without_reply_tunnel (env : Env) (w : World)
    (mem key fromIdent : List Nat) (exploratory : Bool)
    (excludedPeers : Option (List (List Nat)))
    (hfit : 18 + (65 + (lookupExcludedSection exploratory excludedPeers).length) ≤
      mem.length) :
    CreateDatabaseLookupMsg env w mem key fromIdent 0 exploratory excludedPeers true =
      CreateDatabaseLookupMsg env w mem key fromIdent 0 exploratory excludedPeers false ∧
    (CreateDatabaseLookupMsg env w mem key fromIdent 0 exploratory excludedPeers true).2.payload
      = readAt key 0 32 ++ readAt fromIdent 0 32 ++ [0] ++
          lookupExcludedSection exploratory excludedPeers ∧
    byteAt (CreateDatabaseLookupMsg env w mem key fromIdent 0 exploratory excludedPeers
      true).2.payload 64 = 0 ∧
    (CreateDatabaseLookupMsg env w mem key fromIdent 0 exploratory excludedPeers true).1.rngCalls
      = w.rngCalls ∧
    (CreateDatabaseLookupMsg env w mem key fromIdent 0 exploratory excludedPeers
      true).1.sessionKeys = w.sessionKeys := by
  have hp : ∀ e : Bool, databaseLookupPayload env w key fromIdent 0 exploratory excludedPeers e
      = readAt key 0 32 ++ readAt fromIdent 0 32 ++ [0] ++
          lookupExcludedSection exploratory excludedPeers := by
    intro e
    simp only [databaseLookupPayload, lookupSessionSection_of_plain env w 0 e (Or.inl rfl),
      List.append_nil, List.append_assoc]
    rfl
  have hl : ∀ e : Bool, 18 + (databaseLookupPayload env w key fromIdent 0 exploratory
      excludedPeers e).length ≤ mem.length := by
    intro e
    rw [hp e]
    simp only [List.length_append, length_readAt, List.length_singleton]
    omega
  have hw := CreateDatabaseLookupMsg_world env w mem key fromIdent 0 exploratory excludedPeers
    true (hl true)
  rw [databaseLookupWorld_of_plain env w 0 true (Or.inl rfl)] at hw
  refine ⟨?_, ?_, ?_, hw.2, hw.1⟩
  · rw [CreateDatabaseLookupMsg_eq _ _ _ _ _ _ _ _ _ (hl true),
      CreateDatabaseLookupMsg_eq _ _ _ _ _ _ _ _ _ (hl false), hp true, hp false,
      databaseLookupWorld_of_plain env w 0 true (Or.inl rfl),
      databaseLookupWorld_of_plain env w 0 false (Or.inl rfl)]
  · rw [CreateDatabaseLookupMsg_payload _ _ _ _ _ _ _ _ _ (hl true), hp true]
  · rw [CreateDatabaseLookupMsg_payload _ _ _ _ _ _ _ _ _ (hl true), hp true]
    simp only [List.append_assoc]
    rw [byteAt_append, if_neg (by rw [length_readAt]; omega), length_readAt,
      byteAt_append, if_neg (by rw [length_readAt]; omega), length_readAt]
    rfl

theorem encryption_cleared_without_reply_tunnel_witness :
    CreateDatabaseLookupMsg sampleEnv sampleWorld sampleMem (List.replicate 32 1)
        (List.replicate 32 2) 0 false (some [List.replicate 32 5]) true =
      CreateDatabaseLookupMsg sampleEnv sampleWorld sampleMem (List.replicate 32 1)
        (List.replicate 32 2) 0 false (some [List.replicate 32 5]) false ∧
    (CreateDatabaseLookupMsg sampleEnv sampleWorld sampleMem (List.replicate 32 1)
        (List.replicate 32 2) 0 false (some [List.replicate 32 5]) true).1.sessionKeys = [] :=
  have h := encryption_cleared_without_reply_tunnel sampleEnv sampleWorld sampleMem
    (List.replicate 32 1) (List.replicate 32 2) false (some [List.replicate 32 5])
    (by rw [length_lookupExcludedSection, length_sampleMem]
        decide)
  ⟨h.1, h.2.2.2.2⟩

/-! ## The dispatchers -/

theorem byteAt_drop (l : List Nat) (n i : Nat) : byteAt (l.drop n) i = byteAt l (n + i) := by
  unfold byteAt
  rw [List.getD_eq_getElem?_getD, List.getD_eq_getElem?_getD, List.getElem?_drop]

theorem drop_writeAt_of_le (buf : List Nat) (pos : Nat) (bs : List Nat) (n : Nat)
    (h : pos + bs.length ≤ n) : (writeAt buf pos bs).drop n = buf.drop n := by
  apply ext_byteAt
  · simp only [List.length_drop, length_writeAt]
  · intro i _
    rw [byteAt_drop, byteAt_drop]
    exact byteAt_writeAt_of_outside _ _ _ _ (Or.inr (by omega))

theorem HandleVariableTunnelBuildReplyMsg_world (env : Env) (w : World) (replyMsgID : Nat)
    (buf : List Nat) (len : Nat) :
    (HandleVariableTunnelBuildReplyMsg env w replyMsgID buf len).1 =
      match GetPendingTunnel w replyMsgID with
      | some tunnel =>
        if env.handleTunnelBuildResponse tunnel buf len then AddOutboundTunnel w tunnel
        else deleteTunnel w tunnel
      | none => w := by
  unfold HandleVariableTunnelBuildReplyMsg
  cases GetPendingTunnel w replyMsgID with
  | none => rfl
  | some tunnel =>
    dsimp only
    split_ifs <;> rfl

theorem HandleVariableTunnelBuildReplyMsg_buffer (env : Env) (w : World) (replyMsgID : Nat)
    (buf : List Nat) (len : Nat) :
    (HandleVariableTunnelBuildReplyMsg env w replyMsgID buf len).2 =
      match GetPendingTunnel w replyMsgID with
      | some tunnel => env.handleTunnelBuildResponseBuffer tunnel buf len
      | none => buf := by
  unfold HandleVariableTunnelBuildReplyMsg
  cases GetPendingTunnel w replyMsgID with
  | none => rfl
  | some tunnel =>
    dsimp only
    split_ifs <;> rfl

theorem HandleI2NPMessageRaw_world (env : Env) (w : World) (mem clearText msg : List Nat)
    (len : Nat) :
    (HandleI2NPMessageRaw env w mem clearText msg len).1 =
      if byteAt msg 0 = I2NPMessageType.eI2NPVariableTunnelBuild.toByte then
        (HandleVariableTunnelBuildMsg env w mem clearText (be32toh (readAt msg 1 4))
          (msg.drop sizeofI2NPHeader) (be16toh (readAt msg 13 2))).1
      else if byteAt msg 0 = I2NPMessageType.eI2NPVariableTunnelBuildReply.toByte then
        (HandleVariableTunnelBuildReplyMsg env w (be32toh (readAt msg 1 4))
          (msg.drop sizeofI2NPHeader) (be16toh (readAt msg 13 2))).1
      else if byteAt msg 0 = I2NPMessageType.eI2NPTunnelBuild.toByte then
        (HandleTunnelBuildMsg env w mem clearText (msg.drop sizeofI2NPHeader)
          (be16toh (readAt msg 13 2))).1
      else if byteAt msg 0 = I2NPMessageType.eI2NPTunnelBuildReply.toByte then w
      else if byteAt msg 0 = I2NPMessageType.eI2NPDatabaseLookup.toByte then
        HandleDatabaseLookupMsg env w mem (msg.drop sizeofI2NPHeader)
          (be16toh (readAt msg 13 2))
      else w := by
  unfold HandleI2NPMessageRaw
  dsimp only
  split_ifs <;> rfl

theorem HandleI2NPMessageRaw_world_of_checksum (env : Env) (w : World)
    (mem clearText raw : List Nat) (len c : Nat) :
    (HandleI2NPMessageRaw env w mem clearText (writeAt raw 15 [c]) len).1 =
      (HandleI2NPMessageRaw env w mem clearText raw len).1 := by
  have h0 : byteAt (writeAt raw 15 [c]) 0 = byteAt raw 0 :=
    byteAt_writeAt_of_outside _ _ _ _ (Or.inl (by omega))
  have h1 : readAt (writeAt raw 15 [c]) 1 4 = readAt raw 1 4 :=
    readAt_writeAt_of_disjoint _ _ _ _ _ (Or.inl (by omega))
  have h13 : readAt (writeAt raw 15 [c]) 13 2 = readAt raw 13 2 :=
    readAt_writeAt_of_disjoint _ _ _ _ _ (Or.inl (by omega))
  have hd : (writeAt raw 15 [c]).drop sizeofI2NPHeader = raw.drop sizeofI2NPHeader :=
    drop_writeAt_of_le _ _ _ _ (by simp [sizeofI2NPHeader])
  rw [HandleI2NPMessageRaw_world, HandleI2NPMessageRaw_world, h0, h1, h13, hd]

theorem HandleI2NPMessage_of_type (env : Env) (w : World) (mem clearText : List Nat)
    (msg : I2NPMessage) :
    (msg.typeID = I2NPMessageType.eI2NPTunnelData.toByte →
      HandleI2NPMessage env w mem clearText (some msg) = PostTunnelData w msg) ∧
    (msg.typeID = I2NPMessageType.eI2NPTunnelGateway.toByte →
      HandleI2NPMessage env w mem clearText (some msg) = HandleTunnelGatewayMsg w mem msg) ∧
    (msg.typeID = I2NPMessageType.eI2NPGarlic.toByte →
      HandleI2NPMessage env w mem clearText (some msg) = HandleGarlicMessage w msg) ∧
    (msg.typeID = I2NPMessageType.eI2NPDatabaseStore.toByte →
      HandleI2NPMessage env w mem clearText (some msg) = PostI2NPMsg w msg) ∧
    (msg.typeID = I2NPMessageType.eI2NPDatabaseSearchReply.toByte →
      HandleI2NPMessage env w mem clearText (some msg) = PostI2NPMsg w msg) := by
  refine ⟨?_, ?_, ?_, ?_, ?_⟩ <;> intro h <;>
    simp [HandleI2NPMessage, h, I2NPMessageType.toByte]

theorem sampleBadChecksumMsg_chks :
    sampleBadChecksumMsg.chks = 0 ∧
    byteAt (SHA256 sampleEnv sampleBadChecksumMsg.payload) 0 = 5 ∧
    sampleBadChecksumMsg.typeID = I2NPMessageType.eI2NPDatabaseStore.toByte := by
  decide

theorem sampleRawReply_chks :
    byteAt sampleRawReply 15 = 0 ∧
    byteAt (SHA256 sampleEnv (readAt sampleRawReply 16 (be16toh (readAt sampleRawReply 13 2))))
      0 = 5 := by
  decide

/-- C15 (amended): HandleI2NPMessage never compares the header checksum with the digest
of the payload; both entry points dispatch on the type byte alone. The state the raw
entry point leaves is the same whatever byte the checksum field holds. The owned entry
point hands a message to the collaborator of its type whatever its checksum: TunnelData
to the tunnel registry, TunnelGateway to the gateway unwrap, Garlic to garlic,
DatabaseStore and DatabaseSearchReply to NetDb. -/
theorem checksum_not_verified (env : Env) (w : World) (mem clearText raw : List Nat)
    (len c : Nat) (msg : I2NPMessage) :
    (HandleI2NPMessageRaw env w mem clearText (writeAt raw 15 [c]) len).1 =
      (HandleI2NPMessageRaw env w mem clearText raw len).1 ∧
    (msg.typeID = I2NPMessageType.eI2NPTunnelData.toByte →
      HandleI2NPMessage env w mem clearText (some msg) = PostTunnelData w msg) ∧
    (msg.typeID = I2NPMessageType.eI2NPTunnelGateway.toByte →
      HandleI2NPMessage env w mem clearText (some msg) = HandleTunnelGatewayMsg w mem msg) ∧
    (msg.typeID = I2NPMessageType.eI2NPGarlic.toByte →
      HandleI2NPMessage env w mem clearText (some msg) = HandleGarlicMessage w msg) ∧
    (msg.typeID = I2NPMessageType.eI2NPDatabaseStore.toByte →
      HandleI2NPMessage env w mem clearText (some msg) = PostI2NPMsg w msg) ∧
    (msg.typeID = I2NPMessageType.eI2NPDatabaseSearchReply.toByte →
      HandleI2NPMessage env w mem clearText (some msg) = PostI2NPMsg w msg) :=
  ⟨HandleI2NPMessageRaw_world_of_checksum env w mem clearText raw len c,
    HandleI2NPMessage_of_type env w mem clearText msg⟩

/-- C15, counterexample: a DatabaseStore message whose checksum byte 0 differs from the
digest byte 5 of its payload is posted to NetDb by the owned entry point, and a raw
VariableTunnelBuildReply with the same mismatch makes the raw entry point register the
pending tunnel as an outbound tunnel. -/
theorem checksum_not_verified_counterexample :
    sampleBadChecksumMsg.chks ≠ byteAt (SHA256 sampleEnv sampleBadChecksumMsg.payload) 0 ∧
    (HandleI2NPMessage sampleEnv sampleWorld sampleMem [] (some sampleBadChecksumMsg)).netdbQueue
      = [sampleBadChecksumMsg] ∧
    byteAt sampleRawReply 15 ≠
      byteAt (SHA256 sampleEnv (readAt sampleRawReply 16 (be16toh (readAt sampleRawReply 13 2))))
        0 ∧
    (HandleI2NPMessageRaw sampleEnv samplePendingWorld sampleMem [] sampleRawReply
      17).1.outboundTunnels = [{ tunnelID := 1 }] := by
  decide

/-! ## C16: lengths are not validated -/

theorem CreateDatabaseSearchReply_world (env : Env) (w : World) (mem ident : List Nat) :
    (CreateDatabaseSearchReply env w mem ident).1 =
      { w with I2NPmsgID := (w.I2NPmsgID + 1) % 4294967296, clockReads := w.clockReads + 1 } := by
  unfold CreateDatabaseSearchReply
  simp only [Fill_world, ne_eq, not_true_eq_false, if_false]

theorem HandleDatabaseLookupMsg_eq (env : Env) (w : World) (mem buf : List Nat) (len : Nat) :
    HandleDatabaseLookupMsg env w mem buf len =
      if byteAt buf 64 &&& 0x01 ≠ 0 ∧ be32toh (readAt buf 64 4) ≠ 0 then
        OutboundSendTunnelDataMsg (CreateDatabaseSearchReply env w mem buf).1 (readAt buf 32 32)
          (be32toh (readAt buf 64 4)) (CreateDatabaseSearchReply env w mem buf).2
      else
        SendMessage (CreateDatabaseSearchReply env w mem buf).1 (readAt buf 0 32)
          (CreateDatabaseSearchReply env w mem buf).2 := by
  unfold HandleDatabaseLookupMsg
  by_cases hf : byteAt buf 64 &&& 0x01 ≠ 0
  · by_cases ht : be32toh (readAt buf 64 4) ≠ 0
    · simp only [if_pos hf, if_pos ht, if_pos (And.intro hf ht)]
    · simp only [if_pos hf, if_neg ht, if_neg (fun h : _ ∧ _ => ht h.2)]
  · simp only [if_neg hf, if_neg (fun h : _ ∧ _ => hf h.1), ne_eq, not_true_eq_false, if_false]

theorem HandleDatabaseLookupMsg_replies (env : Env) (w : World) (mem buf : List Nat)
    (len : Nat) :
    (HandleDatabaseLookupMsg env w mem buf len).sent.length +
        (HandleDatabaseLookupMsg env w mem buf len).outboundSent.length =
      w.sent.length + w.outboundSent.length + 1 := by
  rw [HandleDatabaseLookupMsg_eq]
  split_ifs
  · simp only [OutboundSendTunnelDataMsg, CreateDatabaseSearchReply_world, List.length_append,
      List.length_singleton]
    omega
  · simp only [SendMessage, CreateDatabaseSearchReply_world, List.length_append,
      List.length_singleton]
    omega

theorem HandleI2NPMessage_gateway (env : Env) (w : World) (mem clearText : List Nat)
    (msg : I2NPMessage) (h : msg.typeID = I2NPMessageType.eI2NPTunnelGateway.toByte)
    (tunnel : TransitTunnel) (ht : GetTransitTunnel w msg.gatewayTunnelID = some tunnel) :
    (HandleI2NPMessage env w mem clearText (some msg)).transitSent =
      w.transitSent ++ [(tunnel, msg.gatewayUnwrapped)] := by
  rw [(HandleI2NPMessage_of_type env w mem clearText msg).2.1 h, HandleTunnelGatewayMsg_eq, ht]
  by_cases hds : msg.gatewayUnwrapped.typeID = I2NPMessageType.eI2NPDatabaseStore.toByte
  · rw [if_pos hds]; rfl
  · rw [if_neg hds]; rfl

/-- C16 (amended): the handlers validate no length. The raw entry point never uses len:
its result is the same for every len. A raw DatabaseLookup gets exactly one
DatabaseSearchReply handed to transports or to an outbound tunnel whatever the length
of its payload. A TunnelGateway message is unwrapped with the length of its gateway
header, whatever bytes remain, and the unwrapped message is handed to the transit
tunnel registered under its tunnel ID. -/
theorem length_fields_not_validated (env : Env) (w : World) (mem clearText raw : List Nat)
    (len len2 : Nat) (msg : I2NPMessage) :
    HandleI2NPMessageRaw env w mem clearText raw len =
      HandleI2NPMessageRaw env w mem clearText raw len2 ∧
    (byteAt raw 0 = I2NPMessageType.eI2NPDatabaseLookup.toByte →
      (HandleI2NPMessageRaw env w mem clearText raw len).1.sent.length +
          (HandleI2NPMessageRaw env w mem clearText raw len).1.outboundSent.length =
        w.sent.length + w.outboundSent.length + 1) ∧
    (msg.typeID = I2NPMessageType.eI2NPTunnelGateway.toByte →
      ∀ tunnel, GetTransitTunnel w msg.gatewayTunnelID = some tunnel →
        (HandleI2NPMessage env w mem clearText (some msg)).transitSent =
          w.transitSent ++ [(tunnel, msg.gatewayUnwrapped)] ∧
        msg.gatewayUnwrapped.len = msg.offset + 22 + msg.gatewayLength) := by
  refine ⟨rfl, ?_, ?_⟩
  · intro h
    rw [HandleI2NPMessageRaw_world]
    simp only [h, I2NPMessageType.toByte, Nat.reduceEqDiff, if_false, if_true]
    exact HandleDatabaseLookupMsg_replies _ _ _ _ _
  · intro h tunnel ht
    exact ⟨HandleI2NPMessage_gateway env w mem clearText msg h tunnel ht, rfl⟩

/-- C16, counterexample: a raw DatabaseLookup whose payload is 10 bytes long (size field
10, len 26) is answered with a reply to transports, and so it is when len is 85 and
disagrees with the size field; a TunnelGateway message whose gateway header gives the
length 65535 with three bytes remaining is handed to the transit tunnel as a message of
65535 bytes in a 25-byte buffer. -/
theorem length_fields_not_validated_counterexample :
    be16toh (readAt sampleShortLookup 13 2) = 10 ∧
    (HandleI2NPMessageRaw sampleEnv sampleWorld sampleMem [] sampleShortLookup 26).1.sent.length
      = 1 ∧
    16 + be16toh (readAt sampleShortLookup 13 2) ≠ 85 ∧
    (HandleI2NPMessageRaw sampleEnv sampleWorld sampleMem [] sampleShortLookup 85).1.sent.length
      = 1 ∧
    sampleLongGatewayMsg.GetLength = 25 ∧
    sampleLongGatewayMsg.gatewayLength = 65535 ∧
    sampleLongGatewayMsg.buf.length = 25 ∧
    (HandleI2NPMessage sampleEnv (AddTransitTunnel sampleWorld sampleTransitTunnel) [] []
        (some sampleLongGatewayMsg)).transitSent =
      [(sampleTransitTunnel, { sampleLongGatewayMsg with offset := 22, len := 65557 })] := by
  decide

/-! ## C17: dispatch of build replies -/

/-- C17: the raw entry point hands a VariableTunnelBuildReply to the pending tunnel
registered under the header's msg_id: the tunnel becomes an outbound tunnel when its
HandleTunnelBuildResponse accepts and is deleted when it declines, and nothing happens
when no tunnel is pending. A TunnelBuildReply is not dispatched at all: the state and the
buffer stay as they are, also when a tunnel is pending under its msg_id. -/
theorem tunnel_build_reply_dispatch (env : Env) (w : World) (mem clearText msg : List Nat)
    (len : Nat) :
    (byteAt msg 0 = I2NPMessageType.eI2NPVariableTunnelBuildReply.toByte →
      (∀ tunnel, GetPendingTunnel w (be32toh (readAt msg 1 4)) = some tunnel →
        (HandleI2NPMessageRaw env w mem clearText msg len).1 =
          if env.handleTunnelBuildResponse tunnel (msg.drop 16) (be16toh (readAt msg 13 2))
          then AddOutboundTunnel w tunnel else deleteTunnel w tunnel) ∧
      (GetPendingTunnel w (be32toh (readAt msg 1 4)) = none →
        (HandleI2NPMessageRaw env w mem clearText msg len).1 = w)) ∧
    (byteAt msg 0 = I2NPMessageType.eI2NPTunnelBuildReply.toByte →
      HandleI2NPMessageRaw env w mem clearText msg len = (w, msg)) := by
  constructor
  · intro h
    rw [HandleI2NPMessageRaw_world]
    simp only [h, I2NPMessageType.toByte, Nat.reduceEqDiff, if_false, if_true,
      HandleVariableTunnelBuildReplyMsg_world, sizeofI2NPHeader]
    constructor
    · intro tunnel ht
      rw [ht]
    · intro hn
      rw [hn]
  · intro h
    unfold HandleI2NPMessageRaw
    simp only [h, I2NPMessageType.toByte, Nat.reduceEqDiff, if_false, if_true]

/-- C17, failing input: a raw TunnelBuildReply with msg_id 7 while a tunnel that accepts
is pending under 7. The state is left unchanged: the tunnel is still pending and no
outbound tunnel is registered. -/
theorem tunnel_build_reply_dispatch_counterexample :
    byteAt sampleRawBuildReply 0 = I2NPMessageType.eI2NPTunnelBuildReply.toByte ∧
    GetPendingTunnel samplePendingWorld (be32toh (readAt sampleRawBuildReply 1 4)) =
      some { tunnelID := 1 } ∧
    sampleEnv.handleTunnelBuildResponse { tunnelID := 1 } (sampleRawBuildReply.drop 16)
      (be16toh (readAt sampleRawBuildReply 13 2)) = true ∧
    (HandleI2NPMessageRaw sampleEnv samplePendingWorld sampleMem [] sampleRawBuildReply
      17).1.outboundTunnels = [] ∧
    (HandleI2NPMessageRaw sampleEnv samplePendingWorld sampleMem [] sampleRawBuildReply
      17).1 = samplePendingWorld := by
  decide

/-! ## C18: the two paths of CreateTunnelGatewayMsg (tunnelID, msg) -/

theorem readAt_add (buf : List Nat) (p a b : Nat) :
    readAt buf p (a + b) = readAt buf p a ++ readAt buf (p + a) b := by
  apply ext_byteAt
  · simp only [List.length_append, length_readAt]
  · intro i hi
    rw [length_readAt] at hi
    rw [byteAt_readAt, if_pos hi, byteAt_append, length_readAt]
    by_cases h : i < a
    · rw [if_pos h, byteAt_readAt, if_pos h]
    · rw [if_neg h, byteAt_readAt, if_pos (by omega)]
      congr 1
      omega

theorem readAt_drop (buf : List Nat) (o p n : Nat) :
    readAt (buf.drop o) p n = readAt buf (o + p) n := by
  apply readAt_congr
  intro i _
  rw [byteAt_drop, Nat.add_assoc]

theorem Fill_bytes (env : Env) (w : World) (msg : I2NPMessage) (msgType : I2NPMessageType)
    (replyMsgID : Nat) (h1 : msg.offset + 16 ≤ msg.len) (h2 : msg.offset + 16 ≤ msg.buf.length) :
    (FillI2NPMessageHeader env w msg msgType replyMsgID).2.bytes =
      filledHeader env w msg msgType replyMsgID ++ msg.payload := by
  have hp := Fill_payload env w msg msgType replyMsgID
  simp only [I2NPMessage.payload, I2NPMessage.GetPayload, I2NPMessage.GetBuffer,
    I2NPMessage.GetLength, Fill_offset, Fill_len, sizeofI2NPHeader] at hp
  have hh := Fill_readAt_header env w msg msgType replyMsgID 0 16 h2 (by omega)
  rw [Nat.add_zero, readAt_of_length _ _ (length_filledHeader _ _ _ _ _)] at hh
  have e : msg.len - msg.offset = 16 + (msg.len - msg.offset - 16) := by omega
  simp only [I2NPMessage.bytes, I2NPMessage.payload, I2NPMessage.GetPayload,
    I2NPMessage.GetBuffer, I2NPMessage.GetLength, Fill_offset, Fill_len, sizeofI2NPHeader]
  rw [e, readAt_add, hh, hp, ← e]

theorem CreateTunnelGatewayMsg_eq (env : Env) (w : World) (mem : List Nat) (tunnelID : Nat)
    (buf : List Nat) (len : Nat) :
    CreateTunnelGatewayMsg env w mem tunnelID buf len =
      FillI2NPMessageHeader env w
        { buf := writeAt mem 18 (htobe32 tunnelID ++ htobe16 len ++ readAt buf 0 len),
          len := 24 + len, offset := 2, fromTunnel := none } .eI2NPTunnelGateway 0 := by
  have e : 16 + 2 + (6 + len) = 24 + len := by omega
  simp only [CreateTunnelGatewayMsg, NewI2NPMessage, I2NPMessage.GetPayload,
    I2NPMessage.GetBuffer, sizeofI2NPHeader, sizeofTunnelGatewayHeader, Nat.reduceAdd, e]
  rw [writeAt_writeAt_next _ _ 22 _ _ rfl, writeAt_writeAt_next _ _ 24 _ _ rfl]

theorem CreateTunnelGatewayMsg_payload (env : Env) (w : World) (mem : List Nat)
    (tunnelID : Nat) (buf : List Nat) (len : Nat) (hmem : 24 + len ≤ mem.length) :
    (CreateTunnelGatewayMsg env w mem tunnelID buf len).2.payload =
      htobe32 tunnelID ++ htobe16 len ++ readAt buf 0 len := by
  rw [CreateTunnelGatewayMsg_eq, Fill_payload]
  simp only [I2NPMessage.payload, I2NPMessage.GetPayload, I2NPMessage.GetBuffer,
    I2NPMessage.GetLength, sizeofI2NPHeader]
  exact readAt_writeAt_eq _ _ _ _
    (by simp only [List.length_append, length_htobe32, length_htobe16, length_readAt]; omega)
    (by omega)

theorem CreateTunnelGatewayMsg_bytes (env : Env) (w : World) (mem : List Nat)
    (tunnelID : Nat) (buf : List Nat) (len : Nat) (hmem : 24 + len ≤ mem.length) :
    (CreateTunnelGatewayMsg env w mem tunnelID buf len).2.bytes =
      [I2NPMessageType.eI2NPTunnelGateway.toByte] ++ htobe32 w.I2NPmsgID ++
        htobe64 (env.clock w.clockReads + 5000) ++ htobe16 (6 + len) ++
        [byteAt (SHA256 env (htobe32 tunnelID ++ htobe16 len ++ readAt buf 0 len)) 0] ++
        (htobe32 tunnelID ++ htobe16 len ++ readAt buf 0 len) := by
  have hp := CreateTunnelGatewayMsg_payload env w mem tunnelID buf len hmem
  rw [CreateTunnelGatewayMsg_eq, Fill_payload] at hp
  rw [CreateTunnelGatewayMsg_eq, Fill_bytes _ _ _ _ _ (by simp only; omega)
    (by simp only [length_writeAt]; omega), hp]
  have e : 24 + len - 2 - 16 = 6 + len := by omega
  simp only [filledHeader, hp, I2NPMessage.GetLength, sizeofI2NPHeader, stampedMsgID, ne_eq,
    not_true_eq_false, if_false, e]

theorem CreateTunnelGatewayMsgFromMsg_inplace_payload (env : Env) (w : World) (mem : List Nat)
    (tunnelID : Nat) (msg : I2NPMessage) (hoff : 22 ≤ msg.offset)
    (hfit : msg.offset ≤ msg.buf.length) :
    (CreateTunnelGatewayMsgFromMsg env w mem tunnelID msg).2.payload =
      htobe32 tunnelID ++ htobe16 msg.GetLength ++ msg.bytes := by
  rw [CreateTunnelGatewayMsgFromMsg_inplace env w mem tunnelID msg hoff, Fill_payload]
  simp only [I2NPMessage.payload, I2NPMessage.GetPayload, I2NPMessage.GetBuffer,
    I2NPMessage.GetLength, I2NPMessage.bytes, sizeofI2NPHeader]
  have e1 : msg.offset - 22 + 16 + 6 + (msg.len - msg.offset) - (msg.offset - 22) - 16 =
      6 + (msg.len - msg.offset) := by omega
  have e2 : msg.offset - 22 + 16 = msg.offset - 6 := by omega
  have e3 : msg.offset - 6 + 6 = msg.offset := by omega
  rw [e1, e2, writeAt_writeAt_next _ _ (msg.offset - 6 + 4) _ _ rfl, readAt_add, e3,
    readAt_writeAt_eq _ _ _ _ (by simp only [List.length_append, length_htobe32,
      length_htobe16]) (by omega),
    readAt_writeAt_of_disjoint _ _ _ _ _ (Or.inr (by
      simp only [List.length_append, length_htobe32, length_htobe16]; omega))]

theorem CreateTunnelGatewayMsgFromMsg_inplace_bytes (env : Env) (w : World) (mem : List Nat)
    (tunnelID : Nat) (msg : I2NPMessage) (hoff : 22 ≤ msg.offset)
    (hfit : msg.offset ≤ msg.buf.length) :
    (CreateTunnelGatewayMsgFromMsg env w mem tunnelID msg).2.bytes =
      [I2NPMessageType.eI2NPTunnelGateway.toByte] ++ htobe32 w.I2NPmsgID ++
        htobe64 (env.clock w.clockReads + 5000) ++ htobe16 (6 + msg.GetLength) ++
        [byteAt (SHA256 env (htobe32 tunnelID ++ htobe16 msg.GetLength ++ msg.bytes)) 0] ++
        (htobe32 tunnelID ++ htobe16 msg.GetLength ++ msg.bytes) := by
  have hp := CreateTunnelGatewayMsgFromMsg_inplace_payload env w mem tunnelID msg hoff hfit
  rw [CreateTunnelGatewayMsgFromMsg_inplace env w mem tunnelID msg hoff, Fill_payload] at hp
  rw [CreateTunnelGatewayMsgFromMsg_inplace env w mem tunnelID msg hoff,
    Fill_bytes _ _ _ _ _ (by simp only; omega) (by simp only [length_writeAt]; omega), hp]
  have e : msg.offset - 22 + 16 + 6 + (msg.len - msg.offset) - (msg.offset - 22) - 16 =
      6 + (msg.len - msg.offset) := by omega
  simp only [filledHeader, hp, I2NPMessage.GetLength, sizeofI2NPHeader, stampedMsgID, ne_eq,
    not_true_eq_false, if_false, e]

theorem CreateTunnelGatewayMsgFromMsg_copy (env : Env) (w : World) (mem : List Nat)
    (tunnelID : Nat) (msg : I2NPMessage) (hoff : msg.offset < 22) :
    CreateTunnelGatewayMsgFromMsg env w mem tunnelID msg =
      (DeleteI2NPMessage
        (CreateTunnelGatewayMsg env w mem tunnelID (msg.buf.drop msg.offset) msg.GetLength).1 msg,
       (CreateTunnelGatewayMsg env w mem tunnelID (msg.buf.drop msg.offset) msg.GetLength).2) := by
  have h : ¬ msg.offset ≥ sizeofI2NPHeader + sizeofTunnelGatewayHeader := by
    simp only [sizeofI2NPHeader, sizeofTunnelGatewayHeader]; omega
  unfold CreateTunnelGatewayMsgFromMsg
  rw [if_neg h]
  rfl

/-- C18: the two paths of CreateTunnelGatewayMsg (tunnelID, msg) agree. For an inner
message with offset >= 22 (in-place path) and one with offset < 22 (copying path) that
hold the same bytes, with the same clock and message-ID counter, the returned messages
have identical bytes GetBuffer ()[0 .. GetLength ()): type TunnelGateway, payload =
big-endian tunnelID | big-endian u16 inner length | the bytes of the inner message, and
the same size and checksum fields. -/
theorem gateway_paths_agree (env : Env) (w : World) (mem : List Nat) (tunnelID : Nat)
    (m1 m2 : I2NPMessage) (h1 : 22 ≤ m1.offset) (h2 : m2.offset < 22)
    (hlen : m1.offset ≤ m1.len) (hfit : m1.len ≤ m1.buf.length)
    (hb : m1.bytes = m2.bytes) (hmem : 24 + m2.GetLength ≤ mem.length) :
    (CreateTunnelGatewayMsgFromMsg env w mem tunnelID m1).2.bytes =
      (CreateTunnelGatewayMsgFromMsg env w mem tunnelID m2).2.bytes ∧
    (CreateTunnelGatewayMsgFromMsg env w mem tunnelID m1).2.GetLength = 22 + m1.GetLength ∧
    (CreateTunnelGatewayMsgFromMsg env w mem tunnelID m2).2.GetLength = 22 + m1.GetLength ∧
    (CreateTunnelGatewayMsgFromMsg env w mem tunnelID m1).2.typeID =
      I2NPMessageType.eI2NPTunnelGateway.toByte ∧
    (CreateTunnelGatewayMsgFromMsg env w mem tunnelID m2).2.typeID =
      I2NPMessageType.eI2NPTunnelGateway.toByte ∧
    (CreateTunnelGatewayMsgFromMsg env w mem tunnelID m1).2.payload =
      htobe32 tunnelID ++ htobe16 m1.GetLength ++ m1.bytes ∧
    (CreateTunnelGatewayMsgFromMsg env w mem tunnelID m2).2.payload =
      htobe32 tunnelID ++ htobe16 m1.GetLength ++ m1.bytes ∧
    (CreateTunnelGatewayMsgFromMsg env w mem tunnelID m1).2.size =
      (CreateTunnelGatewayMsgFromMsg env w mem tunnelID m2).2.size ∧
    (CreateTunnelGatewayMsgFromMsg env w mem tunnelID m1).2.chks =
      (CreateTunnelGatewayMsgFromMsg env w mem tunnelID m2).2.chks := by
  have hL : m1.GetLength = m2.GetLength := by
    have := congrArg List.length hb
    simpa only [I2NPMessage.bytes, length_readAt] using this
  have hcopy : readAt (m2.buf.drop m2.offset) 0 m2.GetLength = m1.bytes := by
    rw [readAt_drop, Nat.add_zero, hb]
    rfl
  have hL1 : m1.GetLength = m1.len - m1.offset := rfl
  have hp1 := CreateTunnelGatewayMsgFromMsg_inplace_payload env w mem tunnelID m1 h1
    (by omega)
  have hb1 := CreateTunnelGatewayMsgFromMsg_inplace_bytes env w mem tunnelID m1 h1 (by omega)
  have hp2 := CreateTunnelGatewayMsg_payload env w mem tunnelID (m2.buf.drop m2.offset)
    m2.GetLength hmem
  have hb2 := CreateTunnelGatewayMsg_bytes env w mem tunnelID (m2.buf.drop m2.offset)
    m2.GetLength hmem
  rw [hcopy, ← hL] at hp2 hb2
  have e1 := CreateTunnelGatewayMsgFromMsg_inplace env w mem tunnelID m1 h1
  have e2 := CreateTunnelGatewayMsgFromMsg_copy env w mem tunnelID m2 h2
  have e2b : (CreateTunnelGatewayMsgFromMsg env w mem tunnelID m2).2 =
      (CreateTunnelGatewayMsg env w mem tunnelID (m2.buf.drop m2.offset) m1.GetLength).2 := by
    rw [e2, hL]
  have hg1 : (CreateTunnelGatewayMsgFromMsg env w mem tunnelID m1).2.GetLength =
      22 + m1.GetLength := by
    rw [e1, Fill_GetLength]
    simp only [I2NPMessage.GetLength]
    omega
  have hg2 : (CreateTunnelGatewayMsgFromMsg env w mem tunnelID m2).2.GetLength =
      22 + m1.GetLength := by
    rw [e2b, CreateTunnelGatewayMsg_eq, Fill_GetLength]
    simp only [I2NPMessage.GetLength]
    omega
  refine ⟨?_, hg1, hg2, ?_, ?_, hp1, ?_, ?_, ?_⟩
  · rw [hb1, e2b, hb2]
  · rw [e1]
    exact Fill_typeID _ _ _ _ _ (by simp only [length_writeAt]; omega)
  · rw [e2b, CreateTunnelGatewayMsg_eq]
    exact Fill_typeID _ _ _ _ _ (by simp only [length_writeAt]; omega)
  · rw [e2b, hp2]
  · rw [e1, e2b, CreateTunnelGatewayMsg_eq,
      Fill_size _ _ _ _ _ (by simp only [length_writeAt]; omega),
      Fill_size _ _ _ _ _ (by simp only [length_writeAt]; omega)]
    simp only [I2NPMessage.GetLength]
    congr 1
    omega
  · have c1 : (CreateTunnelGatewayMsgFromMsg env w mem tunnelID m1).2.chks =
        byteAt (SHA256 env (CreateTunnelGatewayMsgFromMsg env w mem tunnelID m1).2.payload)
          0 := by
      rw [e1, Fill_chks _ _ _ _ _ (by simp only [length_writeAt]; omega), Fill_payload]
    have c2 : (CreateTunnelGatewayMsgFromMsg env w mem tunnelID m2).2.chks =
        byteAt (SHA256 env (CreateTunnelGatewayMsgFromMsg env w mem tunnelID m2).2.payload)
          0 := by
      rw [e2b, CreateTunnelGatewayMsg_eq,
        Fill_chks _ _ _ _ _ (by simp only [length_writeAt]; omega), Fill_payload]
    rw [c1, c2, hp1, e2b, hp2]

theorem gateway_paths_agree_witness :
    (CreateTunnelGatewayMsgFromMsg sampleEnv sampleWorld sampleMem 258 sampleRoomyMsg).2.bytes =
      (CreateTunnelGatewayMsgFromMsg sampleEnv sampleWorld sampleMem 258 sampleMsg).2.bytes ∧
    (CreateTunnelGatewayMsgFromMsg sampleEnv sampleWorld sampleMem 258 sampleMsg).2.payload =
      [0, 0, 1, 2] ++ [0, 19] ++ (List.replicate 16 0 ++ [1, 2, 3]) :=
  have h := gateway_paths_agree sampleEnv sampleWorld sampleMem 258 sampleRoomyMsg sampleMsg
    (by decide) (by decide) (by decide) (by decide) (by decide)
    (by rw [length_sampleMem]; decide)
  ⟨h.1, h.2.2.2.2.2.2.1.trans (by decide)⟩

/-! ## C19: gateway wrap and unwrap -/

theorem CreateTunnelGatewayMsg_readAt (env : Env) (w : World) (mem : List Nat)
    (tunnelID : Nat) (buf : List Nat) (len : Nat) (hmem : 24 + len ≤ mem.length) (k n : Nat)
    (hk : k + n ≤ 6 + len) :
    readAt (CreateTunnelGatewayMsg env w mem tunnelID buf len).2.buf (18 + k) n =
      readAt (htobe32 tunnelID ++ htobe16 len ++ readAt buf 0 len) k n := by
  have hp := CreateTunnelGatewayMsg_payload env w mem tunnelID buf len hmem
  have ho : (CreateTunnelGatewayMsg env w mem tunnelID buf len).2.offset = 2 := by
    rw [CreateTunnelGatewayMsg_eq, Fill_offset]
  have hl : (CreateTunnelGatewayMsg env w mem tunnelID buf len).2.len = 24 + len := by
    rw [CreateTunnelGatewayMsg_eq, Fill_len]
  simp only [I2NPMessage.payload, I2NPMessage.GetPayload, I2NPMessage.GetBuffer,
    I2NPMessage.GetLength, sizeofI2NPHeader, ho, hl] at hp
  have e : 24 + len - 2 - 16 = 6 + len := by omega
  rw [e] at hp
  rw [← hp, readAt_readAt _ _ _ _ _ hk]

theorem CreateTunnelGatewayMsg_unwrap (env : Env) (w : World) (mem : List Nat)
    (tunnelID : Nat) (b : List Nat) (hmem : 24 + b.length ≤ mem.length)
    (hb : b.length ≤ 65535) (htid : tunnelID < 4294967296) :
    (CreateTunnelGatewayMsg env w mem tunnelID b b.length).2.gatewayTunnelID = tunnelID ∧
    (CreateTunnelGatewayMsg env w mem tunnelID b b.length).2.gatewayLength = b.length ∧
    (CreateTunnelGatewayMsg env w mem tunnelID b b.length).2.gatewayUnwrapped.bytes = b := by
  have ho : (CreateTunnelGatewayMsg env w mem tunnelID b b.length).2.offset = 2 := by
    rw [CreateTunnelGatewayMsg_eq, Fill_offset]
  have hr := CreateTunnelGatewayMsg_readAt env w mem tunnelID b b.length hmem
  have h4 := hr 0 4 (by omega)
  have h2 := hr 4 2 (by omega)
  have hL := hr 6 b.length (by omega)
  rw [List.append_assoc, readAt_append_left _ _ _ _ (by rw [length_htobe32]),
    readAt_of_length _ _ (length_htobe32 _)] at h4
  rw [readAt_append_left _ _ _ _ (by
      simp only [List.length_append, length_htobe32, length_htobe16]; omega),
    readAt_append_right _ _ _ _ (by rw [length_htobe32]), length_htobe32,
    readAt_of_length _ _ (length_htobe16 _)] at h2
  rw [readAt_append_right _ _ _ _ (by
      simp only [List.length_append, length_htobe32, length_htobe16]; omega)] at hL
  simp only [List.length_append, length_htobe32, length_htobe16, Nat.reduceAdd, Nat.sub_self,
    readAt_zero_length] at hL
  have hgt : (CreateTunnelGatewayMsg env w mem tunnelID b b.length).2.gatewayTunnelID =
      tunnelID := by
    simp only [I2NPMessage.gatewayTunnelID, I2NPMessage.GetPayload, I2NPMessage.GetBuffer,
      sizeofI2NPHeader, ho]
    rw [h4, be32toh_htobe32]
    exact Nat.mod_eq_of_lt htid
  have hgl : (CreateTunnelGatewayMsg env w mem tunnelID b b.length).2.gatewayLength =
      b.length := by
    simp only [I2NPMessage.gatewayLength, I2NPMessage.GetPayload, I2NPMessage.GetBuffer,
      sizeofI2NPHeader, ho]
    rw [h2, be16toh_htobe16]
    exact Nat.mod_eq_of_lt (by omega)
  refine ⟨hgt, hgl, ?_⟩
  simp only [I2NPMessage.bytes, I2NPMessage.gatewayUnwrapped, I2NPMessage.GetBuffer,
    I2NPMessage.GetLength, sizeofI2NPHeader, sizeofTunnelGatewayHeader, ho, hgl]
  have e : 2 + (16 + 6) + b.length - (2 + (16 + 6)) = b.length := by omega
  rw [e]
  exact hL

/-- C19: gateway wrap and unwrap round trip. For every tunnelID (a 32-bit value) and
every byte string b of at most 65535 bytes, the TunnelGateway message that
CreateTunnelGatewayMsg (tunnelID, b, |b|) returns carries tunnel ID = tunnelID and
length |b|, the message HandleTunnelGatewayMsg unwraps from it has exactly the bytes b
as GetBuffer ()[0 .. GetLength ()), and that message is what the transit tunnel
registered under tunnelID receives, exactly once. -/
theorem gateway_round_trip (env : Env) (w w2 : World) (mem mem2 : List Nat) (tunnelID : Nat)
    (b : List Nat) (hmem : 24 + b.length ≤ mem.length) (hb : b.length ≤ 65535)
    (htid : tunnelID < 4294967296) :
    (CreateTunnelGatewayMsg env w mem tunnelID b b.length).2.gatewayTunnelID = tunnelID ∧
    (CreateTunnelGatewayMsg env w mem tunnelID b b.length).2.gatewayUnwrapped.bytes = b ∧
    (CreateTunnelGatewayMsg env w mem tunnelID b b.length).2.gatewayUnwrapped.GetLength =
      b.length ∧
    (∀ tunnel, GetTransitTunnel w2 tunnelID = some tunnel →
      (HandleTunnelGatewayMsg w2 mem2
          (CreateTunnelGatewayMsg env w mem tunnelID b b.length).2).transitSent =
        w2.transitSent ++
          [(tunnel, (CreateTunnelGatewayMsg env w mem tunnelID b b.length).2.gatewayUnwrapped)])
    := by
  obtain ⟨hgt, hgl, hbytes⟩ := CreateTunnelGatewayMsg_unwrap env w mem tunnelID b hmem hb htid
  refine ⟨hgt, hbytes, ?_, ?_⟩
  · have := congrArg List.length hbytes
    simpa only [I2NPMessage.bytes, length_readAt] using this
  · intro tunnel ht
    rw [HandleTunnelGatewayMsg_eq, hgt, ht]
    by_cases hds : (CreateTunnelGatewayMsg env w mem tunnelID b b.length).2.gatewayUnwrapped.typeID
        = I2NPMessageType.eI2NPDatabaseStore.toByte
    · rw [if_pos hds]; rfl
    · rw [if_neg hds]; rfl

theorem gateway_round_trip_witness :
    (CreateTunnelGatewayMsg sampleEnv sampleWorld sampleMem 258 sampleMsg.bytes
        sampleMsg.bytes.length).2.gatewayTunnelID = 258 ∧
    (CreateTunnelGatewayMsg sampleEnv sampleWorld sampleMem 258 sampleMsg.bytes
        sampleMsg.bytes.length).2.gatewayUnwrapped.bytes = List.replicate 16 0 ++ [1, 2, 3] ∧
    (HandleTunnelGatewayMsg (AddTransitTunnel sampleWorld sampleTransitTunnel) []
        (CreateTunnelGatewayMsg sampleEnv sampleWorld sampleMem 258 sampleMsg.bytes
          sampleMsg.bytes.length).2).transitSent =
      [(sampleTransitTunnel, (CreateTunnelGatewayMsg sampleEnv sampleWorld sampleMem 258
        sampleMsg.bytes sampleMsg.bytes.length).2.gatewayUnwrapped)] :=
  have h := gateway_round_trip sampleEnv sampleWorld
    (AddTransitTunnel sampleWorld sampleTransitTunnel) sampleMem [] 258 sampleMsg.bytes
    (by rw [length_sampleMem]; decide) (by decide) (by decide)
  ⟨h.1, h.2.1.trans (by decide), h.2.2.2 sampleTransitTunnel (by decide)⟩

/-! ## C20: the pending-tunnel branch of HandleVariableTunnelBuildMsg -/

theorem HandleVariableTunnelBuildMsg_pending (env : Env) (w : World)
    (mem clearText : List Nat) (replyMsgID : Nat) (buf : List Nat) (len : Nat)
    (tunnel : Tunnel) (h : GetPendingTunnel w replyMsgID = some tunnel) :
    HandleVariableTunnelBuildMsg env w mem clearText replyMsgID buf len =
      (if env.handleTunnelBuildResponse tunnel buf len then AddInboundTunnel w tunnel
        else deleteTunnel w tunnel, env.handleTunnelBuildResponseBuffer tunnel buf len) := by
  unfold HandleVariableTunnelBuildMsg
  simp only [h]
  split_ifs <;> rfl

theorem length_sampleBuildMsg (isEndpoint : Bool) (nextMessageID : Nat) :
    (sampleBuildMsg isEndpoint nextMessageID).length = 529 := by
  unfold sampleBuildMsg
  rw [List.length_append, length_EncryptBuildRequestRecord]
  rfl

theorem sampleBuildMsg_toPeer (isEndpoint : Bool) (nextMessageID : Nat) :
    byteAt (sampleBuildMsg isEndpoint nextMessageID) 1 = 0 := by
  have h := congrArg (fun l => byteAt l 0)
    (EncryptBuildRequestRecord_toPeer sampleEnv sampleRouter
      (sampleClearText isEndpoint nextMessageID) [])
  simp only [byteAt_readAt] at h
  unfold sampleBuildMsg
  rw [byteAt_append, if_neg (by decide)]
  exact h.trans (by decide)

/-- C20 (amended): when the msg_id of a received VariableTunnelBuild matches a pending
tunnel, HandleVariableTunnelBuildMsg lets that tunnel validate and does nothing else. It
writes no byte itself: the buffer after the call is the buffer as the tunnel's
HandleTunnelBuildResponse leaves it, so it is unchanged when that call does not write to
it. No transit tunnel is installed and nothing is sent to transports, whatever the
records hold; the outcome depends on no external function other than
HandleTunnelBuildResponse, so the ElGamal decryption plays no part. The pending tunnel
is registered as an inbound tunnel when HandleTunnelBuildResponse accepts and is deleted
otherwise. -/
theorem pending_tunnel_validates (env : Env) (w : World) (mem clearText : List Nat)
    (replyMsgID : Nat) (buf : List Nat) (len : Nat) (tunnel : Tunnel)
    (h : GetPendingTunnel w replyMsgID = some tunnel) :
    (HandleVariableTunnelBuildMsg env w mem clearText replyMsgID buf len).2 =
      env.handleTunnelBuildResponseBuffer tunnel buf len ∧
    (env.handleTunnelBuildResponseBuffer tunnel buf len = buf →
      (HandleVariableTunnelBuildMsg env w mem clearText replyMsgID buf len).2 = buf) ∧
    (HandleVariableTunnelBuildMsg env w mem clearText replyMsgID buf len).1.transitTunnels =
      w.transitTunnels ∧
    (HandleVariableTunnelBuildMsg env w mem clearText replyMsgID buf len).1.sent = w.sent ∧
    (∀ env2 : Env, env2.handleTunnelBuildResponse = env.handleTunnelBuildResponse →
      env2.handleTunnelBuildResponseBuffer = env.handleTunnelBuildResponseBuffer →
      HandleVariableTunnelBuildMsg env2 w mem clearText replyMsgID buf len =
        HandleVariableTunnelBuildMsg env w mem clearText replyMsgID buf len) ∧
    (env.handleTunnelBuildResponse tunnel buf len = true →
      (HandleVariableTunnelBuildMsg env w mem clearText replyMsgID buf len).1 =
        AddInboundTunnel w tunnel) ∧
    (env.handleTunnelBuildResponse tunnel buf len = false →
      (HandleVariableTunnelBuildMsg env w mem clearText replyMsgID buf len).1 =
        deleteTunnel w tunnel) := by
  refine ⟨?_, ?_, ?_, ?_, ?_, ?_, ?_⟩
  · rw [HandleVariableTunnelBuildMsg_pending _ _ _ _ _ _ _ _ h]
  · intro hb
    rw [HandleVariableTunnelBuildMsg_pending _ _ _ _ _ _ _ _ h]
    exact hb
  · rw [HandleVariableTunnelBuildMsg_pending _ _ _ _ _ _ _ _ h]
    split_ifs <;> rfl
  · rw [HandleVariableTunnelBuildMsg_pending _ _ _ _ _ _ _ _ h]
    split_ifs <;> rfl
  · intro env2 he hb
    rw [HandleVariableTunnelBuildMsg_pending _ _ _ _ _ _ _ _ h,
      HandleVariableTunnelBuildMsg_pending _ _ _ _ _ _ _ _ h, he, hb]
  · intro ha
    rw [HandleVariableTunnelBuildMsg_pending _ _ _ _ _ _ _ _ h, if_pos ha]
  · intro hd
    rw [HandleVariableTunnelBuildMsg_pending _ _ _ _ _ _ _ _ h, if_neg (by rw [hd]; decide)]

theorem pending_tunnel_validates_witness :
    FirstOwnRecord sampleEnv ((sampleBuildMsg false 9).drop 1)
      (byteAt (sampleBuildMsg false 9) 0) 0 ∧
    (HandleVariableTunnelBuildMsg sampleEnv samplePendingWorld sampleMem [] 7
      (sampleBuildMsg false 9) 529).2 = sampleBuildMsg false 9 ∧
    (HandleVariableTunnelBuildMsg sampleEnv samplePendingWorld sampleMem [] 7
      (sampleBuildMsg false 9) 529).1 = AddInboundTunnel samplePendingWorld { tunnelID := 1 } :=
  have h := pending_tunnel_validates sampleEnv samplePendingWorld sampleMem [] 7
    (sampleBuildMsg false 9) 529 { tunnelID := 1 } samplePendingWorld_pending
  ⟨sampleBuildMsg_firstOwn false 9, h.2.1 rfl, h.2.2.2.2.2.1 rfl⟩

/-- C20, counterexample: with a tunnel pending under msg_id 7 whose
HandleTunnelBuildResponse stores 255 into the first byte of the first record, the record
byte at position 1, which was 0, is 255 after HandleVariableTunnelBuildMsg. -/
theorem pending_tunnel_validates_counterexample :
    GetPendingTunnel samplePendingWorld 7 = some { tunnelID := 1 } ∧
    sampleWritingEnv.handleTunnelBuildResponseBuffer { tunnelID := 1 } (sampleBuildMsg false 9)
      529 = writeAt (sampleBuildMsg false 9) 1 [255] ∧
    byteAt (sampleBuildMsg false 9) 1 = 0 ∧
    byteAt (HandleVariableTunnelBuildMsg sampleWritingEnv samplePendingWorld sampleMem [] 7
      (sampleBuildMsg false 9) 529).2 1 = 255 := by
  have hb : sampleWritingEnv.handleTunnelBuildResponseBuffer { tunnelID := 1 }
      (sampleBuildMsg false 9) 529 = writeAt (sampleBuildMsg false 9) 1 [255] := by
    simp only [sampleWritingEnv]
  refine ⟨samplePendingWorld_pending, hb, sampleBuildMsg_toPeer false 9, ?_⟩
  rw [HandleVariableTunnelBuildMsg_pending sampleWritingEnv samplePendingWorld sampleMem [] 7
    (sampleBuildMsg false 9) 529 { tunnelID := 1 } samplePendingWorld_pending, hb]
  rw [byteAt_writeAt_of_inside _ _ _ _ (Nat.le_refl _) (by decide)
    (by rw [length_sampleBuildMsg]; decide)]
  rfl

/-! ## C21: HandleDatabaseLookupMsg -/

theorem CreateDatabaseSearchReply_eq (env : Env) (w : World) (mem ident : List Nat) :
    CreateDatabaseSearchReply env w mem ident =
      FillI2NPMessageHeader env w
        { buf := writeAt mem 18 (readAt ident 0 32 ++ [0] ++ readAt env.context.identHash 0 32),
          len := 83, offset := 2, fromTunnel := none } .eI2NPDatabaseSearchReply 0 := by
  simp only [CreateDatabaseSearchReply, NewI2NPMessage, I2NPMessage.GetPayload,
    I2NPMessage.GetBuffer, sizeofI2NPHeader, Nat.reduceAdd]
  rw [writeAt_writeAt_next _ _ 50 _ _ (by rw [length_readAt]),
    writeAt_writeAt_next _ _ 51 _ _ (by
      simp only [List.length_append, length_readAt, List.length_singleton])]

theorem CreateDatabaseSearchReply_payload (env : Env) (w : World) (mem ident : List Nat)
    (hmem : 83 ≤ mem.length) :
    (CreateDatabaseSearchReply env w mem ident).2.typeID =
      I2NPMessageType.eI2NPDatabaseSearchReply.toByte ∧
    (CreateDatabaseSearchReply env w mem ident).2.payload =
      readAt ident 0 32 ++ [0] ++ readAt env.context.identHash 0 32 := by
  rw [CreateDatabaseSearchReply_eq]
  constructor
  · exact Fill_typeID _ _ _ _ _ (by simp only [length_writeAt]; omega)
  · rw [Fill_payload]
    simp only [I2NPMessage.payload, I2NPMessage.GetPayload, I2NPMessage.GetBuffer,
      I2NPMessage.GetLength, sizeofI2NPHeader]
    exact readAt_writeAt_eq _ _ _ _
      (by simp only [List.length_append, length_readAt, List.length_singleton]) (by omega)

theorem be32toh_readAt (buf : List Nat) (p : Nat) :
    be32toh (readAt buf p 4) =
      byteAt buf p % 256 * 16777216 + byteAt buf (p + 1) % 256 * 65536 +
        byteAt buf (p + 2) % 256 * 256 + byteAt buf (p + 3) % 256 := by
  simp only [be32toh, u8, byteAt_readAt]
  simp

theorem replyTunnelID_of_flag (buf : List Nat) (h : byteAt buf 64 &&& 0x01 ≠ 0) :
    16777216 ≤ be32toh (readAt buf 64 4) := by
  rw [be32toh_readAt]
  rw [Nat.and_one_is_mod] at h
  omega

theorem HandleDatabaseLookupMsg_of_flag (env : Env) (w : World) (mem buf : List Nat)
    (len : Nat) (h : byteAt buf 64 &&& 0x01 ≠ 0) :
    HandleDatabaseLookupMsg env w mem buf len =
      OutboundSendTunnelDataMsg (CreateDatabaseSearchReply env w mem buf).1 (readAt buf 32 32)
        (be32toh (readAt buf 64 4)) (CreateDatabaseSearchReply env w mem buf).2 := by
  have h2 := replyTunnelID_of_flag buf h
  rw [HandleDatabaseLookupMsg_eq, if_pos ⟨h, by omega⟩]

theorem HandleDatabaseLookupMsg_of_no_flag (env : Env) (w : World) (mem buf : List Nat)
    (len : Nat) (h : byteAt buf 64 &&& 0x01 = 0) :
    HandleDatabaseLookupMsg env w mem buf len =
      SendMessage (CreateDatabaseSearchReply env w mem buf).1 (readAt buf 0 32)
        (CreateDatabaseSearchReply env w mem buf).2 := by
  rw [HandleDatabaseLookupMsg_eq, if_neg (fun hc => hc.1 h)]

/-- C21: HandleDatabaseLookupMsg sends exactly one DatabaseSearchReply per lookup, with
payload looked-up key | count 0 | local identity hash. The reply tunnel ID is the
big-endian u32 read from payload bytes 64..67, the flag byte being its most significant
byte, when flag bit 0x01 is set; it is then at least 2^24, so the reply goes through the
outbound tunnel, to the gateway named by payload bytes 32..63, and nothing goes to
transports. When the bit is clear the reply goes to transports, addressed with payload
bytes 0..31, and nothing goes through an outbound tunnel. -/
theorem database_lookup_reply (env : Env) (w : World) (mem buf : List Nat) (len : Nat)
    (hmem : 83 ≤ mem.length) :
    (CreateDatabaseSearchReply env w mem buf).2.typeID =
      I2NPMessageType.eI2NPDatabaseSearchReply.toByte ∧
    (CreateDatabaseSearchReply env w mem buf).2.payload =
      readAt buf 0 32 ++ [0] ++ readAt env.context.identHash 0 32 ∧
    be32toh (readAt buf 64 4) =
      byteAt buf 64 % 256 * 16777216 + byteAt buf 65 % 256 * 65536 +
        byteAt buf 66 % 256 * 256 + byteAt buf 67 % 256 ∧
    (byteAt buf 64 &&& 0x01 ≠ 0 →
      16777216 ≤ be32toh (readAt buf 64 4) ∧
      (HandleDatabaseLookupMsg env w mem buf len).outboundSent =
        w.outboundSent ++ [(readAt buf 32 32, be32toh (readAt buf 64 4),
          (CreateDatabaseSearchReply env w mem buf).2)] ∧
      (HandleDatabaseLookupMsg env w mem buf len).sent = w.sent) ∧
    (byteAt buf 64 &&& 0x01 = 0 →
      (HandleDatabaseLookupMsg env w mem buf len).sent =
        w.sent ++ [(readAt buf 0 32, (CreateDatabaseSearchReply env w mem buf).2)] ∧
      (HandleDatabaseLookupMsg env w mem buf len).outboundSent = w.outboundSent) := by
  obtain ⟨hty, hpay⟩ := CreateDatabaseSearchReply_payload env w mem buf hmem
  refine ⟨hty, hpay, be32toh_readAt buf 64, ?_, ?_⟩
  · intro h
    rw [HandleDatabaseLookupMsg_of_flag env w mem buf len h]
    refine ⟨replyTunnelID_of_flag buf h, ?_, ?_⟩
    · simp only [OutboundSendTunnelDataMsg, CreateDatabaseSearchReply_world]
    · simp only [OutboundSendTunnelDataMsg, CreateDatabaseSearchReply_world]
  · intro h
    rw [HandleDatabaseLookupMsg_of_no_flag env w mem buf len h]
    constructor
    · simp only [SendMessage, CreateDatabaseSearchReply_world]
    · simp only [SendMessage, CreateDatabaseSearchReply_world]

theorem database_lookup_reply_witness :
    (HandleDatabaseLookupMsg sampleEnv sampleWorld sampleMem sampleTunnelLookup 71).outboundSent =
      [(List.replicate 32 2, 16777234,
        (CreateDatabaseSearchReply sampleEnv sampleWorld sampleMem sampleTunnelLookup).2)] ∧
    (HandleDatabaseLookupMsg sampleEnv sampleWorld sampleMem sampleTunnelLookup 71).sent = [] ∧
    (CreateDatabaseSearchReply sampleEnv sampleWorld sampleMem sampleTunnelLookup).2.payload =
      List.replicate 32 1 ++ [0] ++ List.replicate 32 0 ∧
    (HandleDatabaseLookupMsg sampleEnv sampleWorld sampleMem sampleDirectLookup 67).sent =
      [(List.replicate 32 1,
        (CreateDatabaseSearchReply sampleEnv sampleWorld sampleMem sampleDirectLookup).2)] ∧
    (HandleDatabaseLookupMsg sampleEnv sampleWorld sampleMem sampleDirectLookup 67).outboundSent
      = [] :=
  have h := database_lookup_reply sampleEnv sampleWorld sampleMem sampleTunnelLookup 71
    (by rw [length_sampleMem]; decide)
  have d := database_lookup_reply sampleEnv sampleWorld sampleMem sampleDirectLookup 67
    (by rw [length_sampleMem]; decide)
  have e1 : readAt sampleTunnelLookup 32 32 = List.replicate 32 2 := by decide
  have e2 : be32toh (readAt sampleTunnelLookup 64 4) = 16777234 := by decide
  have e3 : readAt sampleDirectLookup 0 32 = List.replicate 32 1 := by decide
  ⟨(h.2.2.2.1 (by decide)).2.1.trans (by rw [e1, e2]; rfl), (h.2.2.2.1 (by decide)).2.2,
    h.2.1.trans (by decide), (d.2.2.2.2 (by decide)).1.trans (by rw [e3]; rfl),
    (d.2.2.2.2 (by decide)).2⟩

/-! ## C22: the response record built in place -/

theorem readAt_one (buf : List Nat) (p : Nat) : readAt buf p 1 = [byteAt buf p] := rfl

theorem HandleBuildRequestRecords_records_of_own (env : Env) (w : World) (num : Nat)
    (records clearText : List Nat) (i : Nat) (hown : FirstOwnRecord env records num i) :
    (HandleBuildRequestRecords env w num records clearText).records =
      encryptRecords env
        (clearTextReplyKey (HandleBuildRequestRecords env w num records clearText).clearText)
        (clearTextReplyIV (HandleBuildRequestRecords env w num records clearText).clearText)
        num (replaceRecordToReply env records i) := by
  obtain ⟨hi, h1, h2⟩ := hown
  rw [HandleBuildRequestRecords_of_own env w num records clearText i hi
    ((isOurRecord_eq_true_iff env records i).mpr h1)
    (fun k hk => (isOurRecord_eq_false_iff env records k).mpr (h2 k hk))]

theorem replaceRecordToReply_hash (env : Env) (records : List Nat) (i : Nat)
    (hfit : sizeofBuildRecord * (i + 1) ≤ records.length) :
    byteAt (replaceRecordToReply env records i) (sizeofBuildRecord * i + responseRetPos) = 0 ∧
    readAt (replaceRecordToReply env records i) (sizeofBuildRecord * i + responseHashPos) 32 =
      SHA256 env
        (readAt (replaceRecordToReply env records i) (sizeofBuildRecord * i + responsePaddingPos)
          sizeofResponsePadding ++
        [byteAt (replaceRecordToReply env records i) (sizeofBuildRecord * i + responseRetPos)]) ∧
    readAt (replaceRecordToReply env records i) (sizeofBuildRecord * i + responsePaddingPos)
        sizeofResponsePadding =
      readAt records (sizeofBuildRecord * i + responsePaddingPos) sizeofResponsePadding := by
  obtain ⟨h1, h2, h3⟩ := replaceRecordToReply_slot env records i hfit
  simp only [sizeofBuildRecord, responseRetPos, responseHashPos, responsePaddingPos,
    sizeofResponsePadding, Nat.add_zero] at hfit h1 h2 h3 ⊢
  rw [byteAt_readAt, if_pos (by omega)] at h1
  rw [readAt_readAt _ _ _ _ _ (by omega), readAt_readAt _ _ _ _ _ (by omega),
    Nat.add_zero] at h2
  rw [readAt_readAt _ _ _ _ _ (by omega), Nat.add_zero] at h3
  refine ⟨h1, ?_, h3⟩
  rw [h2, readAt_add, readAt_one, Nat.add_zero]

/-- C22: when HandleBuildRequestRecords finds its own record at index i, the record
array it hands to the encryption loop has a response record in slot i: ret = 0 and hash
= SHA-256 (padding | ret), computed over the padding bytes as they stand in the slot,
which are the bytes the request record had there, followed by the ret byte. No byte
outside the ret and hash fields of slot i is written, so every other slot is as
received. -/
theorem response_record_in_place (env : Env) (w : World) (num : Nat)
    (records clearText : List Nat) (i : Nat) (hown : FirstOwnRecord env records num i)
    (hfit : sizeofBuildRecord * (i + 1) ≤ records.length) :
    (HandleBuildRequestRecords env w num records clearText).records =
      encryptRecords env
        (clearTextReplyKey (HandleBuildRequestRecords env w num records clearText).clearText)
        (clearTextReplyIV (HandleBuildRequestRecords env w num records clearText).clearText)
        num (replaceRecordToReply env records i) ∧
    byteAt (replaceRecordToReply env records i) (sizeofBuildRecord * i + responseRetPos) = 0 ∧
    readAt (replaceRecordToReply env records i) (sizeofBuildRecord * i + responseHashPos) 32 =
      SHA256 env
        (readAt (replaceRecordToReply env records i) (sizeofBuildRecord * i + responsePaddingPos)
          sizeofResponsePadding ++
        [byteAt (replaceRecordToReply env records i) (sizeofBuildRecord * i + responseRetPos)]) ∧
    readAt (replaceRecordToReply env records i) (sizeofBuildRecord * i + responsePaddingPos)
        sizeofResponsePadding =
      readAt records (sizeofBuildRecord * i + responsePaddingPos) sizeofResponsePadding ∧
    (∀ j, j ≠ i →
      readAt (replaceRecordToReply env records i) (sizeofBuildRecord * j) sizeofBuildRecord =
        readAt records (sizeofBuildRecord * j) sizeofBuildRecord) ∧
    (∀ p, p < sizeofBuildRecord * i + responseRetPos ∨ sizeofBuildRecord * (i + 1) ≤ p →
      byteAt (replaceRecordToReply env records i) p = byteAt records p) ∧
    (replaceRecordToReply env records i).length = records.length := by
  obtain ⟨h1, h2, h3⟩ := replaceRecordToReply_hash env records i hfit
  exact ⟨HandleBuildRequestRecords_records_of_own env w num records clearText i hown, h1, h2,
    h3, fun j hj => readAt_replaceRecordToReply_of_ne env records i j hj,
    fun p hp => byteAt_replaceRecordToReply_of_outside env records i p hp,
    length_replaceRecordToReply env records i⟩

theorem response_record_in_place_witness :
    byteAt (replaceRecordToReply sampleEnv sampleRecords 1)
      (sizeofBuildRecord * 1 + responseRetPos) = 0 ∧
    readAt (replaceRecordToReply sampleEnv sampleRecords 1)
        (sizeofBuildRecord * 1 + responseHashPos) 32 =
      SHA256 sampleEnv
        (readAt (replaceRecordToReply sampleEnv sampleRecords 1)
          (sizeofBuildRecord * 1 + responsePaddingPos) sizeofResponsePadding ++
        [byteAt (replaceRecordToReply sampleEnv sampleRecords 1)
          (sizeofBuildRecord * 1 + responseRetPos)]) ∧
    readAt (replaceRecordToReply sampleEnv sampleRecords 1) (sizeofBuildRecord * 0)
        sizeofBuildRecord =
      readAt sampleRecords (sizeofBuildRecord * 0) sizeofBuildRecord :=
  have h := response_record_in_place sampleEnv sampleWorld 2 sampleRecords [] 1
    ⟨by decide, sampleRecords_second_is_ours, sampleRecords_first_is_not_ours⟩
    (by rw [length_sampleRecords]; decide)
  ⟨h.2.1, h.2.2.1, h.2.2.2.2.1 0 (by decide)⟩

/-! ## C23: RenewI2NPMessageHeader -/

theorem RenewI2NPMessageHeader_some (env : Env) (w : World) (msg : I2NPMessage) :
    RenewI2NPMessageHeader env w (some msg) =
      ({ w with I2NPmsgID := (w.I2NPmsgID + 1) % 4294967296, clockReads := w.clockReads + 1 },
       some
        { buf := writeAt msg.buf (msg.offset + 1)
            (htobe32 w.I2NPmsgID ++ htobe64 (env.clock w.clockReads + 5000)),
          len := msg.len, offset := msg.offset, fromTunnel := msg.fromTunnel }) := by
  simp only [RenewI2NPMessageHeader, GetMillisecondsSinceEpoch, I2NPMessage.GetHeader,
    I2NPMessage.GetBuffer]
  rw [writeAt_writeAt_next _ _ (msg.offset + 5) _ _ (by rw [length_htobe32])]

theorem length_renewedFields (a b : Nat) : (htobe32 a ++ htobe64 b).length = 12 := rfl

/-- C23: RenewI2NPMessageHeader changes only the msg_id and the expiration of a message.
The msg_id becomes the current counter value and the counter advances by 1 mod 2^32; the
expiration becomes the clock reading + 5000. The type, size and checksum fields, every
payload byte and every other byte of the buffer are unchanged, so a checksum and a size
that were valid before the call are valid after it. Called with the null pointer it
changes nothing, the counter included. -/
theorem renew_header_frame (env : Env) (w : World) (msg : I2NPMessage)
    (hfit : msg.offset + 16 ≤ msg.buf.length) :
    RenewI2NPMessageHeader env w none = (w, none) ∧
    (RenewI2NPMessageHeader env w (some msg)).1 =
      { w with I2NPmsgID := (w.I2NPmsgID + 1) % 4294967296, clockReads := w.clockReads + 1 } ∧
    ∃ m, (RenewI2NPMessageHeader env w (some msg)).2 = some m ∧
      m.msgID = w.I2NPmsgID % 4294967296 ∧
      m.expiration = (env.clock w.clockReads + 5000) % 18446744073709551616 ∧
      m.typeID = msg.typeID ∧ m.size = msg.size ∧ m.chks = msg.chks ∧
      m.payload = msg.payload ∧
      m.offset = msg.offset ∧ m.len = msg.len ∧ m.fromTunnel = msg.fromTunnel ∧
      m.buf.length = msg.buf.length ∧
      (∀ i, i < msg.offset + 1 ∨ msg.offset + 13 ≤ i → byteAt m.buf i = byteAt msg.buf i) ∧
      (msg.chks = byteAt (SHA256 env msg.payload) 0 →
        m.chks = byteAt (SHA256 env m.payload) 0) ∧
      (msg.size = msg.GetLength - sizeofI2NPHeader →
        m.size = m.GetLength - sizeofI2NPHeader) := by
  refine ⟨rfl, ?_, ?_⟩
  · rw [RenewI2NPMessageHeader_some]
  · rw [RenewI2NPMessageHeader_some]
    have hout : ∀ i, i < msg.offset + 1 ∨ msg.offset + 13 ≤ i →
        byteAt (writeAt msg.buf (msg.offset + 1)
          (htobe32 w.I2NPmsgID ++ htobe64 (env.clock w.clockReads + 5000))) i =
        byteAt msg.buf i := by
      intro i hi
      apply byteAt_writeAt_of_outside
      rw [length_renewedFields]
      omega
    have hrd : ∀ p n, p + n ≤ msg.offset + 1 ∨ msg.offset + 13 ≤ p →
        readAt (writeAt msg.buf (msg.offset + 1)
          (htobe32 w.I2NPmsgID ++ htobe64 (env.clock w.clockReads + 5000))) p n =
        readAt msg.buf p n := by
      intro p n hp
      apply readAt_writeAt_of_disjoint
      rw [length_renewedFields]
      omega
    have hin : ∀ k n, k + n ≤ 12 →
        readAt (writeAt msg.buf (msg.offset + 1)
          (htobe32 w.I2NPmsgID ++ htobe64 (env.clock w.clockReads + 5000)))
          (msg.offset + 1 + k) n =
        readAt (htobe32 w.I2NPmsgID ++ htobe64 (env.clock w.clockReads + 5000)) k n := by
      intro k n hk
      apply readAt_writeAt_sub
      · rw [length_renewedFields]; omega
      · rw [length_renewedFields]; exact hk
    have hty : byteAt (writeAt msg.buf (msg.offset + 1)
        (htobe32 w.I2NPmsgID ++ htobe64 (env.clock w.clockReads + 5000))) msg.offset =
        byteAt msg.buf msg.offset := hout _ (Or.inl (by omega))
    have hsz := hrd (msg.offset + 13) 2 (Or.inr (Nat.le_refl _))
    have hck := hout (msg.offset + 15) (Or.inr (by omega))
    have hpay := hrd (msg.offset + 16) (msg.len - msg.offset - 16) (Or.inr (by omega))
    have hid := hin 0 4 (by omega)
    have hex := hin 4 8 (by omega)
    rw [Nat.add_zero, readAt_append_left _ _ _ _ (by rw [length_htobe32]),
      readAt_of_length _ _ (length_htobe32 _)] at hid
    rw [readAt_append_right _ _ _ _ (by rw [length_htobe32]), length_htobe32, Nat.sub_self,
      readAt_of_length _ _ (length_htobe64 _)] at hex
    have e5 : msg.offset + 1 + 4 = msg.offset + 5 := by omega
    rw [e5] at hex
    refine ⟨_, rfl, ?_, ?_, ?_, ?_, ?_, ?_, rfl, rfl, rfl, ?_, hout, ?_, ?_⟩
    · simp only [I2NPMessage.msgID, I2NPMessage.GetHeader, I2NPMessage.GetBuffer]
      rw [hid, be32toh_htobe32]
    · simp only [I2NPMessage.expiration, I2NPMessage.GetHeader, I2NPMessage.GetBuffer]
      rw [hex, be64toh_htobe64]
    · simp only [I2NPMessage.typeID, I2NPMessage.GetHeader, I2NPMessage.GetBuffer]
      exact hty
    · simp only [I2NPMessage.size, I2NPMessage.GetHeader, I2NPMessage.GetBuffer]
      rw [hsz]
    · simp only [I2NPMessage.chks, I2NPMessage.GetHeader, I2NPMessage.GetBuffer]
      exact hck
    · simp only [I2NPMessage.payload, I2NPMessage.GetPayload, I2NPMessage.GetBuffer,
        I2NPMessage.GetLength, sizeofI2NPHeader]
      exact hpay
    · simp only [length_writeAt]
    · intro hv
      simp only [I2NPMessage.chks, I2NPMessage.payload, I2NPMessage.GetHeader,
        I2NPMessage.GetPayload, I2NPMessage.GetBuffer, I2NPMessage.GetLength,
        sizeofI2NPHeader] at hv ⊢
      rw [hck, hpay]
      exact hv
    · intro hv
      simp only [I2NPMessage.size, I2NPMessage.GetHeader, I2NPMessage.GetBuffer,
        I2NPMessage.GetLength, sizeofI2NPHeader] at hv ⊢
      rw [hsz]
      exact hv

theorem renew_header_frame_witness :
    (RenewI2NPMessageHeader sampleEnv sampleWorld (some (CreateI2NPMessage sampleEnv sampleWorld
      (List.replicate 32 0) .eI2NPTunnelData [1, 2, 3] 3 0).2)).1.I2NPmsgID = 0 ∧
    ∃ m, (RenewI2NPMessageHeader sampleEnv sampleWorld (some (CreateI2NPMessage sampleEnv
        sampleWorld (List.replicate 32 0) .eI2NPTunnelData [1, 2, 3] 3 0).2)).2 = some m ∧
      m.msgID = 4294967295 ∧ m.expiration = 6000 ∧ m.payload = [1, 2, 3] ∧
      m.chks = byteAt (SHA256 sampleEnv m.payload) 0 ∧ m.size = 3 := by
  obtain ⟨_, hw, m, hm, hid, hex, _, hsz, _, hpay, _, _, _, _, _, hck, _⟩ :=
    renew_header_frame sampleEnv sampleWorld (CreateI2NPMessage sampleEnv sampleWorld
      (List.replicate 32 0) .eI2NPTunnelData [1, 2, 3] 3 0).2 (by decide)
  refine ⟨?_, m, hm, hid.trans (by decide), hex.trans (by decide), hpay.trans (by decide),
    hck (by decide), hsz.trans (by decide)⟩
  rw [hw]
  decide

end I2NP
